import Mathlib

/-!
# Export senders and transforms: counter, client holder, sender lifecycle, readings

A shallow embedding of the Go sources of the export senders, the database
writers, the reading filter and conversions, the Sparkplug converter, the MQTT
trigger and the device resource cache (`internal/common/xpert`, `internal/app`,
`internal/cache`, `internal/trigger/mqtt`, `pkg/transforms/xpert`) together
with theorems about them.

Conventions of the embedding

* Go's `uint` and `int` are the 64-bit types of the amd64/arm64 builds: a
  `uint` is a `Nat` below `2 ^ 64`, an `int` is an `Int` in
  `[-2 ^ 63, 2 ^ 63)`, and every arithmetic operation and conversion that can
  wrap is written with an explicit reduction.
* Mutexes are not modelled: every method is embedded as the sequential
  read-modify-write it performs while it holds its lock.
* A `nil` error is `none`.
* A run-time panic is the `error` case of an `Except Panic` result.
* A `float64` is a sign, a mantissa and a binary exponent; the conversions
  between floats and text are a parameter (`FloatLib`), with one instance
  that covers decimal spellings.
-/

namespace Xpert

/-! ## Machine integers -/

/-- Number of values of a Go `uint` (64-bit build). -/
def uintSize : Nat := 2 ^ 64

/-- Smallest value that does not fit a Go `int` (64-bit build). -/
def intBound : Nat := 2 ^ 63

/-- A natural number is a value of Go's `uint`. -/
def IsUint (x : Nat) : Prop := x < uintSize

instance (x : Nat) : Decidable (IsUint x) := by unfold IsUint; infer_instance

/-- Go's conversion `int(x)` of a `uint` value: two's complement reinterpretation. -/
def uintToInt (x : Nat) : Int :=
  if x < intBound then (x : Int) else (x : Int) - (uintSize : Int)

/-- Wrap-around of a mathematical integer into the range of Go's `int`. -/
def wrapInt (z : Int) : Int :=
  (z + (intBound : Int)) % (uintSize : Int) - (intBound : Int)

/-- Go's conversion `uint(z)` of an `int` value: two's complement reinterpretation. -/
def intToUint (z : Int) : Nat := (z % (uintSize : Int)).toNat

/-! ## `counter.go`: `AtomicCounter` -/

/-- The value of `DefaultCounterMaximum`. -/
def DefaultCounterMaximum : Nat := 100

/-- The fields `maximum` and `count` of `AtomicCounter` (the mutex is not modelled). -/
structure AtomicCounter where
  maximum : Nat
  count : Nat
deriving DecidableEq, Repr

/-- The errors `Set` and `Add` build with `fmt.Errorf`, by the call that produced them. -/
inductive CounterError where
  | setExceedsMaximum (v maximum : Nat)
  | addExceedsMaximum (maximum : Nat)
deriving DecidableEq, Repr

/-- Embedding of `NewCounter(maximum, initCount)`: both fields are stored as given. -/
def NewCounter (maximum initCount : Nat) : AtomicCounter :=
  { maximum := maximum, count := initCount }

/-- Embedding of `Value()`. -/
def AtomicCounter.Value (i : AtomicCounter) : Nat := i.count

/-- Embedding of `Set(v)`: the counter afterwards and the returned error. -/
def AtomicCounter.Set (i : AtomicCounter) (v : Nat) : AtomicCounter × Option CounterError :=
  if v > i.maximum then
    (i, some (CounterError.setExceedsMaximum v i.maximum))
  else
    ({ i with count := v }, none)

/-- Embedding of `Add(delta)`: `newCount := i.count + delta` is a `uint` addition, which wraps. -/
def AtomicCounter.Add (i : AtomicCounter) (delta : Nat) : AtomicCounter × Option CounterError :=
  let newCount := (i.count + delta) % uintSize
  if newCount > i.maximum then
    (i, some (CounterError.addExceedsMaximum i.maximum))
  else
    ({ i with count := newCount }, none)

/-- Embedding of `Subtract(delta)`: `newCount := int(i.count) - int(delta)` is an `int`
subtraction of two converted `uint` values; a negative result is replaced by zero and the
result is converted back with `uint(newCount)`. -/
def AtomicCounter.Subtract (i : AtomicCounter) (delta : Nat) : AtomicCounter :=
  let newCount := wrapInt (uintToInt i.count - uintToInt delta)
  let newCount := if newCount < 0 then 0 else newCount
  { i with count := intToUint newCount }

/-- One call on a counter: `Set(v)`, `Add(delta)` or `Subtract(delta)`. -/
inductive CounterCall where
  | set (v : Nat)
  | add (delta : Nat)
  | subtract (delta : Nat)
deriving DecidableEq, Repr

/-- The counter after one call (a returned error is dropped). -/
def AtomicCounter.call (i : AtomicCounter) : CounterCall → AtomicCounter
  | .set v => (i.Set v).1
  | .add d => (i.Add d).1
  | .subtract d => i.Subtract d

/-- The counter states observed after construction and after each call of a sequence. -/
def AtomicCounter.history (i : AtomicCounter) : List CounterCall → List AtomicCounter
  | [] => [i]
  | c :: cs => i :: (i.call c).history cs

/-- A `Subtract` argument that fits a non-negative `int` or is `2 ^ 63` itself. -/
def CounterCall.subtractFitsInt : CounterCall → Prop
  | .subtract d => d ≤ intBound
  | _ => True

instance (c : CounterCall) : Decidable c.subtractFitsInt := by
  cases c <;> unfold CounterCall.subtractFitsInt <;> infer_instance

/-! ## External collaborators of the senders

Logging calls and the registration and update of metrics in the metrics registry have no
effect on any state modelled here and are left out. -/

/-- An instant of `time.Time`: `a.Before(b)` is `a < b`, and the zero `time.Time` is `0`. -/
abbrev Time := Nat

/-- A Go `[]byte` value: `none` is the nil slice. -/
abbrev Bytes := Option (List UInt8)

/-- Identity of a client object built by `MQTT.NewClient`. -/
abbrev ClientId := Nat

/-- A call made on the client factory or on a paho MQTT client. -/
inductive MqttCall where
  | create
  | disconnect (client : ClientId) (quiesce : Nat)
  | connect (client : ClientId)
  | publish (client : ClientId) (topic : String) (qos : Nat) (retain : Bool) (payload : Bytes)
deriving DecidableEq, Repr

/-- The MQTT library as the senders see it: the clients for which `IsConnected()` reports
true, and the calls received so far, oldest first. -/
structure MqttWorld where
  connected : List ClientId
  calls : List MqttCall
deriving DecidableEq, Repr

/-- What `client.IsConnected()` reports. -/
def MqttWorld.IsConnected (w : MqttWorld) (client : ClientId) : Bool :=
  w.connected.contains client

/-- Appends a call to the log. -/
def MqttWorld.record (w : MqttWorld) (call : MqttCall) : MqttWorld :=
  { w with calls := w.calls ++ [call] }

/-- Effect of `client.Disconnect(quiesce)`: the call is received and the client reports not
connected afterwards. -/
def MqttWorld.Disconnect (w : MqttWorld) (client : ClientId) (quiesce : Nat) : MqttWorld :=
  { connected := w.connected.filter (fun c => c != client),
    calls := w.calls ++ [MqttCall.disconnect client quiesce] }

/-- Number of `Disconnect` calls a client has received. -/
def MqttWorld.disconnectCount (w : MqttWorld) (client : ClientId) : Nat :=
  (w.calls.filter (fun call =>
    match call with
    | MqttCall.disconnect c _ => c == client
    | _ => false)).length

/-- Number of `Create` calls the client factory has received. -/
def MqttWorld.createCount (w : MqttWorld) : Nat :=
  (w.calls.filter (fun call => call == MqttCall.create)).length

/-! ## `externalmqttclient.go`: `SharedMQTTClient` -/

/-- The fields of `SharedMQTTClient`; `clientOptions` is the identity of the
`*pahoMQTT.ClientOptions` it points to. -/
structure SharedMQTTClient where
  client : Option ClientId
  secretsLastRetrieved : Time
  clientOptions : Option Nat
deriving DecidableEq, Repr

/-- Embedding of `Get()`. -/
def SharedMQTTClient.Get (c : SharedMQTTClient) : Option ClientId × Time :=
  (c.client, c.secretsLastRetrieved)

/-- First statement of `Set`: `if c.client != nil && c.client.IsConnected() { c.client.Disconnect(0) }`. -/
def SharedMQTTClient.Set.disconnectHeld (s : SharedMQTTClient × MqttWorld) :
    SharedMQTTClient × MqttWorld :=
  match s.1.client with
  | some held => if s.2.IsConnected held then (s.1, s.2.Disconnect held 0) else s
  | none => s

/-- Second statement of `Set`: `c.client = client`. -/
def SharedMQTTClient.Set.assignClient (client : Option ClientId)
    (s : SharedMQTTClient × MqttWorld) : SharedMQTTClient × MqttWorld :=
  ({ s.1 with client := client }, s.2)

/-- Third statement of `Set`: `c.secretsLastRetrieved = secretsLastRetrieved`. -/
def SharedMQTTClient.Set.assignSecretsLastRetrieved (secretsLastRetrieved : Time)
    (s : SharedMQTTClient × MqttWorld) : SharedMQTTClient × MqttWorld :=
  ({ s.1 with secretsLastRetrieved := secretsLastRetrieved }, s.2)

/-- The statements of `Set(client, secretsLastRetrieved)` in program order. -/
def SharedMQTTClient.Set.statements (client : Option ClientId) (secretsLastRetrieved : Time) :
    List (SharedMQTTClient × MqttWorld → SharedMQTTClient × MqttWorld) :=
  [SharedMQTTClient.Set.disconnectHeld,
   SharedMQTTClient.Set.assignClient client,
   SharedMQTTClient.Set.assignSecretsLastRetrieved secretsLastRetrieved]

/-- Embedding of `Set(client, secretsLastRetrieved)`: the holder and the MQTT library after
the three statements have run. -/
def SharedMQTTClient.Set (c : SharedMQTTClient) (w : MqttWorld) (client : Option ClientId)
    (secretsLastRetrieved : Time) : SharedMQTTClient × MqttWorld :=
  (SharedMQTTClient.Set.statements client secretsLastRetrieved).foldl (fun s f => f s) (c, w)

/-- The states `Set` passes through: before the call and after each of its statements. -/
def SharedMQTTClient.SetTrace (c : SharedMQTTClient) (w : MqttWorld) (client : Option ClientId)
    (secretsLastRetrieved : Time) : List (SharedMQTTClient × MqttWorld) :=
  (SharedMQTTClient.Set.statements client secretsLastRetrieved).scanl (fun s f => f s) (c, w)

/-- Embedding of `GetClientOptions()`. -/
def SharedMQTTClient.GetClientOptions (c : SharedMQTTClient) : Option Nat := c.clientOptions

/-- Embedding of `SetClientOptions(opts)`. -/
def SharedMQTTClient.SetClientOptions (c : SharedMQTTClient) (opts : Option Nat) :
    SharedMQTTClient :=
  { c with clientOptions := opts }

/-! ## The function context -/

/-- The parts of `AppFunctionContext` the senders read and write. -/
structure AppContext where
  secretsLastUpdated : Time
  retryData : Bytes
  sharedMQTTClient : SharedMQTTClient
  mqttConnectionWaitingCounter : AtomicCounter
deriving DecidableEq, Repr

/-- Modelled from the spec: `SetRetryData(bytes)` of the context, whose implementation
(the SDK's `internal/appfunction/context.go`) is not among the sources; it stores the
payload that `RetryData()` returns. -/
def AppContext.SetRetryData (ctx : AppContext) (payload : Bytes) : AppContext :=
  { ctx with retryData := payload }

/-- Modelled from the spec: `RetryData()` of the context (see `AppContext.SetRetryData`). -/
def AppContext.RetryData (ctx : AppContext) : Bytes := ctx.retryData

/-- Embedding of `SecretsLastUpdated()`. -/
def AppContext.SecretsLastUpdated (ctx : AppContext) : Time := ctx.secretsLastUpdated

/-! ## `xpertmqtt.go`: `BaseMqttSender` -/

/-- Embedding of `BaseMqttConfig`; `QoS` is a `byte`. -/
structure BaseMqttConfig where
  BrokerAddress : String
  ClientId : String
  AutoReconnect : Bool
  Topic : String
  QoS : Nat
  Retain : Bool
deriving DecidableEq, Repr

/-- The zero value of `BaseMqttConfig`. -/
def BaseMqttConfig.zero : BaseMqttConfig :=
  { BrokerAddress := "", ClientId := "", AutoReconnect := false, Topic := "", QoS := 0,
    Retain := false }

/-- The errors a send returns, by the statement that produced them. -/
inductive SendError where
  | noEventReceived
  | coerceType (cause : String)
  | factory (cause : String)
  | counter (e : CounterError)
  | clientNotInitialized
  | connectTimeout (brokerAddress : String)
  | connectFailed (brokerAddress : String) (cause : String)
  | applyValues (cause : String)
  | publishTimeout (brokerAddress : String)
  | publishFailed (brokerAddress : String) (cause : String)
  | unsupportedDataType
  | unsupportedItem (cause : String)
  | marshal (cause : String)
  | persistingForRetry
deriving DecidableEq, Repr

/-- The fields of `BaseMqttSender`. The factory is part of `MqttEnv`; `mqttSizeMetrics` is
`none` for a nil histogram and otherwise lists the sizes recorded with `Update`. -/
structure BaseMqttSender where
  config : BaseMqttConfig
  client : Option ClientId
  persistOnError : Bool
  secretsLastRetrieved : Time
  usingSharedClient : Bool
  mqttSizeMetrics : Option (List Nat)
deriving DecidableEq, Repr

/-- What the collaborators answer during one send: each of them is asked at most once.
`δ` is the type of the non-nil values the pipeline passes as `data`. -/
structure MqttEnv (δ : Type) where
  /-- Result of `util.CoerceType(data)`. -/
  coerceType : δ → Except String Bytes
  /-- Result of `mqttClientFactory.Create(ctx)`. -/
  create : Except String ClientId
  /-- Value of `time.Now()` in `initializeMQTTClient`. -/
  now : Time
  /-- Result of `token.WaitTimeout(WaitDuration)` on the connect token. -/
  connectWait : Bool
  /-- Result of `token.Error()` on the connect token. -/
  connectError : Option String
  /-- Result of `ctx.ApplyValues(topic)`. -/
  applyValues : String → Except String String
  /-- Result of `token.WaitTimeout(WaitDuration)` on the publish token. -/
  publishWait : Bool
  /-- Result of `token.Error()` on the publish token. -/
  publishError : Option String

/-- A sender together with the context and the MQTT library it acts on. -/
structure MqttState where
  sender : BaseMqttSender
  ctx : AppContext
  world : MqttWorld
deriving DecidableEq, Repr

/-- Embedding of `initializeMQTTClient(ctx)`. -/
def BaseMqttSender.initializeMQTTClient {δ : Type} (env : MqttEnv δ) (s : MqttState) :
    MqttState × Option SendError :=
  let s :=
    if s.sender.usingSharedClient then
      let got := s.ctx.sharedMQTTClient.Get
      { s with sender := { s.sender with client := got.1, secretsLastRetrieved := got.2 } }
    else s
  if s.sender.client.isSome && !(decide (s.sender.secretsLastRetrieved < s.ctx.SecretsLastUpdated)) then
    (s, none)
  else
    let s := { s with world := s.world.record MqttCall.create }
    match env.create with
    | .error cause => (s, some (SendError.factory cause))
    | .ok client =>
      let s := { s with sender :=
        { s.sender with client := some client, secretsLastRetrieved := env.now } }
      if s.sender.usingSharedClient then
        let r := s.ctx.sharedMQTTClient.Set s.world s.sender.client s.sender.secretsLastRetrieved
        ({ s with ctx := { s.ctx with sharedMQTTClient := r.1 }, world := r.2 }, none)
      else
        (s, none)

/-- The part of `connect` that runs between taking the shared mutex and the deferred
function. -/
def BaseMqttSender.connectLocked {δ : Type} (env : MqttEnv δ) (s : MqttState) :
    MqttState × Option SendError :=
  match s.sender.client with
  | none => (s, some SendError.clientNotInitialized)
  | some client =>
    if s.world.IsConnected client then
      (s, none)
    else
      let s := { s with world := s.world.record (MqttCall.connect client) }
      if !env.connectWait then
        (s, some (SendError.connectTimeout s.sender.config.BrokerAddress))
      else
        match env.connectError with
        | some cause => (s, some (SendError.connectFailed s.sender.config.BrokerAddress cause))
        | none =>
          ({ s with world := { s.world with connected := client :: s.world.connected } }, none)

/-- Embedding of `connect(ctx)`: the waiting counter is incremented first, and the deferred
function decrements it on every path that passed the increment. -/
def BaseMqttSender.connect {δ : Type} (env : MqttEnv δ) (s : MqttState) :
    MqttState × Option SendError :=
  let added := s.ctx.mqttConnectionWaitingCounter.Add 1
  let s := { s with ctx := { s.ctx with mqttConnectionWaitingCounter := added.1 } }
  match added.2 with
  | some e => (s, some (SendError.counter e))
  | none =>
    let r := BaseMqttSender.connectLocked env s
    ({ r.1 with ctx := { r.1.ctx with
        mqttConnectionWaitingCounter := r.1.ctx.mqttConnectionWaitingCounter.Subtract 1 } },
      r.2)

/-- Embedding of `setRetryData(ctx, exportData)`. -/
def BaseMqttSender.setRetryData (s : MqttState) (exportData : Bytes) : MqttState :=
  if s.sender.persistOnError then
    { s with ctx := s.ctx.SetRetryData exportData }
  else s

/-- Length of a `[]byte`. -/
def Bytes.len (b : Bytes) : Nat := (b.getD []).length

/-- The connection step of `publish` (`if !sender.client.IsConnected() { ... }`): a failed
`connect` hands the payload to `setRetryData` and ends `publish` with the error. -/
def BaseMqttSender.publishConnect {δ : Type} (env : MqttEnv δ) (s : MqttState)
    (exportData : Bytes) (client : ClientId) : MqttState × Option SendError :=
  if !s.world.IsConnected client then
    let r := BaseMqttSender.connect env s
    match r.2 with
    | some e => (BaseMqttSender.setRetryData r.1 exportData, some e)
    | none => (r.1, none)
  else (s, none)

/-- The rest of `publish`, from `ctx.ApplyValues(sender.config.Topic)` on: topic
substitution, `client.Publish`, the handling of its token and the size metric. -/
def BaseMqttSender.publishMessage {δ : Type} (env : MqttEnv δ) (s : MqttState)
    (exportData : Bytes) (client : ClientId) : MqttState × Option SendError :=
  match env.applyValues s.sender.config.Topic with
  | .error cause => (s, some (SendError.applyValues cause))
  | .ok topic =>
    let call :=
      MqttCall.publish client topic s.sender.config.QoS s.sender.config.Retain exportData
    let s := { s with world := s.world.record call }
    if !env.publishWait then
      (BaseMqttSender.setRetryData s exportData,
        some (SendError.publishTimeout s.sender.config.BrokerAddress))
    else
      match env.publishError with
      | some cause =>
        (BaseMqttSender.setRetryData s exportData,
          some (SendError.publishFailed s.sender.config.BrokerAddress cause))
      | none =>
        let samples := s.sender.mqttSizeMetrics.getD []
        ({ s with sender :=
            { s.sender with mqttSizeMetrics := some (samples ++ [Bytes.len exportData]) } },
          none)

/-- Embedding of `publish(ctx, exportData)`. -/
def BaseMqttSender.publish {δ : Type} (env : MqttEnv δ) (s : MqttState) (exportData : Bytes) :
    MqttState × Option SendError :=
  match s.sender.client with
  | none => (s, some SendError.clientNotInitialized)
  | some client =>
    let r := BaseMqttSender.publishConnect env s exportData client
    match r.2 with
    | some e => (r.1, some e)
    | none => BaseMqttSender.publishMessage env r.1 exportData client

/-! ## `regularmqtt.go`: `RegularMQTTSender.Send` -/

/-- The second value a pipeline function returns: nil, an error, or data. -/
inductive Result (ε δ : Type) where
  | nil
  | error (e : ε)
  | value (d : δ)
  | bytes (b : Bytes)

/-- Embedding of `RegularMQTTSender.Send(ctx, data)`; `data = none` is a nil `data`. -/
def RegularMQTTSender.Send {δ : Type} (env : MqttEnv δ) (s : MqttState) (data : Option δ) :
    MqttState × Bool × Result SendError δ :=
  match data with
  | none => (s, false, Result.error SendError.noEventReceived)
  | some d =>
    match env.coerceType d with
    | .error cause => (s, false, Result.error (SendError.coerceType cause))
    | .ok exportData =>
      let initialized : MqttState × Option SendError :=
        if s.sender.client.isNone ||
            decide (s.sender.secretsLastRetrieved < s.ctx.SecretsLastUpdated) then
          BaseMqttSender.initializeMQTTClient env s
        else (s, none)
      match initialized.2 with
      | some e => (initialized.1, false, Result.error e)
      | none =>
        let r := BaseMqttSender.publish env initialized.1 exportData
        match r.2 with
        | some e => (r.1, false, Result.error e)
        | none => (r.1, true, Result.nil)

/-- The errors of `publish` for which the payload is handed to `setRetryData`: those of a
failed `connect` and those of a failed publish token. -/
def SendError.isTransportFailure : SendError → Bool
  | .counter _ => true
  | .connectTimeout _ => true
  | .connectFailed _ _ => true
  | .publishTimeout _ => true
  | .publishFailed _ _ => true
  | _ => false

/-! ## `awsiotcoremqtt.go`, `azureiothubmqtt.go`, `ibmwatsonmqtt.go`: the cloud senders -/

/-- Embedding of `AzureIoTHubMQTTSender.Send(ctx, data)`: its body is, statement for
statement, that of `RegularMQTTSender.Send`. -/
def AzureIoTHubMQTTSender.Send {δ : Type} (env : MqttEnv δ) (s : MqttState) (data : Option δ) :
    MqttState × Bool × Result SendError δ :=
  RegularMQTTSender.Send env s data

/-- Embedding of `IBMWatsonMQTTSender.Send(ctx, data)`: its body is, statement for
statement, that of `RegularMQTTSender.Send`. -/
def IBMWatsonMQTTSender.Send {δ : Type} (env : MqttEnv δ) (s : MqttState) (data : Option δ) :
    MqttState × Bool × Result SendError δ :=
  RegularMQTTSender.Send env s data

/-- The non-nil `data` of `AWSIoTCoreMQTTSender.Send`, by the case of its type switch:
a `[]byte`, a `[]interface{}` with its items, or any other value. -/
inductive AwsData (δ : Type) where
  | bytes (d : Bytes)
  | batch (items : List δ)
  | single (d : δ)

/-- The conversions `AWSIoTCoreMQTTSender.Send` applies to values of type `δ`, taken as
given. -/
structure AwsCodec (δ : Type) where
  /-- Result of `json.Unmarshal(d, &batchedData)` into a `[]interface{}`. -/
  unmarshalArray : Bytes → Option (List δ)
  /-- Result of `json.Unmarshal(d, &singleData)` into a `map[string]interface{}`. -/
  unmarshalObject : Bytes → Option δ
  /-- Result of `util.CoerceType(data)` on an item of a batch. -/
  coerceType : δ → Except String Bytes
  /-- Result of `json.Marshal(data)` on a single value. -/
  marshal : δ → Except String Bytes
  /-- Result of `json.Marshal(dataToBeResent)` on a `[][]byte`. -/
  marshalByteSlices : List Bytes → Except String Bytes

/-- Embedding of `mqttPublish(exportData, ctx)`. -/
def AWSIoTCoreMQTTSender.mqttPublish {δ : Type} (env : MqttEnv δ) (s : MqttState)
    (exportData : Bytes) : MqttState × Option SendError :=
  let initialized : MqttState × Option SendError :=
    if s.sender.client.isNone ||
        decide (s.sender.secretsLastRetrieved < s.ctx.SecretsLastUpdated) then
      BaseMqttSender.initializeMQTTClient env s
    else (s, none)
  match initialized.2 with
  | some e => (initialized.1, some e)
  | none => BaseMqttSender.publish env initialized.1 exportData

/-- The loop of the `[]interface{}` case of `Send` from item number `i` on: every item is
coerced and published with the collaborators' answers `envAt i`, and the bytes of the items
whose `mqttPublish` failed are collected in `dataToBeResent`. An item that cannot be coerced
ends `Send` with an error. -/
def AWSIoTCoreMQTTSender.publishBatch {δ : Type} (codec : AwsCodec δ) (envAt : Nat → MqttEnv δ) :
    Nat → List δ → MqttState → List Bytes → MqttState × Except SendError (List Bytes)
  | _, [], s, dataToBeResent => (s, .ok dataToBeResent)
  | i, data :: rest, s, dataToBeResent =>
    match codec.coerceType data with
    | .error cause => (s, .error (SendError.unsupportedItem cause))
    | .ok byteData =>
      let r := AWSIoTCoreMQTTSender.mqttPublish (envAt i) s byteData
      AWSIoTCoreMQTTSender.publishBatch codec envAt (i + 1) rest r.1
        (if r.2.isSome then dataToBeResent ++ [byteData] else dataToBeResent)

/-- The `[]interface{}` case of `Send`. -/
def AWSIoTCoreMQTTSender.sendBatch {δ : Type} (codec : AwsCodec δ) (envAt : Nat → MqttEnv δ)
    (s : MqttState) (items : List δ) : MqttState × Bool × Result SendError δ :=
  match AWSIoTCoreMQTTSender.publishBatch codec envAt 0 items s [] with
  | (s, .error e) => (s, false, Result.error e)
  | (s, .ok dataToBeResent) =>
    if dataToBeResent.length > 0 then
      match codec.marshalByteSlices dataToBeResent with
      | .error cause => (s, false, Result.error (SendError.marshal cause))
      | .ok retryData =>
        (BaseMqttSender.setRetryData s retryData, false,
          Result.error SendError.persistingForRetry)
    else
      (s, true, Result.nil)

/-- The `default` case of `Send`: a single value is marshalled and published with the
collaborators' answers `envAt 0`. -/
def AWSIoTCoreMQTTSender.sendSingle {δ : Type} (codec : AwsCodec δ) (envAt : Nat → MqttEnv δ)
    (s : MqttState) (data : δ) : MqttState × Bool × Result SendError δ :=
  match codec.marshal data with
  | .error cause => (s, false, Result.error (SendError.marshal cause))
  | .ok exportData =>
    let r := AWSIoTCoreMQTTSender.mqttPublish (envAt 0) s exportData
    match r.2 with
    | some _ =>
      (BaseMqttSender.setRetryData r.1 exportData, false,
        Result.error SendError.persistingForRetry)
    | none => (r.1, true, Result.nil)

/-- Embedding of `AWSIoTCoreMQTTSender.Send(ctx, data)`; `data = none` is a nil `data`. A
`[]byte` is read as a JSON array and handled as a batch, else read as a JSON object and
handled as a single value, else refused. -/
def AWSIoTCoreMQTTSender.Send {δ : Type} (codec : AwsCodec δ) (envAt : Nat → MqttEnv δ)
    (s : MqttState) (data : Option (AwsData δ)) : MqttState × Bool × Result SendError δ :=
  match data with
  | none => (s, false, Result.error SendError.noEventReceived)
  | some (AwsData.bytes d) =>
    match codec.unmarshalArray d with
    | some batchedData => AWSIoTCoreMQTTSender.sendBatch codec envAt s batchedData
    | none =>
      match codec.unmarshalObject d with
      | some singleData => AWSIoTCoreMQTTSender.sendSingle codec envAt s singleData
      | none => (s, false, Result.error SendError.unsupportedDataType)
  | some (AwsData.batch items) => AWSIoTCoreMQTTSender.sendBatch codec envAt s items
  | some (AwsData.single d) => AWSIoTCoreMQTTSender.sendSingle codec envAt s d

/-- The payloads of the `Publish` calls in a call log, in order. -/
def publishedPayloads : List MqttCall → List Bytes
  | [] => []
  | MqttCall.publish _ _ _ _ payload :: rest => payload :: publishedPayloads rest
  | _ :: rest => publishedPayloads rest

/-! ## Go standard library: `encoding/base64` and `encoding/json` on byte slices -/

/-- The alphabet of `base64.StdEncoding`. -/
def base64Alphabet : List Char :=
  "ABCDEFGHIJKLMNOPQRSTUVWXYZabcdefghijklmnopqrstuvwxyz0123456789+/".toList

/-- The character of a six-bit value in `base64.StdEncoding`. -/
def base64Char (n : Nat) : Char := base64Alphabet.getD n 'A'

/-- Model of `base64.StdEncoding.EncodeToString`: three bytes give four characters, and the
last group is padded with `=`. -/
def base64Encode : List UInt8 → List Char
  | a :: b :: c :: rest =>
    let n := a.toNat * 65536 + b.toNat * 256 + c.toNat
    base64Char (n / 262144) :: base64Char (n / 4096 % 64) :: base64Char (n / 64 % 64) ::
      base64Char (n % 64) :: base64Encode rest
  | [a, b] =>
    let n := a.toNat * 65536 + b.toNat * 256
    [base64Char (n / 262144), base64Char (n / 4096 % 64), base64Char (n / 64 % 64), '=']
  | [a] =>
    let n := a.toNat * 65536
    [base64Char (n / 262144), base64Char (n / 4096 % 64), '=', '=']
  | [] => []

/-- Model of `json.Marshal` on one `[]byte`: a nil slice is `null`, any other slice is the
JSON string of its base64 encoding. -/
def jsonMarshalBytes : Bytes → List Char
  | none => "null".toList
  | some b => '"' :: (base64Encode b ++ ['"'])

/-- Model of `json.Marshal` on a non-nil `[][]byte`: the JSON array of its elements. -/
def jsonMarshalByteSlices (slices : List Bytes) : Bytes :=
  some (String.mk ('[' :: ([','].intercalate (slices.map jsonMarshalBytes)
    ++ [']']))).toUTF8.data.toList

/-! ## Go standard library functions used by the configuration loaders -/

/-- Model of `strconv.ParseBool`: the accepted spellings; `none` is a syntax error (the
boolean returned with the error is `false`). -/
def ParseBool (str : String) : Option Bool :=
  if str ∈ ["1", "t", "T", "true", "TRUE", "True"] then some true
  else if str ∈ ["0", "f", "F", "false", "FALSE", "False"] then some false
  else none

/-- Model of `strconv.Atoi` (and of `strconv.ParseInt(s, 10, 0)`) on a 64-bit build: an
optional sign followed by at least one decimal digit, with a value that fits an `int`;
`none` is a syntax or range error. -/
def Atoi (s : String) : Option Int :=
  let cs := s.toList
  let signed : Bool × List Char :=
    match cs with
    | '-' :: rest => (true, rest)
    | '+' :: rest => (false, rest)
    | _ => (false, cs)
  if signed.2.isEmpty then none
  else if signed.2.all Char.isDigit then
    let n : Nat := signed.2.foldl (fun acc c => 10 * acc + (c.toNat - '0'.toNat)) 0
    let z : Int := if signed.1 then -(n : Int) else (n : Int)
    if -(intBound : Int) ≤ z ∧ z < (intBound : Int) then some z else none
  else none

/-- Go's conversion `byte(n)` of an `int`: the low eight bits. -/
def intToByte (n : Int) : Nat := (n % 256).toNat

/-- Standard library functions taken as given: `strings.ToUpper`, `strings.ToLower`,
`strings.TrimSpace`, and `json.Unmarshal` into a `map[string]string` (`none` is an
error). -/
structure StdLib where
  ToUpper : String → String
  ToLower : String → String
  TrimSpace : String → String
  jsonUnmarshal : String → Option (List (String × String))

/-- A `map[string]string`: the first pair with a key is its entry. -/
abbrev Params := List (String × String)

/-- The index expression `parameters[key]` with its `ok` result. -/
def Params.get (parameters : Params) (key : String) : Option String := parameters.lookup key

/-- The parameter-name constants of package `app` that the loaders index the map with; they
are declared in the SDK's `configurable.go`, which is not among the sources, and are taken
as given. -/
structure ParamNames where
  ExportMethod : String
  Url : String
  MimeType : String
  PersistOnError : String
  ContinueOnSendError : String
  ReturnInputData : String
  SkipVerify : String
  AuthMode : String
  SecretPath : String
  HeaderName : String
  SecretName : String
  BrokerAddress : String
  Topic : String
  ClientID : String
  Qos : String
  Retain : String
  AutoReconnect : String

/-- The value of `RenegotiationSupport` in `xpertconfigurable.go`. -/
def RenegotiationSupport : String := "renegotiationsupport"

/-- The value of `HTTPRequestHeaders` in `xpertconfigurable.go`. -/
def HTTPRequestHeaders : String := "httprequestheaders"

/-- The value of `AWSV4SignerConfigs` in `xpertconfigurable.go`. -/
def AWSV4SignerConfigs : String := "awsv4signerconfigs"

/-- The errors of the configuration loaders, by the statement that produced them. -/
inductive ConfigError where
  | mandatoryParameterNotFound (name : String)
  | unsupportedMethod (name : String)
  | parseBool (value name : String)
  | persistAndContinueBothTrue
  | continueWithoutReturnInputData
  | missingForAuthMode (name mode : String)
  | parseInt (value name : String)
  | unsupportedRenegotiation (value : Int)
  | parseJson (value name : String)
  | missingInSignerConfigs (key : String)
  | unsupportedAuthMode (mode : String)
  | unsupportedQoS (qos : Int)
deriving DecidableEq, Repr

/-! ## `http.go`: `HTTPSenderConfig` -/

/-- The value of `HTTPAuthModeNONE`. -/
def HTTPAuthModeNONE : String := "none"

/-- The value of `HTTPAuthModeHeaderSecret`. -/
def HTTPAuthModeHeaderSecret : String := "header_secret"

/-- The value of `HTTPAuthModeOauth2ClientCredentials`. -/
def HTTPAuthModeOauth2ClientCredentials : String := "oauth2_clientcredentials"

/-- The value of `HTTPAuthModeClientCert`, which is `messaging.AuthModeCert`. -/
def HTTPAuthModeClientCert : String := "clientcert"

/-- The value of `HTTPAuthModeAWSSignature`. -/
def HTTPAuthModeAWSSignature : String := "aws_signature"

/-- The value of `AWSV4SignerConfigsRegion`. -/
def AWSV4SignerConfigsRegion : String := "region"

/-- The value of `AWSV4SignerConfigsService`. -/
def AWSV4SignerConfigsService : String := "service"

/-- Embedding of `HTTPSenderConfig`: the fields of the embedded `transforms.HTTPSenderOptions`
that the code uses, followed by its own. `RenegotiationSupport` is a
`tls.RenegotiationSupport` (`0` never, `1` once as client, `2` freely as client); a nil map
is `none`. -/
structure HTTPSenderConfig where
  URL : String
  MimeType : String
  PersistOnError : Bool
  HTTPHeaderName : String
  SecretPath : String
  SecretName : String
  ContinueOnSendError : Bool
  ReturnInputData : Bool
  HTTPMethod : String
  AuthMode : String
  SkipCertVerify : Bool
  RenegotiationSupport : Int
  HTTPRequestHeaders : Option (List (String × String))
  AWSV4SignerConfigs : Option (List (String × String))
deriving DecidableEq, Repr

/-- The zero value of `HTTPSenderConfig`. -/
def HTTPSenderConfig.zero : HTTPSenderConfig :=
  { URL := "", MimeType := "", PersistOnError := false, HTTPHeaderName := "", SecretPath := "",
    SecretName := "", ContinueOnSendError := false, ReturnInputData := false, HTTPMethod := "",
    AuthMode := "", SkipCertVerify := false, RenegotiationSupport := 0,
    HTTPRequestHeaders := none, AWSV4SignerConfigs := none }

/-! ## `xpertconfigurable.go`: `processXpertHttpExportParameters`

The function is embedded in four consecutive sections; an error carries the partly filled
`result` that the Go function returns with it. -/

/-- The result type of the sections: the configuration, or the partly filled configuration
and the error. -/
abbrev HTTPConfigResult := Except (HTTPSenderConfig × ConfigError) HTTPSenderConfig

/-- Reads an optional boolean parameter as the code does for `PersistOnError`,
`ContinueOnSendError`, `ReturnInputData` and `SkipVerify`: `false` when the key is absent,
the parsed value when it parses, and otherwise an error. -/
def parseOptionalBool (parameters : Params) (name : String) : Except ConfigError Bool :=
  match parameters.get name with
  | none => .ok false
  | some value =>
    match ParseBool value with
    | some b => .ok b
    | none => .error (ConfigError.parseBool value name)

/-- First section (`method` to `MimeType`): the mandatory parameters. -/
def processXpertHttpExportParameters.mandatory (lib : StdLib) (k : ParamNames)
    (parameters : Params) (result : HTTPSenderConfig) : HTTPConfigResult :=
  match parameters.get k.ExportMethod with
  | none => .error (result, ConfigError.mandatoryParameterNotFound k.ExportMethod)
  | some method =>
    let result := { result with HTTPMethod := lib.ToUpper method }
    if result.HTTPMethod ∈ ["GET", "POST", "PUT", "PATCH", "DELETE"] then
      match parameters.get k.Url with
      | none => .error (result, ConfigError.mandatoryParameterNotFound k.Url)
      | some url =>
        let result := { result with URL := lib.TrimSpace url }
        match parameters.get k.MimeType with
        | none => .error (result, ConfigError.mandatoryParameterNotFound k.MimeType)
        | some mimeType => .ok { result with MimeType := lib.TrimSpace mimeType }
    else
      .error (result, ConfigError.unsupportedMethod k.ExportMethod)

/-- Second section (`PersistOnError` to the two checks on the flags). -/
def processXpertHttpExportParameters.flags (k : ParamNames) (parameters : Params)
    (result : HTTPSenderConfig) : HTTPConfigResult :=
  let result := { result with PersistOnError := false }
  match parseOptionalBool parameters k.PersistOnError with
  | .error e => .error (result, e)
  | .ok persistOnError =>
    let result := { result with PersistOnError := persistOnError, ContinueOnSendError := false }
    match parseOptionalBool parameters k.ContinueOnSendError with
    | .error e => .error (result, e)
    | .ok continueOnSendError =>
      let result :=
        { result with ContinueOnSendError := continueOnSendError, ReturnInputData := false }
      match parseOptionalBool parameters k.ReturnInputData with
      | .error e => .error (result, e)
      | .ok returnInputData =>
        let result := { result with ReturnInputData := returnInputData }
        if result.PersistOnError && result.ContinueOnSendError then
          .error (result, ConfigError.persistAndContinueBothTrue)
        else if result.ContinueOnSendError && !result.ReturnInputData then
          .error (result, ConfigError.continueWithoutReturnInputData)
        else
          .ok result

/-- The `HTTPAuthModeClientCert` case of the switch on `result.AuthMode`. -/
def processXpertHttpExportParameters.clientCert (k : ParamNames) (parameters : Params)
    (result : HTTPSenderConfig) : HTTPConfigResult :=
  if result.SecretPath.length = 0 then
    .error (result, ConfigError.missingForAuthMode k.SecretPath result.AuthMode)
  else
    let result := { result with RenegotiationSupport := 0 }
    match parameters.get RenegotiationSupport with
    | none => .ok result
    | some value =>
      match Atoi value with
      | none => .error (result, ConfigError.parseInt value RenegotiationSupport)
      | some renegotiationValue =>
        if renegotiationValue ∈ [0, 1, 2] then
          .ok { result with RenegotiationSupport := renegotiationValue }
        else
          .error (result, ConfigError.unsupportedRenegotiation renegotiationValue)

/-- The `HTTPAuthModeAWSSignature` case of the switch on `result.AuthMode`. -/
def processXpertHttpExportParameters.awsSignature (lib : StdLib) (k : ParamNames)
    (parameters : Params) (result : HTTPSenderConfig) : HTTPConfigResult :=
  if result.SecretPath.length = 0 then
    .error (result, ConfigError.missingForAuthMode k.SecretPath HTTPAuthModeAWSSignature)
  else
    match parameters.get AWSV4SignerConfigs with
    | none =>
      .error (result, ConfigError.missingForAuthMode AWSV4SignerConfigs HTTPAuthModeAWSSignature)
    | some value =>
      if value.length ≠ 0 then
        match lib.jsonUnmarshal value with
        | none => .error (result, ConfigError.parseJson value AWSV4SignerConfigs)
        | some configs =>
          let result := { result with AWSV4SignerConfigs := some configs }
          match [AWSV4SignerConfigsRegion, AWSV4SignerConfigsService].find?
              (fun config => (configs.lookup config).all (fun val => val.length = 0)) with
          | some config => .error (result, ConfigError.missingInSignerConfigs config)
          | none => .ok result
      else
        .error (result,
          ConfigError.missingForAuthMode AWSV4SignerConfigs HTTPAuthModeAWSSignature)

/-- Third section (`SkipVerify` to the switch on `result.AuthMode`). -/
def processXpertHttpExportParameters.auth (lib : StdLib) (k : ParamNames)
    (parameters : Params) (result : HTTPSenderConfig) : HTTPConfigResult :=
  let result := { result with SkipCertVerify := false }
  match parseOptionalBool parameters k.SkipVerify with
  | .error e => .error (result, e)
  | .ok skipCertVerify =>
    let result := { result with SkipCertVerify := skipCertVerify, AuthMode := HTTPAuthModeNONE }
    let result :=
      match parameters.get k.AuthMode with
      | some value => { result with AuthMode := lib.TrimSpace value }
      | none => result
    let result :=
      match parameters.get k.SecretPath with
      | some value => { result with SecretPath := lib.TrimSpace value }
      | none => result
    if result.AuthMode = HTTPAuthModeNONE then
      .ok result
    else if result.AuthMode = HTTPAuthModeHeaderSecret then
      let result := { result with
        HTTPHeaderName := lib.TrimSpace ((parameters.get k.HeaderName).getD ""),
        SecretName := lib.TrimSpace ((parameters.get k.SecretName).getD "") }
      if result.HTTPHeaderName.length = 0 then
        .error (result, ConfigError.missingForAuthMode k.HeaderName HTTPAuthModeHeaderSecret)
      else if result.SecretPath.length = 0 then
        .error (result, ConfigError.missingForAuthMode k.SecretPath HTTPAuthModeHeaderSecret)
      else if result.SecretName.length = 0 then
        .error (result, ConfigError.missingForAuthMode k.SecretName HTTPAuthModeHeaderSecret)
      else
        .ok result
    else if result.AuthMode = HTTPAuthModeOauth2ClientCredentials then
      if result.SecretPath.length = 0 then
        .error (result,
          ConfigError.missingForAuthMode k.SecretPath HTTPAuthModeOauth2ClientCredentials)
      else
        .ok result
    else if result.AuthMode = HTTPAuthModeClientCert then
      processXpertHttpExportParameters.clientCert k parameters result
    else if result.AuthMode = HTTPAuthModeAWSSignature then
      processXpertHttpExportParameters.awsSignature lib k parameters result
    else
      .error (result, ConfigError.unsupportedAuthMode result.AuthMode)

/-- Fourth section: the optional `HTTPRequestHeaders` parameter. -/
def processXpertHttpExportParameters.headers (lib : StdLib) (parameters : Params)
    (result : HTTPSenderConfig) : HTTPConfigResult :=
  match parameters.get HTTPRequestHeaders with
  | none => .ok result
  | some value =>
    if value.length ≠ 0 then
      match lib.jsonUnmarshal value with
      | none => .error (result, ConfigError.parseJson value HTTPRequestHeaders)
      | some headers => .ok { result with HTTPRequestHeaders := some headers }
    else
      .ok result

/-- Embedding of `processXpertHttpExportParameters(parameters)`. -/
def processXpertHttpExportParameters (lib : StdLib) (k : ParamNames) (parameters : Params) :
    HTTPConfigResult :=
  processXpertHttpExportParameters.mandatory lib k parameters HTTPSenderConfig.zero
    >>= processXpertHttpExportParameters.flags k parameters
    >>= processXpertHttpExportParameters.auth lib k parameters
    >>= processXpertHttpExportParameters.headers lib parameters

/-- Embedding of `HTTPSender` (the mutex is not modelled). `cacheSecrets` is a
`map[string]string`, `none` when nil; `client` is the identity of the `*http.Client`. -/
structure HTTPSender where
  config : HTTPSenderConfig
  secretsLastRetrieved : Time
  cacheSecrets : Option (List (String × String))
  client : Option Nat
deriving DecidableEq, Repr

/-- Embedding of `NewHTTPSender(senderConfig)`. -/
def NewHTTPSender (senderConfig : HTTPSenderConfig) : HTTPSender :=
  { config := senderConfig, secretsLastRetrieved := 0, cacheSecrets := none, client := none }

/-- Embedding of `XpertHTTPExport(parameters)`: `none` is the nil function returned on a
configuration error, and otherwise the sender whose `HTTPSend` is returned. -/
def Configurable.XpertHTTPExport (lib : StdLib) (k : ParamNames) (parameters : Params) :
    Option HTTPSender :=
  match processXpertHttpExportParameters lib k parameters with
  | .error _ => none
  | .ok config => some (NewHTTPSender config)

/-- The flag the code reads for an optional boolean parameter, when it reads one: `false`
for an absent key and the parsed value otherwise; `none` when the value does not parse. -/
def Params.flag (parameters : Params) (name : String) : Option Bool :=
  match parameters.get name with
  | none => some false
  | some value => ParseBool value

/-! ## `http.go`: `HTTPSender` -/

/-- The value of `messaging.SecretCACert`. -/
def SecretCACert : String := "cacert"

/-- The value of `messaging.SecretClientKey`. -/
def SecretClientKey : String := "clientkey"

/-- The value of `messaging.SecretClientCert`. -/
def SecretClientCert : String := "clientcert"

/-- The value of `SecretKeyClientId`. -/
def SecretKeyClientId : String := "client_id"

/-- The value of `SecretKeyClientSecret`. -/
def SecretKeyClientSecret : String := "client_secret"

/-- The value of `SecretKeyTokenUrl`. -/
def SecretKeyTokenUrl : String := "token_url"

/-- The value of `SecretKeyTokenServerCert`. -/
def SecretKeyTokenServerCert : String := "token_cert"

/-- The value of `SecretKeyAWSAccessKey`. -/
def SecretKeyAWSAccessKey : String := "aws_access_key"

/-- The value of `SecretKeyAWSSecretKey`. -/
def SecretKeyAWSSecretKey : String := "aws_secret_key"

/-- The errors `HTTPSend` returns, by the statement that produced them. -/
inductive HttpError where
  | noDataReceived
  | coerceType (cause : String)
  | getSecret (cause : String)
  | systemCertPool (cause : String)
  | appendCert (secretKey : String)
  | unknownAuthMode (mode : String)
  | headerNameRequired
  | secretPathRequired (mode : String)
  | secretNameRequired
  | secretNotFound (secretName mode : String)
  | secretMissingOrEmpty (key : String)
  | parseClientCert (cause : String)
  | applyValues (cause : String)
  | urlParse (cause : String)
  | newRequest (cause : String)
  | awsSign (cause : String)
  | statusCode (code : Int)
  | transport (cause : String)
  | readBody (cause : String)
deriving DecidableEq, Repr

/-- An `*http.Request` as the sender builds it; `Header` lists the `Header.Set(key, value)`
calls in order. -/
structure HttpRequest where
  Method : String
  URL : String
  Body : Bytes
  Header : List (String × String)
  Close : Bool
deriving DecidableEq, Repr

/-- An `*http.Response` as the sender reads it; `Body` is the result of
`io.ReadAll(response.Body)`. -/
structure HttpResponse where
  StatusCode : Int
  Status : String
  Body : Except String Bytes

/-- What the collaborators answer during one `HTTPSend`: each of them is asked at most once
per argument. `δ` is the type of the non-nil values the pipeline passes as `data`. -/
structure HttpEnv (δ : Type) where
  /-- Result of `util.CoerceType(data)`. -/
  coerceType : δ → Except String Bytes
  /-- Result of `ctx.GetSecret(path)`. -/
  getSecret : String → Except String (List (String × String))
  /-- Value of `time.Now()` in `initialize`. -/
  now : Time
  /-- Error of `x509.SystemCertPool()`. -/
  systemCertPool : Option String
  /-- Result of `RootCAs.AppendCertsFromPEM(pem)`. -/
  appendCertsFromPEM : String → Bool
  /-- Error of `tls.X509KeyPair(cert, key)`. -/
  x509KeyPair : String → String → Option String
  /-- Identity of the `&http.Client{}` built by `createClient`. -/
  newClient : Nat
  /-- Identity of the client returned by `conf.Client(...)` for OAuth2. -/
  oauth2Client : Nat
  /-- Result of `ctx.ApplyValues(url)`. -/
  applyValues : String → Except String String
  /-- Result of `url.Parse(formattedUrl)` followed by `String()`. -/
  urlParse : String → Except String String
  /-- Error of `http.NewRequest(method, url, body)`. -/
  newRequest : String → String → Option String
  /-- Hex SHA-256 digest of the payload. -/
  sha256Hex : Bytes → String
  /-- Result of `strings.EqualFold`. -/
  equalFold : String → String → Bool
  /-- Result of `awsSigner.SignHTTP`: the headers it sets on the request, or an error. -/
  signHTTP : HttpRequest → String → String → String → Except String (List (String × String))
  /-- Result of `sender.client.Do(req)`. -/
  doRequest : HttpRequest → Except String HttpResponse

/-- A sender together with the context it acts on. -/
structure HttpState where
  sender : HTTPSender
  ctx : AppContext
deriving DecidableEq, Repr

/-- The index expression `secrets[key]` with its `ok` result on a possibly nil map. -/
def secretLookup (secrets : Option (List (String × String))) (key : String) : Option String :=
  (secrets.getD []).lookup key

/-- Embedding of `validateSecrets(secrets, keys...)`. -/
def HTTPSender.validateSecrets (secrets : Option (List (String × String))) (keys : List String) :
    Option HttpError :=
  match keys.find? (fun key => (secretLookup secrets key).all (fun value => value.length = 0)) with
  | some key => some (HttpError.secretMissingOrEmpty key)
  | none => none

/-- Embedding of `prepareHTTPClientForHeaderSecretAuth(ctx, client)`. -/
def HTTPSender.prepareHTTPClientForHeaderSecretAuth (sender : HTTPSender) (client : Nat) :
    Except HttpError Nat :=
  if sender.config.HTTPHeaderName.length = 0 then
    .error HttpError.headerNameRequired
  else if sender.config.SecretPath.length = 0 then
    .error (HttpError.secretPathRequired HTTPAuthModeHeaderSecret)
  else if sender.config.SecretName.length = 0 then
    .error HttpError.secretNameRequired
  else if (secretLookup sender.cacheSecrets sender.config.SecretName).isNone then
    .error (HttpError.secretNotFound sender.config.SecretName HTTPAuthModeHeaderSecret)
  else
    .ok client

/-- Embedding of `prepareHTTPClientForOAuth2ClientCredentialsAuth(ctx, client)`. -/
def HTTPSender.prepareHTTPClientForOAuth2ClientCredentialsAuth {δ : Type} (env : HttpEnv δ)
    (sender : HTTPSender) : Except HttpError Nat :=
  match HTTPSender.validateSecrets sender.cacheSecrets
      [SecretKeyClientId, SecretKeyClientSecret, SecretKeyTokenUrl] with
  | some e => .error e
  | none => .ok env.oauth2Client

/-- Embedding of `prepareHTTPClientForClientCertAuth(ctx, client, tlsConfig)`. -/
def HTTPSender.prepareHTTPClientForClientCertAuth {δ : Type} (env : HttpEnv δ)
    (sender : HTTPSender) (client : Nat) : Except HttpError Nat :=
  if sender.config.SecretPath.length = 0 then
    .error (HttpError.secretPathRequired HTTPAuthModeClientCert)
  else
    match secretLookup sender.cacheSecrets SecretClientKey with
    | none => .error (HttpError.secretNotFound SecretClientKey HTTPAuthModeClientCert)
    | some clientKey =>
      match secretLookup sender.cacheSecrets SecretClientCert with
      | none => .error (HttpError.secretNotFound SecretClientCert HTTPAuthModeClientCert)
      | some clientCert =>
        match env.x509KeyPair clientCert clientKey with
        | some cause => .error (HttpError.parseClientCert cause)
        | none => .ok client

/-- Embedding of `prepareHTTPClientForAWSSignatureAuth(ctx, client)`. -/
def HTTPSender.prepareHTTPClientForAWSSignatureAuth (sender : HTTPSender) (client : Nat) :
    Except HttpError Nat :=
  match HTTPSender.validateSecrets sender.cacheSecrets
      [SecretKeyAWSAccessKey, SecretKeyAWSSecretKey] with
  | some e => .error e
  | none => .ok client

/-- Whether the secret `key` is cached with a non-empty value and cannot be appended to the
CA pool. -/
def HTTPSender.appendFails {δ : Type} (env : HttpEnv δ) (sender : HTTPSender) (key : String) :
    Bool :=
  match secretLookup sender.cacheSecrets key with
  | some pem => decide (pem.length > 0) && !env.appendCertsFromPEM pem
  | none => false

/-- Embedding of `createClient(ctx)`. -/
def HTTPSender.createClient {δ : Type} (env : HttpEnv δ) (sender : HTTPSender) :
    Except HttpError Nat :=
  match env.systemCertPool with
  | some cause => .error (HttpError.systemCertPool cause)
  | none =>
    if HTTPSender.appendFails env sender SecretCACert then
      .error (HttpError.appendCert SecretCACert)
    else if sender.config.AuthMode = HTTPAuthModeNONE then
      .ok env.newClient
    else if sender.config.AuthMode = HTTPAuthModeHeaderSecret then
      sender.prepareHTTPClientForHeaderSecretAuth env.newClient
    else if sender.config.AuthMode = HTTPAuthModeOauth2ClientCredentials then
      if HTTPSender.appendFails env sender SecretKeyTokenServerCert then
        .error (HttpError.appendCert SecretKeyTokenServerCert)
      else
        HTTPSender.prepareHTTPClientForOAuth2ClientCredentialsAuth env sender
    else if sender.config.AuthMode = HTTPAuthModeClientCert then
      HTTPSender.prepareHTTPClientForClientCertAuth env sender env.newClient
    else if sender.config.AuthMode = HTTPAuthModeAWSSignature then
      sender.prepareHTTPClientForAWSSignatureAuth env.newClient
    else
      .error (HttpError.unknownAuthMode sender.config.AuthMode)

/-- Embedding of `initialize(ctx)`: the sender afterwards and the returned error. -/
def HTTPSender.initialize {δ : Type} (env : HttpEnv δ) (ctx : AppContext) (sender : HTTPSender) :
    HTTPSender × Option HttpError :=
  if sender.client.isSome && !(decide (sender.secretsLastRetrieved < ctx.SecretsLastUpdated)) then
    (sender, none)
  else
    let secrets : Except String (List (String × String)) :=
      if sender.config.SecretPath.length > 0 then env.getSecret sender.config.SecretPath
      else .ok []
    match secrets with
    | .error cause => (sender, some (HttpError.getSecret cause))
    | .ok secrets =>
      let sender := { sender with cacheSecrets := some secrets, secretsLastRetrieved := env.now }
      match HTTPSender.createClient env sender with
      | .error e => (sender, some e)
      | .ok client => ({ sender with client := some client }, none)

/-- Embedding of `prepareAWSSignedRequest(appCtx, req, data)`. -/
def HTTPSender.prepareAWSSignedRequest {δ : Type} (env : HttpEnv δ) (sender : HTTPSender)
    (req : HttpRequest) (data : Bytes) : Except HttpError HttpRequest :=
  let hashData := env.sha256Hex data
  let service := (secretLookup sender.config.AWSV4SignerConfigs AWSV4SignerConfigsService).getD ""
  let region := (secretLookup sender.config.AWSV4SignerConfigs AWSV4SignerConfigsRegion).getD ""
  let req :=
    if env.equalFold service "s3" then
      { req with Header := req.Header ++ [("X-Amz-Content-Sha256", hashData)] }
    else req
  match env.signHTTP req hashData service region with
  | .error cause => .error (HttpError.awsSign cause)
  | .ok headers => .ok { req with Header := req.Header ++ headers }

/-- Embedding of `prepareHTTPRequest(ctx, data)`. -/
def HTTPSender.prepareHTTPRequest {δ : Type} (env : HttpEnv δ) (sender : HTTPSender)
    (data : Bytes) : Except HttpError HttpRequest :=
  match env.applyValues sender.config.URL with
  | .error cause => .error (HttpError.applyValues cause)
  | .ok formattedUrl =>
    match env.urlParse formattedUrl with
    | .error cause => .error (HttpError.urlParse cause)
    | .ok parsedUrl =>
      match env.newRequest sender.config.HTTPMethod parsedUrl with
      | some cause => .error (HttpError.newRequest cause)
      | none =>
        let req : HttpRequest :=
          { Method := sender.config.HTTPMethod, URL := parsedUrl, Body := data,
            Header := [("Content-Type", sender.config.MimeType)], Close := true }
        let req :=
          if sender.config.AuthMode = HTTPAuthModeHeaderSecret then
            { req with Header := req.Header ++
                [(sender.config.HTTPHeaderName,
                  (secretLookup sender.cacheSecrets sender.config.SecretName).getD "")] }
          else req
        let signed : Except HttpError HttpRequest :=
          if sender.config.AuthMode = HTTPAuthModeAWSSignature then
            HTTPSender.prepareAWSSignedRequest env sender req data
          else .ok req
        match signed with
        | .error e => .error e
        | .ok req =>
          .ok { req with Header := req.Header ++ sender.config.HTTPRequestHeaders.getD [] }

/-- Embedding of `HTTPSender.setRetryData(ctx, exportData)`. -/
def HTTPSender.setRetryData (s : HttpState) (exportData : Bytes) : HttpState :=
  if s.sender.config.PersistOnError then
    { s with ctx := s.ctx.SetRetryData exportData }
  else s

/-- The initialization step of `HTTPSend`: `initialize` is called when the client is nil or
the secrets were retrieved before the last update. -/
def HTTPSender.ensureInitialized {δ : Type} (env : HttpEnv δ) (s : HttpState) :
    HttpState × Option HttpError :=
  if s.sender.client.isNone ||
      decide (s.sender.secretsLastRetrieved < s.ctx.SecretsLastUpdated) then
    let r := HTTPSender.initialize env s.ctx s.sender
    ({ s with sender := r.1 }, r.2)
  else (s, none)

/-- The failure branch of `HTTPSend` (a transport error or a status code outside
`200..299`): unless `ContinueOnSendError` is set the payload is handed to `setRetryData` and
the error is returned; otherwise the pipeline continues with the input data. -/
def HTTPSender.sendFailed {δ : Type} (s : HttpState) (data : δ) (exportData : Bytes)
    (err : HttpError) : HttpState × Bool × Result HttpError δ :=
  if !s.sender.config.ContinueOnSendError then
    (HTTPSender.setRetryData s exportData, false, Result.error err)
  else
    (s, true, Result.value data)

/-- The part of `HTTPSend` after `sender.client.Do(req)` has answered. -/
def HTTPSender.handleResponse {δ : Type} (s : HttpState) (data : δ) (exportData : Bytes)
    (answer : Except String HttpResponse) : HttpState × Bool × Result HttpError δ :=
  match answer with
  | .error cause => HTTPSender.sendFailed s data exportData (HttpError.transport cause)
  | .ok response =>
    if response.StatusCode < 200 ∨ response.StatusCode ≥ 300 then
      HTTPSender.sendFailed s data exportData (HttpError.statusCode response.StatusCode)
    else if s.sender.config.ReturnInputData then
      (s, true, Result.value data)
    else
      match response.Body with
      | .error cause =>
        (HTTPSender.setRetryData s exportData, false, Result.error (HttpError.readBody cause))
      | .ok responseData => (s, true, Result.bytes responseData)

/-- Embedding of `HTTPSend(ctx, data)`; `data = none` is a nil `data`. -/
def HTTPSender.HTTPSend {δ : Type} (env : HttpEnv δ) (s : HttpState) (data : Option δ) :
    HttpState × Bool × Result HttpError δ :=
  match data with
  | none => (s, false, Result.error HttpError.noDataReceived)
  | some d =>
    match env.coerceType d with
    | .error cause => (s, false, Result.error (HttpError.coerceType cause))
    | .ok exportData =>
      let initialized := HTTPSender.ensureInitialized env s
      match initialized.2 with
      | some e => (initialized.1, false, Result.error e)
      | none =>
        let s := initialized.1
        match HTTPSender.prepareHTTPRequest env s.sender exportData with
        | .error e => (s, false, Result.error e)
        | .ok req => HTTPSender.handleResponse s d exportData (env.doRequest req)

/-- A send failure of `HTTPSend`: a transport error or a status code outside `200..299`. -/
def HttpError.isSendFailure : HttpError → Bool
  | .transport _ => true
  | .statusCode _ => true
  | _ => false

/-! ## `awsiotcoremqtt.go`, `config.go`, `helpers.go`: AWS IoT Core configuration -/

/-- Embedding of `AWSIoTCoreMQTTConfig`, which embeds `BaseMqttConfig`. -/
structure AWSIoTCoreMQTTConfig extends BaseMqttConfig where
  SecretPath : String
  SkipCertVerify : Bool
deriving DecidableEq, Repr

/-- The zero value of `AWSIoTCoreMQTTConfig`. -/
def AWSIoTCoreMQTTConfig.zero : AWSIoTCoreMQTTConfig :=
  { BaseMqttConfig.zero with SecretPath := "", SkipCertVerify := false }

/-- The `qos` parameter as `LoadAWSMQTTConfig` reads it: `0` when absent, and otherwise the
parsed value unless it does not parse or is greater than `1`. -/
def LoadAWSMQTTConfig.qos (k : ParamNames) (parameters : Params) : Except ConfigError Int :=
  match parameters.get k.Qos with
  | none => .ok 0
  | some qosVal =>
    match Atoi qosVal with
    | none => .error (ConfigError.parseInt qosVal k.Qos)
    | some qos =>
      if qos > 1 then .error (ConfigError.unsupportedQoS qos) else .ok qos

/-- Embedding of `LoadAWSMQTTConfig(loggingClient, parameters)`: the configuration, the
`persistOnError` flag and the error, as the Go function returns them on every path. -/
def LoadAWSMQTTConfig (k : ParamNames) (parameters : Params) :
    AWSIoTCoreMQTTConfig × Bool × Option ConfigError :=
  let config := AWSIoTCoreMQTTConfig.zero
  match parseOptionalBool parameters k.PersistOnError with
  | .error e => (config, false, some e)
  | .ok persistOnError =>
  match parameters.get k.BrokerAddress with
  | none => (config, persistOnError, some (ConfigError.mandatoryParameterNotFound k.BrokerAddress))
  | some brokerAddress =>
  match parameters.get k.Topic with
  | none => (config, persistOnError, some (ConfigError.mandatoryParameterNotFound k.Topic))
  | some topic =>
  match parameters.get k.ClientID with
  | none => (config, persistOnError, some (ConfigError.mandatoryParameterNotFound ""))
  | some clientID =>
  match LoadAWSMQTTConfig.qos k parameters with
  | .error e => (config, persistOnError, some e)
  | .ok qos =>
  match parseOptionalBool parameters k.AutoReconnect with
  | .error e => (config, persistOnError, some e)
  | .ok autoReconnect =>
  match parseOptionalBool parameters k.SkipVerify with
  | .error e => (config, persistOnError, some e)
  | .ok skipCertVerify =>
  let config : AWSIoTCoreMQTTConfig :=
    { BrokerAddress := brokerAddress,
      ClientId := clientID,
      Topic := topic,
      AutoReconnect := autoReconnect,
      QoS := intToByte qos,
      Retain := false,
      SecretPath := "",
      SkipCertVerify := skipCertVerify }
  match parameters.get k.SecretPath with
  | none => (config, persistOnError, some (ConfigError.mandatoryParameterNotFound k.SecretPath))
  | some secretPath => ({ config with SecretPath := secretPath }, persistOnError, none)

/-- The fields of `common.ExternalMqttConfig` that the helpers read; the type is declared in
the SDK's `internal/common/config.go`, which is not among the sources. `QoS` is a `byte`. -/
structure ExternalMqttConfig where
  Url : String
  ClientId : String
  AutoReconnect : Bool
  QoS : Nat
  Retain : Bool
  SkipCertVerify : Bool
  SecretPath : String
  AuthMode : String
deriving DecidableEq, Repr

/-- Embedding of `newAWSIoTCoreMQTTConfig(config)`. -/
def newAWSIoTCoreMQTTConfig (config : ExternalMqttConfig) : AWSIoTCoreMQTTConfig :=
  { BrokerAddress := config.Url,
    ClientId := config.ClientId,
    AutoReconnect := config.AutoReconnect,
    Topic := "",
    QoS := config.QoS,
    Retain := config.Retain,
    SecretPath := config.SecretPath,
    SkipCertVerify := config.SkipCertVerify }

/-- Sample values for the parameter-name constants and the library functions: lower-case
names as the configuration files spell them, ASCII case mapping and trimming, and a JSON
reader that accepts only the empty object. -/
def sampleParamNames : ParamNames :=
  { ExportMethod := "method", Url := "url", MimeType := "mimetype",
    PersistOnError := "persistonerror", ContinueOnSendError := "continueonsenderror",
    ReturnInputData := "returninputdata", SkipVerify := "skipverify", AuthMode := "authmode",
    SecretPath := "secretpath", HeaderName := "headername", SecretName := "secretname",
    BrokerAddress := "brokeraddress", Topic := "topic", ClientID := "clientid", Qos := "qos",
    Retain := "retain", AutoReconnect := "autoreconnect" }

/-- Sample library functions (see `sampleParamNames`). -/
def sampleStdLib : StdLib :=
  { ToUpper := fun s => String.mk (s.data.map Char.toUpper),
    ToLower := fun s => String.mk (s.data.map Char.toLower),
    TrimSpace := fun s => String.mk
      ((s.data.dropWhile Char.isWhitespace).reverse.dropWhile Char.isWhitespace).reverse,
    jsonUnmarshal := fun value => if value = "\x7b\x7d" then some [] else none }

/-- The parameter map of `TestXpertMQTTExportAWS` once every mandatory parameter is set,
with the given `qos` and `retain` values added. -/
def awsTestParameters (qos retain : String) : Params :=
  [("brokeraddress", "tls://a1hmdzcnpgcx08-ats.iot.us-east-1.amazonaws.com:8883"),
   ("topic", "$aws/things/VirtualDevice/shadow/update"),
   ("clientid", "VirtualDevice"),
   ("secretpath", "aws"),
   ("qos", qos),
   ("retain", retain)]

/-- A parameter map for `XpertHTTPExport` with the mandatory parameters of
`TestXpertHTTPExport` and the three flags as given. -/
def httpTestParameters (persistOnError continueOnSendError returnInputData : String) : Params :=
  [("method", "POST"), ("url", "http://url"), ("mimetype", "application/json"),
   ("persistonerror", persistOnError), ("continueonsenderror", continueOnSendError),
   ("returninputdata", returnInputData)]

/-! ## `config.go`: the other MQTT configuration loaders -/

/-- The value of `messaging.AuthModeNone`. -/
def AuthModeNone : String := "none"

/-- The value of `messaging.AuthModeUsernamePassword`. -/
def AuthModeUsernamePassword : String := "usernamepassword"

/-- The value of `messaging.AuthModeCert`. -/
def AuthModeCert : String := "clientcert"

/-- The value of `messaging.AuthModeCA`. -/
def AuthModeCA : String := "cacert"

/-- Embedding of `RegularMQTTConfig`, which embeds `BaseMqttConfig`. -/
structure RegularMQTTConfig extends BaseMqttConfig where
  SecretPath : String
  SkipCertVerify : Bool
  AuthMode : String
deriving DecidableEq, Repr

/-- The zero value of `RegularMQTTConfig`. -/
def RegularMQTTConfig.zero : RegularMQTTConfig :=
  { BaseMqttConfig.zero with SecretPath := "", SkipCertVerify := false, AuthMode := "" }

/-- Embedding of `AzureIoTHubMQTTConfig`, which embeds `BaseMqttConfig`. -/
structure AzureIoTHubMQTTConfig extends BaseMqttConfig where
  SecretPath : String
  AuthMode : String
  SkipCertVerify : Bool
deriving DecidableEq, Repr

/-- The zero value of `AzureIoTHubMQTTConfig`. -/
def AzureIoTHubMQTTConfig.zero : AzureIoTHubMQTTConfig :=
  { BaseMqttConfig.zero with SecretPath := "", AuthMode := "", SkipCertVerify := false }

/-- Embedding of `IBMWatsonMQTTConfig`, which embeds `BaseMqttConfig`. -/
structure IBMWatsonMQTTConfig extends BaseMqttConfig where
  SecretPath : String
  SkipCertVerify : Bool
deriving DecidableEq, Repr

/-- The zero value of `IBMWatsonMQTTConfig`. -/
def IBMWatsonMQTTConfig.zero : IBMWatsonMQTTConfig :=
  { BaseMqttConfig.zero with SecretPath := "", SkipCertVerify := false }

/-- The `qos` parameter as `LoadRegularMQTTConfig` reads it: `0` when absent, and otherwise
the parsed value unless it does not parse or lies outside `0..2`. -/
def LoadRegularMQTTConfig.qos (k : ParamNames) (parameters : Params) : Except ConfigError Int :=
  match parameters.get k.Qos with
  | none => .ok 0
  | some qosVal =>
    match Atoi qosVal with
    | none => .error (ConfigError.parseInt qosVal k.Qos)
    | some qos =>
      if qos < 0 ∨ qos > 2 then .error (ConfigError.unsupportedQoS qos) else .ok qos

/-- The `qos` parameter as `LoadAzureMQTTConfig` and `LoadIBMMQTTConfig` read it: `0` when
absent, and otherwise the parsed value unless it does not parse. -/
def parseQosUnchecked (k : ParamNames) (parameters : Params) : Except ConfigError Int :=
  match parameters.get k.Qos with
  | none => .ok 0
  | some qosVal =>
    match Atoi qosVal with
    | none => .error (ConfigError.parseInt qosVal k.Qos)
    | some qos => .ok qos

/-- Embedding of `LoadRegularMQTTConfig(loggingClient, parameters)`. -/
def LoadRegularMQTTConfig (k : ParamNames) (parameters : Params) :
    RegularMQTTConfig × Bool × Option ConfigError :=
  let config := RegularMQTTConfig.zero
  match parseOptionalBool parameters k.PersistOnError with
  | .error e => (config, false, some e)
  | .ok persistOnError =>
  match parameters.get k.BrokerAddress with
  | none => (config, persistOnError, some (ConfigError.mandatoryParameterNotFound k.BrokerAddress))
  | some brokerAddress =>
  match parameters.get k.Topic with
  | none => (config, persistOnError, some (ConfigError.mandatoryParameterNotFound k.BrokerAddress))
  | some topic =>
  match LoadRegularMQTTConfig.qos k parameters with
  | .error e => (config, persistOnError, some e)
  | .ok qos =>
  match parseOptionalBool parameters k.AutoReconnect with
  | .error e => (config, persistOnError, some e)
  | .ok autoReconnect =>
  match parseOptionalBool parameters k.Retain with
  | .error e => (config, persistOnError, some e)
  | .ok retain =>
  match parseOptionalBool parameters k.SkipVerify with
  | .error e => (config, persistOnError, some e)
  | .ok skipCertVerify =>
  match parameters.get k.AuthMode with
  | none => (config, persistOnError, some (ConfigError.mandatoryParameterNotFound k.AuthMode))
  | some authMode =>
  let secretPath : Option String :=
    if authMode ≠ AuthModeNone then parameters.get k.SecretPath else some ""
  match secretPath with
  | none => (config, persistOnError, some (ConfigError.missingForAuthMode k.SecretPath authMode))
  | some secretPath =>
  let clientID := (parameters.get k.ClientID).getD ""
  ({ Retain := retain,
     AutoReconnect := autoReconnect,
     QoS := intToByte qos,
     BrokerAddress := brokerAddress,
     ClientId := clientID,
     Topic := topic,
     SkipCertVerify := skipCertVerify,
     SecretPath := secretPath,
     AuthMode := authMode }, persistOnError, none)

/-- Embedding of `LoadAzureMQTTConfig(loggingClient, parameters)`. -/
def LoadAzureMQTTConfig (lib : StdLib) (k : ParamNames) (parameters : Params) :
    AzureIoTHubMQTTConfig × Bool × Option ConfigError :=
  let config := AzureIoTHubMQTTConfig.zero
  match parseOptionalBool parameters k.PersistOnError with
  | .error e => (config, false, some e)
  | .ok persistOnError =>
  match parameters.get k.BrokerAddress with
  | none => (config, persistOnError, some (ConfigError.mandatoryParameterNotFound k.BrokerAddress))
  | some brokerAddr =>
  match parameters.get k.Topic with
  | none => (config, persistOnError, some (ConfigError.mandatoryParameterNotFound k.Topic))
  | some topic =>
  match parameters.get k.ClientID with
  | none => (config, persistOnError, some (ConfigError.mandatoryParameterNotFound k.ClientID))
  | some clientID =>
  match parseQosUnchecked k parameters with
  | .error e => (config, persistOnError, some e)
  | .ok qos =>
  match parseOptionalBool parameters k.Retain with
  | .error e => (config, persistOnError, some e)
  | .ok retain =>
  match parseOptionalBool parameters k.AutoReconnect with
  | .error e => (config, persistOnError, some e)
  | .ok autoReconnect =>
  match parseOptionalBool parameters k.SkipVerify with
  | .error e => (config, persistOnError, some e)
  | .ok skipCertVerify =>
  let config : AzureIoTHubMQTTConfig :=
    { BrokerAddress := brokerAddr,
      ClientId := clientID,
      Topic := topic,
      AutoReconnect := autoReconnect,
      QoS := intToByte qos,
      Retain := retain,
      SecretPath := "",
      AuthMode := "",
      SkipCertVerify := skipCertVerify }
  match parameters.get k.SecretPath with
  | none => (config, persistOnError, some (ConfigError.mandatoryParameterNotFound k.SecretPath))
  | some secretPath =>
  match parameters.get k.AuthMode with
  | none => (config, persistOnError, some (ConfigError.mandatoryParameterNotFound k.AuthMode))
  | some authMode =>
  let authMode := lib.ToLower authMode
  if authMode ≠ AuthModeCert then
    (config, persistOnError, some (ConfigError.unsupportedAuthMode authMode))
  else
    ({ config with SecretPath := secretPath, AuthMode := authMode }, persistOnError, none)

/-- Embedding of `LoadIBMMQTTConfig(loggingClient, parameters)`. -/
def LoadIBMMQTTConfig (k : ParamNames) (parameters : Params) :
    IBMWatsonMQTTConfig × Bool × Option ConfigError :=
  let config := IBMWatsonMQTTConfig.zero
  match parseOptionalBool parameters k.PersistOnError with
  | .error e => (config, false, some e)
  | .ok persistOnError =>
  match parameters.get k.BrokerAddress with
  | none => (config, false, some (ConfigError.mandatoryParameterNotFound k.BrokerAddress))
  | some brokerAddr =>
  match parameters.get k.Topic with
  | none => (config, false, some (ConfigError.mandatoryParameterNotFound k.Topic))
  | some topic =>
  match parameters.get k.ClientID with
  | none => (config, false, some (ConfigError.mandatoryParameterNotFound k.ClientID))
  | some clientID =>
  match parameters.get k.SecretPath with
  | none => (config, false, some (ConfigError.mandatoryParameterNotFound k.SecretPath))
  | some secretPath =>
  match parseQosUnchecked k parameters with
  | .error e => (config, persistOnError, some e)
  | .ok qos =>
  match parseOptionalBool parameters k.Retain with
  | .error e => (config, persistOnError, some e)
  | .ok retain =>
  match parseOptionalBool parameters k.AutoReconnect with
  | .error e => (config, persistOnError, some e)
  | .ok autoReconnect =>
  match parseOptionalBool parameters k.SkipVerify with
  | .error e => (config, persistOnError, some e)
  | .ok skipCertVerify =>
  ({ BrokerAddress := brokerAddr,
     ClientId := clientID,
     Topic := topic,
     AutoReconnect := autoReconnect,
     QoS := intToByte qos,
     Retain := retain,
     SecretPath := secretPath,
     SkipCertVerify := skipCertVerify }, persistOnError, none)

/-! ## `regularmqtt.go`: `RegularMqttClientFactory` -/

/-- The value of `messaging.SecretUsernameKey`. -/
def SecretUsernameKey : String := "username"

/-- The value of `messaging.SecretPasswordKey`. -/
def SecretPasswordKey : String := "password"

/-- The fields of a `tls.Config` that the factories set: `Certificates` lists the
`(cert, key)` PEM pairs loaded with `tls.X509KeyPair`, and `RootCAs` is `none` for a nil
pool and otherwise lists the PEM blocks appended to it. -/
structure TlsConfig where
  InsecureSkipVerify : Bool
  Certificates : List (String × String)
  RootCAs : Option (List String)
deriving DecidableEq, Repr

/-- The fields of `MQTT.ClientOptions` that the sender and the factory set. -/
structure ClientOptions where
  Servers : List String
  ClientID : String
  AutoReconnect : Bool
  Username : String
  Password : String
  TLSConfig : Option TlsConfig
deriving DecidableEq, Repr

/-- Embedding of `RegularMqttClientFactory`. `opts` is the `ClientOptions` object the factory
points to: it is created once, in `NewRegularMQTTSender`, and every `Create` call works on
it. -/
structure RegularMqttClientFactory where
  opts : ClientOptions
  authMode : String
  secretPath : String
  skipCertVerify : Bool
deriving DecidableEq, Repr

/-- Embedding of `mqttSecrets`; the PEM blocks are kept as the strings they are converted
from. -/
structure mqttSecrets where
  username : String
  password : String
  keyPemBlock : String
  certPemBlock : String
  caPemBlock : String
deriving DecidableEq, Repr

/-- What the collaborators answer during one `Create` call. -/
structure FactoryEnv where
  /-- Result of `ctx.GetSecret(path)`. -/
  getSecret : String → Except String (List (String × String))
  /-- Result of `caCertPool.AppendCertsFromPEM(pem)`. -/
  appendCertsFromPEM : String → Bool
  /-- Error of `tls.X509KeyPair(cert, key)`. -/
  x509KeyPair : String → String → Option String

/-- The errors of `Create`, by the statement that produced them. -/
inductive FactoryError where
  | getSecret (cause : String)
  | usernameOrPasswordNotFound (authMode : String)
  | keyOrCertNotFound (authMode : String)
  | caNotFound (authMode : String)
  | invalidAuthMode
  | unsupportedAuthMode (authMode : String)
  | parseCACertificate
  | keyPair (cause : String)
  | parseCAPemBlock
deriving DecidableEq, Repr

/-- The options and the factory that `NewRegularMQTTSender(mqttConfig, ...)` builds with
`MQTT.NewClientOptions()`, `AddBroker`, `SetClientID`, `SetAutoReconnect` and
`NewRegularMqttClientFactory`. -/
def NewRegularMqttClientFactory (config : RegularMQTTConfig) : RegularMqttClientFactory :=
  { opts :=
      { Servers := [config.BrokerAddress], ClientID := config.ClientId,
        AutoReconnect := config.AutoReconnect, Username := "", Password := "",
        TLSConfig := none },
    secretPath := config.SecretPath,
    skipCertVerify := config.SkipCertVerify,
    authMode := config.AuthMode }

/-- Embedding of `getSecrets(ctx)`: `.ok none` is the `(nil, nil)` returned for auth mode
`none`. -/
def RegularMqttClientFactory.getSecrets (env : FactoryEnv) (factory : RegularMqttClientFactory) :
    Except FactoryError (Option mqttSecrets) :=
  if factory.authMode = AuthModeNone then
    .ok none
  else
    match env.getSecret factory.secretPath with
    | .error cause => .error (FactoryError.getSecret cause)
    | .ok secrets =>
      .ok (some
        { username := (secrets.lookup SecretUsernameKey).getD "",
          password := (secrets.lookup SecretPasswordKey).getD "",
          keyPemBlock := (secrets.lookup SecretClientKey).getD "",
          certPemBlock := (secrets.lookup SecretClientCert).getD "",
          caPemBlock := (secrets.lookup SecretCACert).getD "" })

/-- Embedding of `validateSecrets(secrets)`. -/
def RegularMqttClientFactory.validateSecrets (env : FactoryEnv)
    (factory : RegularMqttClientFactory) (secrets : mqttSecrets) : Option FactoryError :=
  let mode : Option FactoryError :=
    if factory.authMode = AuthModeUsernamePassword then
      if secrets.username = "" ∨ secrets.password = "" then
        some (FactoryError.usernameOrPasswordNotFound factory.authMode)
      else none
    else if factory.authMode = AuthModeCert then
      if secrets.keyPemBlock.length ≤ 0 ∨ secrets.certPemBlock.length ≤ 0 then
        some (FactoryError.keyOrCertNotFound factory.authMode)
      else none
    else if factory.authMode = AuthModeCA then
      if secrets.caPemBlock.length ≤ 0 then some (FactoryError.caNotFound factory.authMode)
      else none
    else if factory.authMode = AuthModeNone then
      some FactoryError.invalidAuthMode
    else
      some (FactoryError.unsupportedAuthMode factory.authMode)
  match mode with
  | some e => some e
  | none =>
    if secrets.caPemBlock.length > 0 ∧ env.appendCertsFromPEM secrets.caPemBlock = false then
      some FactoryError.parseCACertificate
    else none

/-- Embedding of `configureMQTTClientForAuth(secrets)`: the factory afterwards (the method
writes through the `opts` pointer) and the returned error. -/
def RegularMqttClientFactory.configureMQTTClientForAuth (env : FactoryEnv)
    (factory : RegularMqttClientFactory) (secrets : mqttSecrets) :
    RegularMqttClientFactory × Option FactoryError :=
  let tlsConfig : TlsConfig :=
    { InsecureSkipVerify := factory.skipCertVerify, Certificates := [], RootCAs := none }
  let factory :=
    if secrets.username ≠ "" then
      { factory with opts := { factory.opts with Username := secrets.username } }
    else factory
  let mode : RegularMqttClientFactory × TlsConfig × Option (Option FactoryError) :=
    if factory.authMode = AuthModeUsernamePassword then
      ({ factory with opts := { factory.opts with Password := secrets.password } },
        tlsConfig, none)
    else if factory.authMode = AuthModeCert then
      match env.x509KeyPair secrets.certPemBlock secrets.keyPemBlock with
      | some cause => (factory, tlsConfig, some (some (FactoryError.keyPair cause)))
      | none =>
        (factory,
          { tlsConfig with Certificates := [(secrets.certPemBlock, secrets.keyPemBlock)] },
          none)
    else if factory.authMode = AuthModeCA then
      (factory, tlsConfig, none)
    else if factory.authMode = AuthModeNone then
      (factory, tlsConfig, some none)
    else
      (factory, tlsConfig, some (some (FactoryError.unsupportedAuthMode factory.authMode)))
  match mode with
  | (factory, _, some returned) => (factory, returned)
  | (factory, tlsConfig, none) =>
    if secrets.caPemBlock.length > 0 then
      if env.appendCertsFromPEM secrets.caPemBlock then
        ({ factory with opts := { factory.opts with
            TLSConfig := some { tlsConfig with RootCAs := some [secrets.caPemBlock] } } }, none)
      else
        (factory, some FactoryError.parseCAPemBlock)
    else
      ({ factory with opts := { factory.opts with TLSConfig := some tlsConfig } }, none)

/-- Embedding of `Create(ctx)`: the factory afterwards, and the options of the client built
by `MQTT.NewClient(factory.opts)` or the error. The connection-lost handler is not
modelled. -/
def RegularMqttClientFactory.Create (env : FactoryEnv) (factory : RegularMqttClientFactory) :
    RegularMqttClientFactory × Except FactoryError ClientOptions :=
  let factory :=
    if factory.authMode = "" then { factory with authMode := AuthModeNone } else factory
  match factory.getSecrets env with
  | .error e => (factory, .error e)
  | .ok none => (factory, .ok factory.opts)
  | .ok (some secrets) =>
    match factory.validateSecrets env secrets with
    | some e => (factory, .error e)
    | none =>
      let r := factory.configureMQTTClientForAuth env secrets
      match r.2 with
      | some e => (r.1, .error e)
      | none => (r.1, .ok r.1.opts)

/-- A sample configuration for a broker with client-certificate authentication. -/
def clientCertConfig : RegularMQTTConfig :=
  { RegularMQTTConfig.zero with
    BrokerAddress := "ssl://broker:8883", ClientId := "myclient", Topic := "mytopic",
    SecretPath := "mqtt", AuthMode := AuthModeCert }

/-- A sample secret store that answers every path with the given secrets and accepts every
certificate. -/
def secretStore (secrets : List (String × String)) : FactoryEnv :=
  { getSecret := fun _ => .ok secrets,
    appendCertsFromPEM := fun _ => true,
    x509KeyPair := fun _ _ => none }

/-- The options of a client built for `clientCertConfig` from `secretsAfterRotation`, with
the given username. -/
def optionsAfterRotation (username : String) : ClientOptions :=
  { Servers := ["ssl://broker:8883"],
    ClientID := "myclient",
    AutoReconnect := false,
    Username := username,
    Password := "",
    TLSConfig := some
      { InsecureSkipVerify := false, Certificates := [("CERT-2", "KEY-2")], RootCAs := none } }

/-- The secrets before the rotation: a key pair and the username `alice`. -/
def secretsBeforeRotation : List (String × String) :=
  [("username", "alice"), ("clientcert", "CERT-1"), ("clientkey", "KEY-1")]

/-- The secrets after the rotation: a new key pair and no username. -/
def secretsAfterRotation : List (String × String) :=
  [("clientcert", "CERT-2"), ("clientkey", "KEY-2")]

/-! ## `influxdb.go` and `postgres.go`: the database writers -/

/-- The value of `InfluxDBAuthModeToken`. -/
def InfluxDBAuthModeToken : String := "token"

/-- The value of `InfluxDBSecretAuthToken`. -/
def InfluxDBSecretAuthToken : String := InfluxDBAuthModeToken

/-- The value of `PostgresAuthModeUsernamePassword`. -/
def PostgresAuthModeUsernamePassword : String := AuthModeUsernamePassword

/-- An item of a `[]interface{}` handed to a writer: a `dtos.Event`, or a value of another
type, named as `reflect.TypeOf` prints it. -/
inductive BatchItem (ε : Type) where
  | event (e : ε)
  | other (typeName : String)
deriving DecidableEq, Repr

/-- The dynamic type of the `inputData` of a writer: a `dtos.Event`, a `[]dtos.Event`, a
`[]interface{}`, a `[]byte`, or a value of another type. -/
inductive WriterInput (ε : Type) where
  | event (e : ε)
  | events (es : List ε)
  | batch (items : List (BatchItem ε))
  | bytes (d : Bytes)
  | other (typeName : String)
deriving DecidableEq, Repr

/-- The statements that `initializePostgresClient` executes on a new connection pool and
whose failure fails the initialization, in order. -/
inductive PostgresSetupStep where
  | createTableValueType
  | insertValueTypes
  | closeBatch
  | createTableResource
  | createEdgexResourcesIndex1
  | createEdgexResourcesIndex2
  | createTableReading
deriving DecidableEq, Repr

/-- The errors that the writers return, by the statement that produces them. -/
inductive WriteError where
  | noDataReceived
  | getSecret (cause : String)
  | emptyAuthToken
  | secretNotFound (key : String)
  | invalidAuthMode (authMode : String)
  | connect (cause : String)
  | setup (step : PostgresSetupStep) (cause : String)
  | nilClient
  | toPoints (cause : String)
  | unsupportedDataType (typeName : String)
  | notAnEventOrEvents
  | unmarshal (cause : String)
  | marshalRetryData (cause : String)
  | writePoints (persisting : Bool) (cause : String)
  | writeReadings (persisting : Bool)
deriving DecidableEq, Repr

/-- The error carried by a returned `interface{}`, if it is one. -/
def Result.err {ε δ : Type} : Result ε δ → Option ε
  | Result.error e => some e
  | _ => none

/-- The data carried by a returned `interface{}`, if it is a value of the pipeline's data
type. -/
def Result.val {ε δ : Type} : Result ε δ → Option δ
  | Result.value d => some d
  | _ => none

/-- The loop of the `[]interface{}` case of both writers: the events of the batch, or the
type name of the first item that is not a `dtos.Event`. -/
def batchedEvents {ε : Type} : List ε → List (BatchItem ε) → Except String (List ε)
  | acc, [] => .ok acc
  | acc, BatchItem.event be :: rest => batchedEvents (acc ++ [be]) rest
  | _, BatchItem.other typeName :: _ => .error typeName

/-- Embedding of `InfluxDBWriterConfig`; `Precision` is a duration. -/
structure InfluxDBWriterConfig where
  ServerURL : String
  AuthMode : String
  SecretPath : String
  Org : String
  Bucket : String
  Measurement : String
  ValueType : String
  Precision : Nat
  SkipCertVerify : Bool
  StoreEventTags : Bool
  StoreReadingTags : Bool
  FieldKeyPattern : String
deriving DecidableEq, Repr

/-- Embedding of `influxDBWriter` without its mutex; `client = none` is a nil client. -/
structure influxDBWriter where
  client : Option ClientId
  config : InfluxDBWriterConfig
  persistOnError : Bool
  secretsLastRetrieved : Time
deriving DecidableEq, Repr

/-- Embedding of `influxDBSecrets`. -/
structure influxDBSecrets where
  authToken : String
deriving DecidableEq, Repr

/-- Embedding of `NewInfluxDBWriter(config, persistOnError)`. -/
def NewInfluxDBWriter (config : InfluxDBWriterConfig) (persistOnError : Bool) : influxDBWriter :=
  { client := none, config := config, persistOnError := persistOnError,
    secretsLastRetrieved := 0 }

/-- The collaborators of `InfluxDBSyncWrite` for events of type `ε` and points of type `π`:
the answers of the secret provider, the clock, the InfluxDB client library and the JSON
codec. -/
structure InfluxEnv (ε π : Type) where
  /-- Result of `ctx.GetSecret(path)`. -/
  getSecret : String → Except String (List (String × String))
  /-- Value of `time.Now()` in `initializeInfluxDBClient`. -/
  now : Time
  /-- Identity of the client returned by `influxdb2.NewClientWithOptions(serverURL,
  authToken, options)`. -/
  newClient : String → String → ClientId
  /-- Result of `toPoints(ctx, events)` under the writer's configuration. -/
  toPoints : InfluxDBWriterConfig → List ε → Except String (List π)
  /-- Error of `writeApi.WritePoint(ctx, points...)`. -/
  writePoint : ClientId → List π → Option String
  /-- Result of `json.Unmarshal(d, &batchedEvents)` into a `[]dtos.Event`. -/
  unmarshalEvents : Bytes → Except String (List ε)
  /-- Result of `json.Unmarshal(d, &event)` into a `dtos.Event`. -/
  unmarshalEvent : Bytes → Except String ε
  /-- Result of `json.Marshal(events)`. -/
  marshalEvents : List ε → Except String Bytes

/-- A writer together with the context it acts on and the `WritePoint` calls made so far,
oldest first. -/
structure InfluxState (π : Type) where
  writer : influxDBWriter
  ctx : AppContext
  written : List (ClientId × List π)
deriving DecidableEq, Repr

/-- Embedding of `influxDBWriter.getSecrets(ctx)`. -/
def influxDBWriter.getSecrets {ε π : Type} (env : InfluxEnv ε π) (writer : influxDBWriter) :
    Except WriteError influxDBSecrets :=
  match env.getSecret writer.config.SecretPath with
  | .error cause => .error (WriteError.getSecret cause)
  | .ok secrets => .ok { authToken := (secrets.lookup InfluxDBSecretAuthToken).getD "" }

/-- Embedding of `influxDBWriter.validateSecrets(secrets)`. -/
def influxDBWriter.validateSecrets (writer : influxDBWriter) (secrets : influxDBSecrets) :
    Option WriteError :=
  if writer.config.AuthMode = InfluxDBAuthModeToken then
    if secrets.authToken.length ≤ 0 then some WriteError.emptyAuthToken else none
  else none

/-- Embedding of `initializeInfluxDBClient(ctx)`: the writer afterwards and the returned
error. -/
def influxDBWriter.initializeInfluxDBClient {ε π : Type} (env : InfluxEnv ε π)
    (ctx : AppContext) (writer : influxDBWriter) : influxDBWriter × Option WriteError :=
  if writer.client.isSome &&
      !(decide (writer.secretsLastRetrieved < ctx.SecretsLastUpdated)) then
    (writer, none)
  else
    let authToken : Except WriteError String :=
      if writer.config.AuthMode ≠ AuthModeNone then
        match writer.getSecrets env with
        | .error e => .error e
        | .ok secrets =>
          match writer.validateSecrets secrets with
          | some e => .error e
          | none => .ok secrets.authToken
      else .ok ""
    match authToken with
    | .error e => (writer, some e)
    | .ok authToken =>
      ({ writer with
          client := some (env.newClient writer.config.ServerURL authToken),
          secretsLastRetrieved := env.now }, none)

/-- Embedding of `influxDBWriter.setRetryData(ctx, exportData)`. -/
def influxDBWriter.setRetryData {π : Type} (s : InfluxState π) (exportData : Bytes) :
    InfluxState π :=
  if s.writer.persistOnError then
    { s with ctx := s.ctx.SetRetryData exportData }
  else s

/-- Embedding of `writeEventsToInfluxDB(ctx, events...)`: the state afterwards and the
returned error. The branch `nilClient` stands for the nil dereference of `writer.client`,
which a successful initialization excludes. -/
def influxDBWriter.writeEventsToInfluxDB {ε π : Type} (env : InfluxEnv ε π)
    (s : InfluxState π) (events : List ε) : InfluxState π × Option WriteError :=
  let initialized : InfluxState π × Option WriteError :=
    if s.writer.client.isNone ||
        decide (s.writer.secretsLastRetrieved < s.ctx.SecretsLastUpdated) then
      let r := influxDBWriter.initializeInfluxDBClient env s.ctx s.writer
      ({ s with writer := r.1 }, r.2)
    else (s, none)
  match initialized.2 with
  | some e => (initialized.1, some e)
  | none =>
    let s := initialized.1
    match s.writer.client with
    | none => (s, some WriteError.nilClient)
    | some client =>
      match env.toPoints s.writer.config events with
      | .error cause => (s, some (WriteError.toPoints cause))
      | .ok points =>
        if points.length > 0 then
          let s := { s with written := s.written ++ [(client, points)] }
          match env.writePoint client points with
          | some writeError =>
            match env.marshalEvents events with
            | .error cause => (s, some (WriteError.marshalRetryData cause))
            | .ok retryData =>
              (influxDBWriter.setRetryData s retryData,
                some (WriteError.writePoints s.writer.persistOnError writeError))
          | none => (s, none)
        else (s, none)

/-- The end of `InfluxDBSyncWrite`: `(false, err)` when the write returned an error, else
`(true, inputData)`. -/
def influxDBWriter.finish {ε π : Type} (r : InfluxState π × Option WriteError)
    (inputData : WriterInput ε) : InfluxState π × Bool × Result WriteError (WriterInput ε) :=
  match r.2 with
  | some e => (r.1, false, Result.error e)
  | none => (r.1, true, Result.value inputData)

/-- Embedding of `InfluxDBSyncWrite(ctx, inputData)`; `inputData = none` is a nil
`inputData`. The `goto dataTypeDetection` of the `[]byte` case, which re-enters the switch
with `inputData` replaced by the decoded events or event, is written out as the case it
jumps to. -/
def influxDBWriter.InfluxDBSyncWrite {ε π : Type} (env : InfluxEnv ε π) (s : InfluxState π)
    (inputData : Option (WriterInput ε)) :
    InfluxState π × Bool × Result WriteError (WriterInput ε) :=
  match inputData with
  | none => (s, false, Result.error WriteError.noDataReceived)
  | some (WriterInput.event d) =>
    influxDBWriter.finish (influxDBWriter.writeEventsToInfluxDB env s [d]) (WriterInput.event d)
  | some (WriterInput.events d) =>
    influxDBWriter.finish (influxDBWriter.writeEventsToInfluxDB env s d) (WriterInput.events d)
  | some (WriterInput.batch d) =>
    match batchedEvents [] d with
    | .error typeName => (s, false, Result.error (WriteError.unsupportedDataType typeName))
    | .ok events =>
      influxDBWriter.finish (influxDBWriter.writeEventsToInfluxDB env s events)
        (WriterInput.batch d)
  | some (WriterInput.bytes d) =>
    match env.unmarshalEvents d with
    | .ok events =>
      influxDBWriter.finish (influxDBWriter.writeEventsToInfluxDB env s events)
        (WriterInput.events events)
    | .error _ =>
      match env.unmarshalEvent d with
      | .ok event =>
        influxDBWriter.finish (influxDBWriter.writeEventsToInfluxDB env s [event])
          (WriterInput.event event)
      | .error _ => (s, false, Result.error WriteError.notAnEventOrEvents)
  | some (WriterInput.other typeName) =>
    (s, false, Result.error (WriteError.unsupportedDataType typeName))

/-- Embedding of `PostgresWriterConfig`. -/
structure PostgresWriterConfig where
  Host : String
  Port : String
  DatabaseName : String
  TableName : String
  StoreEventId : Bool
  SecretPath : String
  AuthMode : String
  ChunkTimeInterval : String
  MaxConn : String
deriving DecidableEq, Repr

/-- Embedding of `postgresWriter` without its mutex; `conn = none` is a nil pool. -/
structure postgresWriter where
  conn : Option ClientId
  config : PostgresWriterConfig
  persistOnError : Bool
  secretsLastRetrieved : Time
deriving DecidableEq, Repr

/-- Embedding of `postgresSecrets`. -/
structure postgresSecrets where
  username : String
  password : String
deriving DecidableEq, Repr

/-- Embedding of `NewPostgresWriter(config, persistOnError)`. -/
def NewPostgresWriter (config : PostgresWriterConfig) (persistOnError : Bool) : postgresWriter :=
  { conn := none, config := config, persistOnError := persistOnError,
    secretsLastRetrieved := 0 }

/-- The collaborators of `PostgresWrite` for events of type `ε`: the answers of the secret
provider, the clock, the connection pool and the JSON codec. -/
structure PostgresEnv (ε : Type) where
  /-- Result of `ctx.GetSecret(path)`. -/
  getSecret : String → Except String (List (String × String))
  /-- Value of `time.Now()` in `getSecrets`. -/
  now : Time
  /-- Result of `pgxpool.New(ctx, connStr)`: the identity of the pool, or an error. -/
  newPool : String → Except String ClientId
  /-- Error of a setup statement executed on the new pool. -/
  exec : ClientId → PostgresSetupStep → Option String
  /-- Error of `w.conn.Acquire(ctx)`. -/
  acquire : ClientId → Option String
  /-- Error of `br.Exec()` for the batch of inserts queued for the readings of the events. -/
  execBatch : ClientId → List ε → Option String
  /-- Result of `json.Unmarshal(d, &batchedEvents)` into a `[]dtos.Event`. -/
  unmarshalEvents : Bytes → Except String (List ε)
  /-- Result of `json.Marshal(events)`. -/
  marshalEvents : List ε → Except String Bytes

/-- A writer together with the context it acts on and the batches sent so far, oldest
first. -/
structure PostgresState (ε : Type) where
  writer : postgresWriter
  ctx : AppContext
  batches : List (ClientId × List ε)
deriving DecidableEq, Repr

/-- Embedding of `postgresWriter.getSecrets(ctx)`: the writer afterwards (the method sets
`secretsLastRetrieved`) and the result. -/
def postgresWriter.getSecrets {ε : Type} (env : PostgresEnv ε) (w : postgresWriter) :
    postgresWriter × Except WriteError postgresSecrets :=
  match env.getSecret w.config.SecretPath with
  | .error cause => (w, .error (WriteError.getSecret cause))
  | .ok secrets =>
    ({ w with secretsLastRetrieved := env.now },
      .ok { username := (secrets.lookup SecretUsernameKey).getD "",
            password := (secrets.lookup SecretPasswordKey).getD "" })

/-- Embedding of `postgresWriter.validateSecrets(secrets)`. -/
def postgresWriter.validateSecrets (w : postgresWriter) (secrets : postgresSecrets) :
    Option WriteError :=
  if w.config.AuthMode = PostgresAuthModeUsernamePassword then
    if secrets.username.length = 0 then some (WriteError.secretNotFound SecretUsernameKey)
    else if secrets.password.length = 0 then some (WriteError.secretNotFound SecretPasswordKey)
    else none
  else some (WriteError.invalidAuthMode w.config.AuthMode)

/-- The setup statements in the order in which `initializePostgresClient` executes them. -/
def postgresSetupSteps : List PostgresSetupStep :=
  [PostgresSetupStep.createTableValueType, PostgresSetupStep.insertValueTypes,
   PostgresSetupStep.closeBatch, PostgresSetupStep.createTableResource,
   PostgresSetupStep.createEdgexResourcesIndex1, PostgresSetupStep.createEdgexResourcesIndex2,
   PostgresSetupStep.createTableReading]

/-- Embedding of `initializePostgresClient(ctx)`: the writer afterwards and the returned
error. The two hypertable statements at the end, whose errors are only logged, are left
out. -/
def postgresWriter.initializePostgresClient {ε : Type} (env : PostgresEnv ε) (ctx : AppContext)
    (w : postgresWriter) : postgresWriter × Option WriteError :=
  if w.conn.isSome && !(decide (w.secretsLastRetrieved < ctx.SecretsLastUpdated)) then
    (w, none)
  else
    let got := w.getSecrets env
    let w := got.1
    match got.2 with
    | .error e => (w, some e)
    | .ok secrets =>
      match w.validateSecrets secrets with
      | some e => (w, some e)
      | none =>
        let connStr := "postgres://" ++ secrets.username ++ ":" ++ secrets.password ++ "@" ++
          w.config.Host ++ ":" ++ w.config.Port ++ "/" ++ w.config.DatabaseName ++
          "?pool_max_conns=" ++ w.config.MaxConn
        match env.newPool connStr with
        | .error cause => (w, some (WriteError.connect cause))
        | .ok conn =>
          match postgresSetupSteps.findSome?
              (fun step => (env.exec conn step).map (WriteError.setup step)) with
          | some e => (w, some e)
          | none => ({ w with conn := some conn }, none)

/-- Embedding of `postgresWriter.setRetryData(ctx, exportData)`. -/
def postgresWriter.setRetryData {ε : Type} (s : PostgresState ε) (exportData : Bytes) :
    PostgresState ε :=
  if s.writer.persistOnError then
    { s with ctx := s.ctx.SetRetryData exportData }
  else s

/-- Embedding of `writeReadingsToPostgres(ctx, events...)`: the state afterwards and the
returned error. The branch `nilClient` stands for the nil dereference of `w.conn`, which a
successful initialization excludes. -/
def postgresWriter.writeReadingsToPostgres {ε : Type} (env : PostgresEnv ε)
    (s : PostgresState ε) (events : List ε) : PostgresState ε × Option WriteError :=
  let initialized : PostgresState ε × Option WriteError :=
    if s.writer.conn.isNone ||
        decide (s.writer.secretsLastRetrieved < s.ctx.SecretsLastUpdated) then
      let r := postgresWriter.initializePostgresClient env s.ctx s.writer
      ({ s with writer := r.1 }, r.2)
    else (s, none)
  match initialized.2 with
  | some e => (initialized.1, some e)
  | none =>
    let s := initialized.1
    match s.writer.conn with
    | none => (s, some WriteError.nilClient)
    | some pool =>
      let sent : PostgresState ε × Bool :=
        match env.acquire pool with
        | none =>
          ({ s with batches := s.batches ++ [(pool, events)] },
            (env.execBatch pool events).isSome)
        | some _ => (s, true)
      if sent.2 then
        match env.marshalEvents events with
        | .error cause => (sent.1, some (WriteError.marshalRetryData cause))
        | .ok retryData =>
          (postgresWriter.setRetryData sent.1 retryData,
            some (WriteError.writeReadings s.writer.persistOnError))
      else (sent.1, none)

/-- The end of `PostgresWrite`: `(false, err)` when the write returned an error, else
`(true, nil)`. -/
def postgresWriter.finish {ε : Type} (r : PostgresState ε × Option WriteError) :
    PostgresState ε × Bool × Result WriteError (WriterInput ε) :=
  match r.2 with
  | some e => (r.1, false, Result.error e)
  | none => (r.1, true, Result.nil)

/-- Embedding of `PostgresWrite(ctx, inputData)`; `inputData = none` is a nil `inputData`.
The `goto dataTypeDetection` of the `[]byte` case is written out as the case it jumps to;
when the bytes do not decode into a `[]dtos.Event` the decoder's error is returned. -/
def postgresWriter.PostgresWrite {ε : Type} (env : PostgresEnv ε) (s : PostgresState ε)
    (inputData : Option (WriterInput ε)) :
    PostgresState ε × Bool × Result WriteError (WriterInput ε) :=
  match inputData with
  | none => (s, false, Result.error WriteError.noDataReceived)
  | some (WriterInput.event d) =>
    postgresWriter.finish (postgresWriter.writeReadingsToPostgres env s [d])
  | some (WriterInput.events d) =>
    postgresWriter.finish (postgresWriter.writeReadingsToPostgres env s d)
  | some (WriterInput.batch d) =>
    match batchedEvents [] d with
    | .error typeName => (s, false, Result.error (WriteError.unsupportedDataType typeName))
    | .ok events => postgresWriter.finish (postgresWriter.writeReadingsToPostgres env s events)
  | some (WriterInput.bytes d) =>
    match env.unmarshalEvents d with
    | .ok events => postgresWriter.finish (postgresWriter.writeReadingsToPostgres env s events)
    | .error cause => (s, false, Result.error (WriteError.unmarshal cause))
  | some (WriterInput.other typeName) =>
    (s, false, Result.error (WriteError.unsupportedDataType typeName))

/-! ## Concurrent `Send` calls on one sender -/

/-- Number of `Connect` calls the clients have received. -/
def MqttWorld.connectCount (w : MqttWorld) : Nat :=
  (w.calls.filter (fun call =>
    match call with
    | MqttCall.connect _ => true
    | _ => false)).length

/-- The atomic sections of a `Send` call of a sender built on `BaseMqttSender`: the body of
`initializeMQTTClient` and the locked part of `connect` followed by the deferred
`Subtract(1)`, both of which run while the shared mutex is held, and the sections that run
without the mutex: `Add(1)` on the waiting counter, `setRetryData`, and the rest of
`publish` from `ApplyValues` on with the client that the call has read. Each section carries
the collaborators' answers to the call that executes it. -/
inductive SendStep (δ : Type) where
  | initializeMQTTClient (env : MqttEnv δ)
  | counterAdd
  | connectLocked (env : MqttEnv δ)
  | setRetryData (exportData : Bytes)
  | publishMessage (env : MqttEnv δ) (exportData : Bytes) (client : ClientId)

/-- The state after an atomic section. -/
def SendStep.apply {δ : Type} : SendStep δ → MqttState → MqttState
  | SendStep.initializeMQTTClient env, s => (BaseMqttSender.initializeMQTTClient env s).1
  | SendStep.counterAdd, s =>
    { s with ctx := { s.ctx with
        mqttConnectionWaitingCounter := (s.ctx.mqttConnectionWaitingCounter.Add 1).1 } }
  | SendStep.connectLocked env, s =>
    let r := BaseMqttSender.connectLocked env s
    { r.1 with ctx := { r.1.ctx with
        mqttConnectionWaitingCounter := r.1.ctx.mqttConnectionWaitingCounter.Subtract 1 } }
  | SendStep.setRetryData exportData, s => BaseMqttSender.setRetryData s exportData
  | SendStep.publishMessage env exportData client, s =>
    (BaseMqttSender.publishMessage env s exportData client).1

/-- The state after a sequence of atomic sections. Concurrent `Send` calls on one sender
interleave as such a sequence: the mutex serializes the locked sections, and which sections
a call executes is decided by what it reads between them. The context's
`SecretsLastUpdated()` is the same throughout, so a sequence stays within one staleness
epoch. -/
def runSteps {δ : Type} (steps : List (SendStep δ)) (s : MqttState) : MqttState :=
  steps.foldl (fun s step => step.apply s) s

/-- The atomic sections that `RegularMQTTSender.Send(ctx, data)` executes when it runs alone
from the state `s`, in order. -/
def RegularMQTTSender.Send.steps {δ : Type} (env : MqttEnv δ) (s : MqttState) (data : δ) :
    List (SendStep δ) :=
  match env.coerceType data with
  | .error _ => []
  | .ok exportData =>
    let initSteps : List (SendStep δ) :=
      if s.sender.client.isNone ||
          decide (s.sender.secretsLastRetrieved < s.ctx.SecretsLastUpdated) then
        [SendStep.initializeMQTTClient env]
      else []
    let failed : Bool :=
      (s.sender.client.isNone ||
          decide (s.sender.secretsLastRetrieved < s.ctx.SecretsLastUpdated)) &&
        (BaseMqttSender.initializeMQTTClient env s).2.isSome
    let s1 := runSteps initSteps s
    if failed then initSteps
    else
      match s1.sender.client with
      | none => initSteps
      | some client =>
        if s1.world.IsConnected client then
          initSteps ++ [SendStep.publishMessage env exportData client]
        else if (s1.ctx.mqttConnectionWaitingCounter.Add 1).2.isSome then
          initSteps ++ [SendStep.counterAdd, SendStep.setRetryData exportData]
        else if (BaseMqttSender.connectLocked env
            (SendStep.apply (SendStep.counterAdd : SendStep δ) s1)).2.isSome then
          initSteps ++
            [SendStep.counterAdd, SendStep.connectLocked env, SendStep.setRetryData exportData]
        else
          initSteps ++
            [SendStep.counterAdd, SendStep.connectLocked env,
             SendStep.publishMessage env exportData client]

/-- The sender holds a client for the current epoch: the client is set, its secrets were not
retrieved before the last update, and a sender that uses the shared client agrees with the
holder. This is the state in which `initializeMQTTClient` returns without calling the
factory. -/
def MqttState.ready (s : MqttState) : Prop :=
  s.sender.client.isSome = true ∧
  ¬ (s.sender.secretsLastRetrieved < s.ctx.SecretsLastUpdated) ∧
  (s.sender.usingSharedClient = true →
    s.ctx.sharedMQTTClient.Get = (s.sender.client, s.sender.secretsLastRetrieved))

/-- The sender holds a client for the current epoch and this client reports connected. -/
def MqttState.readyAndConnected (s : MqttState) : Prop :=
  s.ready ∧ ∃ client, s.sender.client = some client ∧ s.world.IsConnected client = true

/-- What an atomic section may change once the sender is ready: `s1` has the client, the
retrieval time, the mode, the update time and the shared holder of `s`, and no more `Create`
calls. -/
def MqttState.keepsClient (s s1 : MqttState) : Prop :=
  s1.sender.client = s.sender.client ∧
  s1.sender.secretsLastRetrieved = s.sender.secretsLastRetrieved ∧
  s1.sender.usingSharedClient = s.sender.usingSharedClient ∧
  s1.ctx.secretsLastUpdated = s.ctx.secretsLastUpdated ∧
  s1.ctx.sharedMQTTClient = s.ctx.sharedMQTTClient ∧
  s1.world.createCount = s.world.createCount

/-! ## Run-time panics and `float64` values -/

/-- A run-time panic of the Go program, by the operation that raises it: the dereference of
a nil pointer, an index expression out of range, and `big.NewFloat(x)` for a NaN `x`. -/
inductive Panic where
  | nilDereference (expression : String)
  | indexOutOfRange (index length : Nat)
  | bigFloatNaN
deriving DecidableEq, Repr

/-- A `float64` value: NaN, an infinity, negative zero, or the finite number
`mantissa * 2 ^ exponent`. -/
inductive Float64 where
  | nan
  | inf (negative : Bool)
  | negZero
  | finite (mantissa : Int) (exponent : Int)
deriving DecidableEq, Repr

/-- Whether `m1 * 2 ^ e1 < m2 * 2 ^ e2`. -/
def dyadicLt (m1 e1 m2 e2 : Int) : Bool :=
  decide (m1 * ((2 ^ (e1 - min e1 e2).toNat : Nat) : Int) <
    m2 * ((2 ^ (e2 - min e1 e2).toNat : Nat) : Int))

/-- Go's `a < b` on `float64` values: false when either is NaN. -/
def Float64.lt : Float64 → Float64 → Bool
  | Float64.nan, _ => false
  | _, Float64.nan => false
  | Float64.inf n1, Float64.inf n2 => n1 && !n2
  | Float64.inf n1, _ => n1
  | _, Float64.inf n2 => !n2
  | Float64.negZero, Float64.negZero => false
  | Float64.negZero, Float64.finite m e => dyadicLt 0 0 m e
  | Float64.finite m e, Float64.negZero => dyadicLt m e 0 0
  | Float64.finite m1 e1, Float64.finite m2 e2 => dyadicLt m1 e1 m2 e2

/-- The integer part of a finite value, rounded toward zero; `none` for NaN and the
infinities. -/
def Float64.truncate : Float64 → Option Int
  | Float64.finite m e =>
    some (if 0 ≤ e then m * ((2 ^ e.toNat : Nat) : Int)
      else Int.tdiv m ((2 ^ (-e).toNat : Nat) : Int))
  | Float64.negZero => some 0
  | _ => none

/-- Go's conversion `int64(f)`: the value truncated toward zero when it fits an `int64`;
otherwise the result is implementation-dependent and given by `outOfRange`. -/
def Float64.toInt64 (outOfRange : Int) (f : Float64) : Int :=
  match f.truncate with
  | some z => if -(intBound : Int) ≤ z ∧ z < (intBound : Int) then z else outOfRange
  | none => outOfRange

/-- The value of `float64(math.MaxInt64)`: `2 ^ 63 - 1` is not a `float64` and the
conversion rounds it to `2 ^ 63`. -/
def float64MaxInt64 : Float64 := Float64.finite 1 63

/-- The value of `float64(math.MinInt64)`, which is `-2 ^ 63`. -/
def float64MinInt64 : Float64 := Float64.finite (-1) 63

/-- Floating-point library functions taken as given: `strconv.ParseFloat(s, bitSize)`,
`fmt.Sprintf("%e", f)`, and the implementation-dependent result of `int64(f)` for a value
that does not fit. -/
structure FloatLib where
  ParseFloat : String → Nat → Except String Float64
  FormatE : Float64 → String
  int64OutOfRange : Int

/-- Model of `strconv.FormatInt(z, 10)` and of `fmt.Sprintf("%d", z)`. -/
def FormatInt (z : Int) : String :=
  if z < 0 then String.mk ('-' :: Nat.toDigits 10 z.natAbs)
  else String.mk (Nat.toDigits 10 z.natAbs)

/-- Value of a string of decimal digits. -/
def digitsToNat (cs : List Char) : Nat :=
  cs.foldl (fun acc c => 10 * acc + (c.toNat - '0'.toNat)) 0

/-- Model of `strconv.ParseInt(s, 10, bitSize)`: an optional sign followed by at least one
decimal digit, with a value that fits a signed integer of `bitSize` bits; `none` is a syntax
or range error. -/
def ParseInt (s : String) (bitSize : Nat) : Option Int :=
  let cs := s.toList
  let signed : Bool × List Char :=
    match cs with
    | '-' :: rest => (true, rest)
    | '+' :: rest => (false, rest)
    | _ => (false, cs)
  if signed.2.isEmpty then none
  else if signed.2.all Char.isDigit then
    let z : Int := if signed.1 then -(digitsToNat signed.2 : Int) else (digitsToNat signed.2 : Int)
    if -((2 ^ (bitSize - 1) : Nat) : Int) ≤ z ∧ z < ((2 ^ (bitSize - 1) : Nat) : Int) then some z
    else none
  else none

/-- Model of `strconv.ParseUint(s, 10, bitSize)`: at least one decimal digit and no sign,
with a value that fits an unsigned integer of `bitSize` bits; `none` is a syntax or range
error. -/
def ParseUint (s : String) (bitSize : Nat) : Option Nat :=
  let cs := s.toList
  if cs.isEmpty then none
  else if cs.all Char.isDigit then
    if digitsToNat cs < 2 ^ bitSize then some (digitsToNat cs) else none
  else none

/-! ## `dtos`: events, readings and device resources

The types of `go-mod-core-contracts` are not among the sources; the fields that the
transforms read or write are taken as given. -/

/-- The fields of `dtos.BaseReading` (with its `SimpleReading.Value`) that the transforms
use. -/
structure BaseReading where
  Id : String
  Origin : Int
  DeviceName : String
  ResourceName : String
  ProfileName : String
  ValueType : String
  Value : String
deriving DecidableEq, Repr

/-- The fields of `dtos.Event`; `Tags = none` is a nil map. -/
structure Event where
  Id : String
  DeviceName : String
  ProfileName : String
  SourceName : String
  Origin : Int
  Readings : List BaseReading
  Tags : Option (List (String × String))
deriving DecidableEq, Repr

/-- The zero value `dtos.Event{}`. -/
def Event.zero : Event :=
  { Id := "", DeviceName := "", ProfileName := "", SourceName := "", Origin := 0,
    Readings := [], Tags := none }

/-- The fields of `dtos.ResourceProperties` that the filter reads; `Maximum` and `Minimum`
are `interface{}` values, and `none` is a value that is not a string. -/
structure ResourceProperties where
  ValueType : String
  Maximum : Option String
  Minimum : Option String
deriving DecidableEq, Repr

/-- The fields of `dtos.DeviceResource` that are used. -/
structure DeviceResource where
  Name : String
  Description : String
  Properties : ResourceProperties
deriving DecidableEq, Repr

/-- The fields of `dtos.DeviceProfile` that are used. -/
structure DeviceProfile where
  Name : String
  DeviceResources : List DeviceResource
deriving DecidableEq, Repr

/-- The value of `common.ValueTypeBool`. -/
def ValueTypeBool : String := "Bool"

/-- The value of `common.ValueTypeString`. -/
def ValueTypeString : String := "String"

/-- The value of `common.ValueTypeUint8`. -/
def ValueTypeUint8 : String := "Uint8"

/-- The value of `common.ValueTypeUint16`. -/
def ValueTypeUint16 : String := "Uint16"

/-- The value of `common.ValueTypeUint32`. -/
def ValueTypeUint32 : String := "Uint32"

/-- The value of `common.ValueTypeUint64`. -/
def ValueTypeUint64 : String := "Uint64"

/-- The value of `common.ValueTypeInt8`. -/
def ValueTypeInt8 : String := "Int8"

/-- The value of `common.ValueTypeInt16`. -/
def ValueTypeInt16 : String := "Int16"

/-- The value of `common.ValueTypeInt32`. -/
def ValueTypeInt32 : String := "Int32"

/-- The value of `common.ValueTypeInt64`. -/
def ValueTypeInt64 : String := "Int64"

/-- The value of `common.ValueTypeFloat32`. -/
def ValueTypeFloat32 : String := "Float32"

/-- The value of `common.ValueTypeFloat64`. -/
def ValueTypeFloat64 : String := "Float64"

/-- The value of `common.ValueTypeBinary`. -/
def ValueTypeBinary : String := "Binary"

/-- The dynamic type of the `data` handed to a transform: a `dtos.Event`, a `[]byte`, or a
value of another type, named as `reflect.TypeOf` prints it. -/
inductive PipelineData where
  | event (e : Event)
  | bytes (b : List UInt8)
  | other (typeName : String)
deriving DecidableEq, Repr

/-! ## `deviceresources.go`: the device resource cache -/

/-- The kind of the error of `XpertGetDeviceResource`: `KindEntityDoesNotExist` or another
kind. -/
inductive MetadataError where
  | entityDoesNotExist
  | other (cause : String)
deriving DecidableEq, Repr

/-- The collaborators of the cache: the answers of core metadata. -/
structure CacheEnv where
  /-- Result of `appContext.XpertGetDeviceResource(profileName, resourceName)`. -/
  XpertGetDeviceResource : String → String → Except MetadataError DeviceResource
  /-- Result of `DeviceProfileClient().AllDeviceProfiles(ctx, nil, 0, -1)`: the profiles of
  the response, or an error. -/
  AllDeviceProfiles : Except String (List DeviceProfile)

/-- Embedding of `deviceResourceCache` without its mutex. A Go map is the list of its
assignments, latest first: the first pair with a key is its entry. `hasAppContext` is
`appContext != nil`. -/
structure deviceResourceCache where
  drMap : List (String × DeviceResource)
  absentDrMap : List (String × Bool)
  hasAppContext : Bool
deriving DecidableEq, Repr

/-- Embedding of `getCachedDeviceResource(key)`: the cached resource with its `ok` (`none`
is `ok = false`), and `isIgnored`. -/
def deviceResourceCache.getCachedDeviceResource (d : deviceResourceCache) (key : String) :
    Option DeviceResource × Bool :=
  (d.drMap.lookup key, (d.absentDrMap.lookup key).isSome)

/-- Embedding of `getDeviceResource(profileName, resourceName)`: the cache afterwards and
the resource with its `ok` (`none` is `ok = false`). -/
def deviceResourceCache.getDeviceResource (env : CacheEnv) (d : deviceResourceCache)
    (profileName resourceName : String) : deviceResourceCache × Option DeviceResource :=
  match env.XpertGetDeviceResource profileName resourceName with
  | .error MetadataError.entityDoesNotExist =>
    ({ d with absentDrMap := (profileName ++ resourceName, true) :: d.absentDrMap }, none)
  | .error (MetadataError.other _) => (d, none)
  | .ok deviceResource =>
    ({ d with drMap := (profileName ++ resourceName, deviceResource) :: d.drMap },
      some deviceResource)

/-- Embedding of `ForName(profileName, resourceName)`: the cache afterwards and the resource
with its `ok` (`none` is `ok = false`). -/
def deviceResourceCache.ForName (env : CacheEnv) (d : deviceResourceCache)
    (profileName resourceName : String) : deviceResourceCache × Option DeviceResource :=
  let cached := d.getCachedDeviceResource (profileName ++ resourceName)
  if cached.1.isNone && !cached.2 && d.hasAppContext then
    d.getDeviceResource env profileName resourceName
  else (d, cached.1)

/-- The map that `DeviceResources` fills from the profiles of core metadata:
`drMap[p.Name+r.Name] = r` for every resource `r` of every profile `p`, in order. -/
def deviceResourceMap (profiles : List DeviceProfile) : List (String × DeviceResource) :=
  profiles.foldl
    (fun drMap p => p.DeviceResources.foldl (fun drMap r => (p.Name ++ r.Name, r) :: drMap) drMap)
    []

/-- Embedding of `DeviceResources(appContext)` for a non-nil `appContext`; `drc` is the
package variable, `none` before the first call. -/
def DeviceResources (env : CacheEnv) (drc : Option deviceResourceCache) : deviceResourceCache :=
  match drc with
  | some d => d
  | none =>
    match env.AllDeviceProfiles with
    | .error _ => { drMap := [], absentDrMap := [], hasAppContext := true }
    | .ok profiles =>
      { drMap := deviceResourceMap profiles, absentDrMap := [], hasAppContext := true }

/-! ## `filter.go`: `FilterByValueMaxMin` -/

/-- The errors of the filter, by the statement that produces them. -/
inductive FilterError where
  | noEventReceived
  | notAnEvent
  | zeroLengthValue
  | parseReading (value : String) (bitSize : Nat)
  | parseMaximum (value : String) (bitSize : Nat)
  | parseMinimum (value : String) (bitSize : Nat)
deriving DecidableEq, Repr

/-- The comparison of a parsed reading value with one bound of `isOutlierInteger` and
`isFloatOutlier`: the bound is used when it is a non-empty string; `parse` is the parser,
`beyond` tells whether the bound is exceeded, `err` builds the error of an unparsable
bound. -/
def Filter.checkBound {α : Type} (bound : Option String) (parse : String → Option α)
    (beyond : α → Bool) (err : String → FilterError) : Except FilterError Bool :=
  match bound with
  | some boundStr =>
    if boundStr.length > 0 then
      match parse boundStr with
      | none => .error (err boundStr)
      | some boundValue => .ok (beyond boundValue)
    else .ok false
  | none => .ok false

/-- The two comparisons in program order: the maximum first, the minimum only when the
maximum is not exceeded. -/
def Filter.checkBounds {α : Type} (max min : Option String) (parse : String → Option α)
    (above below : α → Bool) (bitSize : Nat) : Except FilterError Bool :=
  match Filter.checkBound max parse above (fun s => FilterError.parseMaximum s bitSize) with
  | .error e => .error e
  | .ok true => .ok true
  | .ok false =>
    match Filter.checkBound min parse below (fun s => FilterError.parseMinimum s bitSize) with
    | .error e => .error e
    | .ok result => .ok result

/-- Embedding of `isOutlierInteger(readingValueStr, max, min, bitSize, signed)`; the boolean
returned together with an error is not used by the caller and is left out. -/
def Filter.isOutlierInteger (readingValueStr : String) (max min : Option String)
    (bitSize : Nat) (signed : Bool) : Except FilterError Bool :=
  if readingValueStr.length = 0 then .error FilterError.zeroLengthValue
  else if signed then
    match ParseInt readingValueStr bitSize with
    | none => .error (FilterError.parseReading readingValueStr bitSize)
    | some readingValue =>
      Filter.checkBounds max min (fun s => ParseInt s bitSize)
        (fun maxValue => decide (readingValue > maxValue))
        (fun minValue => decide (readingValue < minValue)) bitSize
  else
    match ParseUint readingValueStr bitSize with
    | none => .error (FilterError.parseReading readingValueStr bitSize)
    | some readingValue =>
      Filter.checkBounds max min (fun s => ParseUint s bitSize)
        (fun maxValue => decide (readingValue > maxValue))
        (fun minValue => decide (readingValue < minValue)) bitSize

/-- Embedding of `isFloatOutlier(readingValueStr, max, min, bitSize)`. -/
def Filter.isFloatOutlier (lib : FloatLib) (readingValueStr : String) (max min : Option String)
    (bitSize : Nat) : Except FilterError Bool :=
  match lib.ParseFloat readingValueStr bitSize with
  | .error _ => .error (FilterError.parseReading readingValueStr bitSize)
  | .ok floatValue =>
    Filter.checkBounds max min (fun s => (lib.ParseFloat s bitSize).toOption)
      (fun maxValue => maxValue.lt floatValue)
      (fun minValue => floatValue.lt minValue) bitSize

/-- Embedding of `isOutlier(reading, dr)`. -/
def Filter.isOutlier (lib : FloatLib) (reading : BaseReading) (dr : DeviceResource) :
    Except FilterError Bool :=
  let drp := dr.Properties
  if reading.ValueType = drp.ValueType then
    if drp.ValueType = ValueTypeUint8 then
      Filter.isOutlierInteger reading.Value drp.Maximum drp.Minimum 8 false
    else if drp.ValueType = ValueTypeUint16 then
      Filter.isOutlierInteger reading.Value drp.Maximum drp.Minimum 16 false
    else if drp.ValueType = ValueTypeUint32 then
      Filter.isOutlierInteger reading.Value drp.Maximum drp.Minimum 32 false
    else if drp.ValueType = ValueTypeUint64 then
      Filter.isOutlierInteger reading.Value drp.Maximum drp.Minimum 64 false
    else if drp.ValueType = ValueTypeInt8 then
      Filter.isOutlierInteger reading.Value drp.Maximum drp.Minimum 8 true
    else if drp.ValueType = ValueTypeInt16 then
      Filter.isOutlierInteger reading.Value drp.Maximum drp.Minimum 16 true
    else if drp.ValueType = ValueTypeInt32 then
      Filter.isOutlierInteger reading.Value drp.Maximum drp.Minimum 32 true
    else if drp.ValueType = ValueTypeInt64 then
      Filter.isOutlierInteger reading.Value drp.Maximum drp.Minimum 64 true
    else if drp.ValueType = ValueTypeFloat32 then
      Filter.isFloatOutlier lib reading.Value drp.Maximum drp.Minimum 32
    else if drp.ValueType = ValueTypeFloat64 then
      Filter.isFloatOutlier lib reading.Value drp.Maximum drp.Minimum 64
    else .ok false
  else .ok false

/-- The loop of `FilterByValueMaxMin` over the readings that are left, with the package
variable of the cache and the readings accepted so far: a reading is appended when its
device resource is found and `isOutlier` returns `(false, nil)`. -/
def Filter.filterReadings (lib : FloatLib) (env : CacheEnv) :
    Option deviceResourceCache → List BaseReading → List BaseReading →
      Option deviceResourceCache × List BaseReading
  | drc, accepted, [] => (drc, accepted)
  | drc, accepted, reading :: rest =>
    let found := (DeviceResources env drc).ForName env reading.ProfileName reading.ResourceName
    match found.2 with
    | none => Filter.filterReadings lib env (some found.1) accepted rest
    | some dr =>
      match Filter.isOutlier lib reading dr with
      | .error _ => Filter.filterReadings lib env (some found.1) accepted rest
      | .ok true => Filter.filterReadings lib env (some found.1) accepted rest
      | .ok false => Filter.filterReadings lib env (some found.1) (accepted ++ [reading]) rest

/-- Embedding of `FilterByValueMaxMin(ctx, data)`; `data = none` is a nil `data`, and `drc`
is the package variable of the cache, returned as it is afterwards. When no reading is
accepted the result is the zero `dtos.Event`. -/
def Filter.FilterByValueMaxMin (lib : FloatLib) (env : CacheEnv)
    (drc : Option deviceResourceCache) (data : Option PipelineData) :
    Option deviceResourceCache × Bool × Result FilterError Event :=
  match data with
  | none => (drc, false, Result.error FilterError.noEventReceived)
  | some (PipelineData.event existingEvent) =>
    let auxEvent : Event :=
      { Event.zero with DeviceName := existingEvent.DeviceName, Origin := existingEvent.Origin }
    let filtered := Filter.filterReadings lib env drc auxEvent.Readings existingEvent.Readings
    let auxEvent := { auxEvent with Readings := filtered.2 }
    if auxEvent.Readings.length > 0 then (filtered.1, true, Result.value auxEvent)
    else (filtered.1, false, Result.value Event.zero)
  | some _ => (drc, false, Result.error FilterError.notAnEvent)

/-! ## `conversion.go`: `ConvertIntToFloatReading` and `ConvertFloatToIntReading` -/

/-- The errors of the conversions, by the statement that produces them. -/
inductive ConversionError where
  | noEventReceived
  | notAnEvent
  | parseToFloat (value cause : String)
  | parseToInt (value cause : String)
  | outsideInt64 (f : Float64)
deriving DecidableEq, Repr

/-- The value types of the first `case` of the switch in `ConvertIntToFloatReading`. -/
def Conversion.intToFloatValueTypes : List String :=
  [ValueTypeInt8, ValueTypeInt16, ValueTypeInt32, ValueTypeInt64,
   ValueTypeUint8, ValueTypeUint16, ValueTypeUint32, ValueTypeUint64]

/-- The loop of `ConvertIntToFloatReading`: the readings after the loop, or the error it
returns with. -/
def Conversion.intToFloatReadings (lib : FloatLib) :
    List BaseReading → Except ConversionError (List BaseReading)
  | [] => .ok []
  | reading :: rest =>
    if reading.ValueType ∈ Conversion.intToFloatValueTypes then
      match lib.ParseFloat reading.Value 64 with
      | .error cause => .error (ConversionError.parseToFloat reading.Value cause)
      | .ok f =>
        match Conversion.intToFloatReadings lib rest with
        | .error e => .error e
        | .ok readings =>
          .ok ({ reading with ValueType := ValueTypeFloat64, Value := lib.FormatE f } :: readings)
    else
      match Conversion.intToFloatReadings lib rest with
      | .error e => .error e
      | .ok readings => .ok (reading :: readings)

/-- Embedding of `ConvertIntToFloatReading(ctx, data)`; `data = none` is a nil `data`. -/
def Conversion.ConvertIntToFloatReading (lib : FloatLib) (data : Option PipelineData) :
    Bool × Result ConversionError Event :=
  match data with
  | none => (false, Result.error ConversionError.noEventReceived)
  | some (PipelineData.event event) =>
    match Conversion.intToFloatReadings lib event.Readings with
    | .error e => (false, Result.error e)
    | .ok readings => (true, Result.value { event with Readings := readings })
  | some _ => (false, Result.error ConversionError.notAnEvent)

/-- The loop of `ConvertFloatToIntReading`: a panic, or the readings after the loop, or the
error it returns with. `big.NewFloat(f)` panics for a NaN; the two `Cmp` calls compare `f`
with `float64(math.MaxInt64)` and `float64(math.MinInt64)`. -/
def Conversion.floatToIntReadings (lib : FloatLib) :
    List BaseReading → Except Panic (Except ConversionError (List BaseReading))
  | [] => .ok (.ok [])
  | reading :: rest =>
    if reading.ValueType = ValueTypeFloat32 ∨ reading.ValueType = ValueTypeFloat64 then
      match lib.ParseFloat reading.Value 64 with
      | .error cause => .ok (.error (ConversionError.parseToInt reading.Value cause))
      | .ok f =>
        if f = Float64.nan then .error Panic.bigFloatNaN
        else if float64MaxInt64.lt f || f.lt float64MinInt64 then
          .ok (.error (ConversionError.outsideInt64 f))
        else
          match Conversion.floatToIntReadings lib rest with
          | .error p => .error p
          | .ok (.error e) => .ok (.error e)
          | .ok (.ok readings) =>
            .ok (.ok ({ reading with
              ValueType := ValueTypeInt64,
              Value := FormatInt (f.toInt64 lib.int64OutOfRange) } :: readings))
    else
      match Conversion.floatToIntReadings lib rest with
      | .error p => .error p
      | .ok (.error e) => .ok (.error e)
      | .ok (.ok readings) => .ok (.ok (reading :: readings))

/-- Embedding of `ConvertFloatToIntReading(ctx, data)`; `data = none` is a nil `data`. The
result is a panic or the pair the function returns. -/
def Conversion.ConvertFloatToIntReading (lib : FloatLib) (data : Option PipelineData) :
    Except Panic (Bool × Result ConversionError Event) :=
  match data with
  | none => .ok (false, Result.error ConversionError.noEventReceived)
  | some (PipelineData.event event) =>
    match Conversion.floatToIntReadings lib event.Readings with
    | .error p => .error p
    | .ok (.error e) => .ok (false, Result.error e)
    | .ok (.ok readings) => .ok (true, Result.value { event with Readings := readings })
  | some _ => .ok (false, Result.error ConversionError.notAnEvent)

/-! ## `influxdb.go`: `toNanosecondsTime` -/

/-- The value of `int64(math.Pow10(offset))`: `10 ^ offset` for `0 ≤ offset ≤ 18`, zero for
a negative `offset` (the power is below one), and the implementation-dependent `outOfRange`
above `18`, where the power does not fit an `int64`. -/
def pow10Int64 (outOfRange : Int) (offset : Int) : Int :=
  if offset < 0 then 0
  else if offset ≤ 18 then ((10 ^ offset.toNat : Nat) : Int)
  else outOfRange

/-- Embedding of `toNanosecondsTime(timestamp)`, as the `UnixNano()` of the time it returns
(`time.Unix(0, n).UnixNano()` is `n`); `now` is `time.Now().UnixNano()`. The product is an
`int64` multiplication, which wraps. -/
def toNanosecondsTime (now outOfRange timestamp : Int) : Int :=
  let offset : Int := ((FormatInt now).length : Int) - ((FormatInt timestamp).length : Int)
  if offset = 0 then timestamp
  else wrapInt (timestamp * pow10Int64 outOfRange offset)

/-! ## `mqtt.go`: the message handler of the MQTT trigger -/

/-- The value of `common.ContentTypeJSON`. -/
def ContentTypeJSON : String := "application/json"

/-- The value of `common.ContentTypeCBOR`. -/
def ContentTypeCBOR : String := "application/cbor"

/-- The fields of `types.MessageEnvelope` that the handler sets. -/
structure MessageEnvelope where
  CorrelationID : String
  ContentType : String
  Payload : List UInt8
  ReceivedTopic : String
deriving DecidableEq, Repr

/-- Embedding of `messageHandler(client, mqttMessage)` up to the message envelope it builds:
`payload` and `topic` are `mqttMessage.Payload()` and `mqttMessage.Topic()`, `correlationID`
is the new UUID. The index expression `data[0]` panics on an empty payload. -/
def Trigger.messageHandler (correlationID : String) (payload : List UInt8) (topic : String) :
    Except Panic MessageEnvelope :=
  match payload with
  | [] => .error (Panic.indexOutOfRange 0 0)
  | first :: _ =>
    let contentType :=
      if first.toNat ≠ '\x7b'.toNat ∧ first.toNat ≠ '['.toNat then ContentTypeCBOR
      else ContentTypeJSON
    .ok { CorrelationID := correlationID, ContentType := contentType, Payload := payload,
          ReceivedTopic := topic }

/-! ## `sparkplug.go`: `ConvertDDATAtoEvent` -/

/-- The value of `Sparkplug`. -/
def Sparkplug : String := "SPARKPLUG"

/-- The value of `SparkplugBTopicLevelDDATA`. -/
def SparkplugBTopicLevelDDATA : String := "DDATA"

/-- The value field of a `protobuf.Payload_Metric`: which member of the oneof is set. -/
inductive MetricValue where
  | unset
  | intValue (v : Nat)
  | longValue (v : Nat)
  | floatValue (v : Float64)
  | doubleValue (v : Float64)
  | booleanValue (v : Bool)
  | stringValue (v : String)
  | bytesValue (v : List UInt8)
  | other
deriving DecidableEq, Repr

/-- The fields of `protobuf.Payload_Metric` that are used; `Name` and `Datatype` are
pointers, `none` is nil. -/
structure PayloadMetric where
  Name : Option String
  Datatype : Option Nat
  Value : MetricValue
deriving DecidableEq, Repr

/-- The fields of `protobuf.Payload`; `Timestamp`, `Seq` and `Uuid` are pointers, `none` is
nil. -/
structure SparkplugPayload where
  Timestamp : Option Nat
  Metrics : List PayloadMetric
  Seq : Option Nat
  Uuid : Option String
  Body : List UInt8
deriving DecidableEq, Repr

/-- Embedding of `GetIntValue()`: the `uint32` value, zero when another member is set. -/
def PayloadMetric.GetIntValue (metric : PayloadMetric) : Nat :=
  match metric.Value with
  | MetricValue.intValue v => v
  | _ => 0

/-- Embedding of `GetLongValue()`: the `uint64` value, zero when another member is set. -/
def PayloadMetric.GetLongValue (metric : PayloadMetric) : Nat :=
  match metric.Value with
  | MetricValue.longValue v => v
  | _ => 0

/-- Embedding of `GetFloatValue()`. -/
def PayloadMetric.GetFloatValue (metric : PayloadMetric) : Float64 :=
  match metric.Value with
  | MetricValue.floatValue v => v
  | _ => Float64.finite 0 0

/-- Embedding of `GetDoubleValue()`. -/
def PayloadMetric.GetDoubleValue (metric : PayloadMetric) : Float64 :=
  match metric.Value with
  | MetricValue.doubleValue v => v
  | _ => Float64.finite 0 0

/-- Embedding of `GetBooleanValue()`. -/
def PayloadMetric.GetBooleanValue (metric : PayloadMetric) : Bool :=
  match metric.Value with
  | MetricValue.booleanValue v => v
  | _ => false

/-- Embedding of `GetStringValue()`. -/
def PayloadMetric.GetStringValue (metric : PayloadMetric) : String :=
  match metric.Value with
  | MetricValue.stringValue v => v
  | _ => ""

/-- Embedding of `GetBytesValue()`. -/
def PayloadMetric.GetBytesValue (metric : PayloadMetric) : List UInt8 :=
  match metric.Value with
  | MetricValue.bytesValue v => v
  | _ => []

/-- The `interface{}` value that `toReadingValueTypeAndValue` returns, by its Go type. -/
inductive ReadingValue where
  | int (bitSize : Nat) (v : Int)
  | uint (bitSize : Nat) (v : Nat)
  | float32 (v : Float64)
  | float64 (v : Float64)
  | bool (v : Bool)
  | binary (v : List UInt8)
  | string (v : String)
deriving DecidableEq, Repr

/-- Go's conversion of an integer to a signed type of `bitSize` bits: the low bits, in two's
complement. -/
def toSigned (bitSize : Nat) (z : Int) : Int :=
  (z + ((2 ^ (bitSize - 1) : Nat) : Int)) % ((2 ^ bitSize : Nat) : Int)
    - ((2 ^ (bitSize - 1) : Nat) : Int)

/-- The errors of the Sparkplug converter, by the statement that produces them. -/
inductive SparkplugError where
  | noDataReceived
  | unsupportedDataType (typeName : String)
  | receivedTopicNotFound
  | topicNotDDATA (topic : String)
  | unmarshalPayload (cause : String)
  | unmarshalTags (cause : String)
  | unsupportedMetricDataType (datatype : Nat)
  | addReading (cause : String)
deriving DecidableEq, Repr

/-- The signed cases of `toReadingValueTypeAndValue`: a value above the maximum of the type
is taken as a negative number sent as a `uint32`. -/
def signedMetricValue (bitSize : Nat) (metric : PayloadMetric) : ReadingValue :=
  if metric.GetIntValue > 2 ^ (bitSize - 1) - 1 then
    ReadingValue.int bitSize (toSigned bitSize ((metric.GetIntValue : Int) - 4294967295 - 1))
  else
    ReadingValue.int bitSize (toSigned bitSize (metric.GetIntValue : Int))

/-- Embedding of `toReadingValueTypeAndValue(metric)`: the dereference `*metric.Datatype`
panics on a nil pointer. The numbers are those of `protobuf.DataType` (Int8 = 1, …,
UInt64 = 8, Float = 9, Double = 10, Boolean = 11, String = 12, Text = 14, Bytes = 17). -/
def toReadingValueTypeAndValue (metric : PayloadMetric) :
    Except Panic (Except SparkplugError (String × ReadingValue)) :=
  match metric.Datatype with
  | none => .error (Panic.nilDereference "metric.Datatype")
  | some metricDataType =>
    if metricDataType = 1 then .ok (.ok (ValueTypeInt8, signedMetricValue 8 metric))
    else if metricDataType = 2 then .ok (.ok (ValueTypeInt16, signedMetricValue 16 metric))
    else if metricDataType = 3 then .ok (.ok (ValueTypeInt32, signedMetricValue 32 metric))
    else if metricDataType = 4 then
      .ok (.ok (ValueTypeInt64, ReadingValue.int 64 (metric.GetIntValue : Int)))
    else if metricDataType = 5 then
      .ok (.ok (ValueTypeUint8, ReadingValue.uint 8 (metric.GetIntValue % 2 ^ 8)))
    else if metricDataType = 6 then
      .ok (.ok (ValueTypeUint16, ReadingValue.uint 16 (metric.GetIntValue % 2 ^ 16)))
    else if metricDataType = 7 then
      .ok (.ok (ValueTypeUint32, ReadingValue.uint 32 (metric.GetLongValue % 2 ^ 32)))
    else if metricDataType = 8 then
      .ok (.ok (ValueTypeUint64, ReadingValue.uint 64 metric.GetLongValue))
    else if metricDataType = 9 then
      .ok (.ok (ValueTypeFloat32, ReadingValue.float32 metric.GetFloatValue))
    else if metricDataType = 10 then
      .ok (.ok (ValueTypeFloat64, ReadingValue.float64 metric.GetDoubleValue))
    else if metricDataType = 11 then
      .ok (.ok (ValueTypeBool, ReadingValue.bool metric.GetBooleanValue))
    else if metricDataType = 17 then
      .ok (.ok (ValueTypeBinary, ReadingValue.binary metric.GetBytesValue))
    else if metricDataType = 12 ∨ metricDataType = 14 then
      .ok (.ok (ValueTypeString, ReadingValue.string metric.GetStringValue))
    else .ok (.error (SparkplugError.unsupportedMetricDataType metricDataType))

/-- The collaborators of the converter: the protobuf and JSON decoders, the reading
constructor of `dtos.Event`, and the UUID generator. -/
structure SparkplugEnv where
  /-- Result of `proto.Unmarshal(bytes, &payload)`. -/
  protoUnmarshal : List UInt8 → Except String SparkplugPayload
  /-- Result of `json.Unmarshal(payload.Body, &event.Tags)`. -/
  jsonUnmarshalTags : List UInt8 → Except String (List (String × String))
  /-- Result of `event.AddSimpleReading(name, valueType, value)`: the event with the reading
  added, or an error. -/
  AddSimpleReading : Event → String → String → ReadingValue → Except String Event
  /-- Value of `uuid.NewString()`. -/
  newUuid : String

/-- The levels of a topic: the parts between its slashes. -/
def topicLevels : List Char → List (List Char)
  | [] => [[]]
  | c :: rest =>
    if c = '/' then [] :: topicLevels rest
    else
      match topicLevels rest with
      | [] => [[c]]
      | level :: levels => (c :: level) :: levels

/-- Model of the topic check of `ConvertDDATAtoEvent`, a match of the whole topic against
`^([^/\n]*)/([^/\n]*)/DDATA/([^/\n]*)/([^/\n]*)$`: five levels, the third of which is
`DDATA`, and no newline. -/
def matchesDDATATopic (topic : String) : Bool :=
  match topicLevels topic.toList with
  | [_, _, kind, _, _] => decide (kind = SparkplugBTopicLevelDDATA.toList) && !topic.toList.contains '\n'
  | _ => false

/-- Model of `FindString` for `([^//]+$)`: the text after the last slash, empty when the
topic ends with a slash. -/
def lastTopicLevel (topic : String) : String :=
  String.mk ((topicLevels topic.toList).getLast?.getD [])

/-- The loop of `toEvent` over the metrics: `*metric.Name` panics on a nil pointer. -/
def addMetricReadings (env : SparkplugEnv) :
    Event → List PayloadMetric → Except Panic (Except SparkplugError Event)
  | event, [] => .ok (.ok event)
  | event, metric :: rest =>
    match toReadingValueTypeAndValue metric with
    | .error p => .error p
    | .ok (.error e) => .ok (.error e)
    | .ok (.ok converted) =>
      match metric.Name with
      | none => .error (Panic.nilDereference "metric.Name")
      | some name =>
        match env.AddSimpleReading event name converted.1 converted.2 with
        | .error cause => .ok (.error (SparkplugError.addReading cause))
        | .ok event => addMetricReadings env event rest

/-- Embedding of `toEvent(deviceName, payload)`: the dereference `*payload.Timestamp` panics
on a nil pointer; `int64(...)` of the `uint64` timestamp is the two's complement
reinterpretation. -/
def toEvent (env : SparkplugEnv) (deviceName : String) (payload : SparkplugPayload) :
    Except Panic (Except SparkplugError Event) :=
  match payload.Timestamp with
  | none => .error (Panic.nilDereference "payload.Timestamp")
  | some timestamp =>
    let event : Event :=
      { Event.zero with
        DeviceName := deviceName
        ProfileName := Sparkplug
        SourceName := Sparkplug
        Origin := uintToInt timestamp }
    let tagged : Except SparkplugError Event :=
      if payload.Body.length > 0 then
        match env.jsonUnmarshalTags payload.Body with
        | .error cause => .error (SparkplugError.unmarshalTags cause)
        | .ok tags => .ok { event with Tags := some tags }
      else .ok event
    match tagged with
    | .error e => .ok (.error e)
    | .ok event =>
      match addMetricReadings env event payload.Metrics with
      | .error p => .error p
      | .ok (.error e) => .ok (.error e)
      | .ok (.ok event) =>
        match payload.Uuid with
        | some uuid => .ok (.ok { event with Id := uuid })
        | none => .ok (.ok { event with Id := env.newUuid })

/-- Embedding of `ConvertDDATAtoEvent(ctx, inputData)`; `inputData = none` is a nil
`inputData`, and `receivedTopic` is the result of `ctx.GetValue(interfaces.RECEIVEDTOPIC)`.
The result is a panic or the pair the function returns. -/
def SparkplugConverter.ConvertDDATAtoEvent (env : SparkplugEnv) (receivedTopic : Option String)
    (inputData : Option PipelineData) : Except Panic (Bool × Result SparkplugError Event) :=
  match inputData with
  | none => .ok (false, Result.error SparkplugError.noDataReceived)
  | some (PipelineData.bytes bytes) =>
    match receivedTopic with
    | none => .ok (false, Result.error SparkplugError.receivedTopicNotFound)
    | some receivedTopic =>
      if !matchesDDATATopic receivedTopic then
        .ok (false, Result.error (SparkplugError.topicNotDDATA receivedTopic))
      else
        let deviceName := lastTopicLevel receivedTopic
        match env.protoUnmarshal bytes with
        | .error cause => .ok (false, Result.error (SparkplugError.unmarshalPayload cause))
        | .ok payload =>
          match toEvent env deviceName payload with
          | .error p => .error p
          | .ok (.error e) => .ok (false, Result.error e)
          | .ok (.ok event) => .ok (true, Result.value event)
  | some (PipelineData.event _) =>
    .ok (false, Result.error (SparkplugError.unsupportedDataType "dtos.Event"))
  | some (PipelineData.other typeName) =>
    .ok (false, Result.error (SparkplugError.unsupportedDataType typeName))

/-! ## `postgres_configurable.go`: `Configurable.PostgresWrite` -/

/-- The value of `PostgresHost`. -/
def PostgresHost : String := "host"

/-- The value of `PostgresPort`. -/
def PostgresPort : String := "port"

/-- The value of `PostgresDatabaseName`. -/
def PostgresDatabaseName : String := "databasename"

/-- The value of `PostgresTableName`. -/
def PostgresTableName : String := "tablename"

/-- The value of `PostgresStoreEventId`. -/
def PostgresStoreEventId : String := "storeeventid"

/-- The value of `PostgresChunkTimeInterval`. -/
def PostgresChunkTimeInterval : String := "chunktimeinterval"

/-- The value of `PostgresMaxConn`. -/
def PostgresMaxConn : String := "maxconn"

/-- The value of `DefaultPostgresHost`. -/
def DefaultPostgresHost : String := "timescaledb"

/-- The value of `DefaultPostgresPort`. -/
def DefaultPostgresPort : String := "5432"

/-- The value of `DefaultPostgresDatabaseName`. -/
def DefaultPostgresDatabaseName : String := "edgex"

/-- The value of `DefaultPostgresTableName`. -/
def DefaultPostgresTableName : String := "edgex_readings"

/-- The value of `DefaultPostgresChunkTimeInterval`. -/
def DefaultPostgresChunkTimeInterval : String := "7 days"

/-- The statements of `Configurable.PostgresWrite` that read `host` and `port`, in program
order: a missing `port` assigns the default port to `host`. The result is the pair
`(host, port)`. -/
def Configurable.PostgresWrite.hostAndPort (parameters : Params) : String × String :=
  let host : String :=
    match parameters.get PostgresHost with
    | some host => host
    | none => DefaultPostgresHost
  match parameters.get PostgresPort with
  | some port => (host, port)
  | none => (DefaultPostgresPort, "")

/-- Embedding of `Configurable.PostgresWrite(parameters)`: the writer whose `PostgresWrite`
method is returned, `none` for a nil result. `numCPU` is `runtime.NumCPU()`. -/
def Configurable.PostgresWrite (lib : StdLib) (k : ParamNames) (numCPU : Nat)
    (parameters : Params) : Option postgresWriter :=
  let hostPort := Configurable.PostgresWrite.hostAndPort parameters
  let databaseName := (parameters.get PostgresDatabaseName).getD DefaultPostgresDatabaseName
  match parameters.get k.AuthMode with
  | none => none
  | some authMode =>
    let authMode := lib.ToLower authMode
    if authMode ≠ AuthModeUsernamePassword then none
    else
      match parameters.get k.SecretPath with
      | none => none
      | some secretPath =>
        let tableName := (parameters.get PostgresTableName).getD DefaultPostgresTableName
        let chunkTimeInterval :=
          (parameters.get PostgresChunkTimeInterval).getD DefaultPostgresChunkTimeInterval
        let maxConn := (parameters.get PostgresMaxConn).getD (FormatInt (numCPU : Int))
        let storeEventId : Option Bool :=
          match parameters.get PostgresStoreEventId with
          | some storeEventIdVal => ParseBool storeEventIdVal
          | none => some false
        match storeEventId with
        | none => none
        | some storeEventId =>
          let persistOnError : Option Bool :=
            match parameters.get k.PersistOnError with
            | some value => ParseBool value
            | none => some false
          match persistOnError with
          | none => none
          | some persistOnError =>
            some (NewPostgresWriter
              { Host := hostPort.1, Port := hostPort.2, DatabaseName := databaseName,
                TableName := tableName, StoreEventId := storeEventId, AuthMode := authMode,
                SecretPath := secretPath, ChunkTimeInterval := chunkTimeInterval,
                MaxConn := maxConn } persistOnError)

/-! ## A model of `strconv.ParseFloat` and of the verb `%e` on decimal spellings

The sample library below answers for the decimal spellings `[+-]digits[.digits][e[+-]digits]`
and for the names `NaN`, `Inf` and `Infinity`, with the rounding of IEEE 754 (to nearest,
ties to even). Hexadecimal spellings and underscores between digits, which Go also accepts,
are answered with a syntax error here. -/

/-- The quotient `a / b` rounded to the nearest integer, ties to even. -/
def divRoundHalfEven (a b : Nat) : Nat :=
  if 2 * (a % b) < b then a / b
  else if 2 * (a % b) > b then a / b + 1
  else if (a / b) % 2 = 0 then a / b
  else a / b + 1

/-- Number of binary digits of a positive number. -/
def bitLength (n : Nat) : Nat := (Nat.toDigits 2 n).length

/-- The integer `e` with `2 ^ e ≤ a / b < 2 ^ (e + 1)`, for positive `a` and `b`. -/
def floorLog2Ratio (a b : Nat) : Int :=
  let e0 : Int := (bitLength a : Int) - (bitLength b : Int)
  if 0 ≤ e0 then (if b * 2 ^ e0.toNat ≤ a then e0 else e0 - 1)
  else (if b ≤ a * 2 ^ (-e0).toNat then e0 else e0 - 1)

/-- The binary floating-point number nearest to `a / b` (positive `a` and `b`) with
`precision` bits and a smallest unit of `2 ^ minExponent`: its mantissa and exponent. -/
def roundRatio (precision : Nat) (minExponent : Int) (a b : Nat) : Nat × Int :=
  let u : Int := max (floorLog2Ratio a b - (precision : Int) + 1) minExponent
  if 0 ≤ u then (divRoundHalfEven a (b * 2 ^ u.toNat), u)
  else (divRoundHalfEven (a * 2 ^ (-u).toNat) b, u)

/-- A decimal spelling: sign, digits and power of ten. -/
structure Decimal where
  negative : Bool
  mantissa : Nat
  exponent : Int
deriving DecidableEq, Repr

/-- The exponent part of a decimal spelling: empty, or `e` with an optional sign and at
least one digit. -/
def parseExponent (cs : List Char) : Option Int :=
  match cs with
  | [] => some 0
  | c :: rest =>
    if c = 'e' ∨ c = 'E' then
      let signed : Bool × List Char :=
        match rest with
        | '-' :: ds => (true, ds)
        | '+' :: ds => (false, ds)
        | _ => (false, rest)
      if signed.2.isEmpty then none
      else if signed.2.all Char.isDigit then
        some (if signed.1 then -(digitsToNat signed.2 : Int) else (digitsToNat signed.2 : Int))
      else none
    else none

/-- Reads a decimal spelling; `none` is a syntax error. -/
def parseDecimal (cs : List Char) : Option Decimal :=
  let signed : Bool × List Char :=
    match cs with
    | '-' :: rest => (true, rest)
    | '+' :: rest => (false, rest)
    | _ => (false, cs)
  let intPart := signed.2.takeWhile Char.isDigit
  let afterInt := signed.2.dropWhile Char.isDigit
  let fracPart : List Char :=
    match afterInt with
    | '.' :: rest => rest.takeWhile Char.isDigit
    | _ => []
  let afterFrac : List Char :=
    match afterInt with
    | '.' :: rest => rest.dropWhile Char.isDigit
    | _ => afterInt
  if intPart.isEmpty && fracPart.isEmpty then none
  else
    match parseExponent afterFrac with
    | none => none
    | some e =>
      some { negative := signed.1, mantissa := digitsToNat (intPart ++ fracPart),
             exponent := e - (fracPart.length : Int) }

/-- The floating-point number nearest to a decimal; a value that rounds to `2 ^ maxExponent`
or more is a range error. -/
def Decimal.toFloat (precision : Nat) (minExponent maxExponent : Int) (d : Decimal) :
    Except String Float64 :=
  let r : Nat × Int :=
    if d.mantissa = 0 then (0, 0)
    else if 0 ≤ d.exponent then
      roundRatio precision minExponent (d.mantissa * 10 ^ d.exponent.toNat) 1
    else roundRatio precision minExponent d.mantissa (10 ^ (-d.exponent).toNat)
  if r.1 = 0 then .ok (if d.negative then Float64.negZero else Float64.finite 0 0)
  else if (bitLength r.1 : Int) + r.2 ≤ maxExponent then
    .ok (Float64.finite (if d.negative then -(r.1 : Int) else (r.1 : Int)) r.2)
  else .error "value out of range"

/-- Model of `strconv.ParseFloat(s, bitSize)` on decimal spellings and on the names of NaN
and the infinities. -/
def decimalParseFloat (s : String) (bitSize : Nat) : Except String Float64 :=
  let cs := s.toList
  let unsigned : Bool × List Char :=
    match cs with
    | '-' :: rest => (true, rest)
    | '+' :: rest => (false, rest)
    | _ => (false, cs)
  if cs.map Char.toLower = "nan".toList then .ok Float64.nan
  else if unsigned.2.map Char.toLower = "inf".toList ∨
      unsigned.2.map Char.toLower = "infinity".toList then
    .ok (Float64.inf unsigned.1)
  else
    match parseDecimal cs with
    | none => .error "invalid syntax"
    | some d =>
      if bitSize = 32 then d.toFloat 24 (-149) 128 else d.toFloat 53 (-1074) 1024

/-- The integer `x` with `10 ^ x ≤ a / b < 10 ^ (x + 1)`, for positive `a` and `b`. -/
def floorLog10Ratio (a b : Nat) : Int :=
  if b ≤ a then ((Nat.toDigits 10 (a / b)).length : Int) - 1
  else
    Int.negSucc
      (((List.range ((Nat.toDigits 10 b).length + 1)).find?
        (fun k => decide (b ≤ a * 10 ^ (k + 1)))).getD 0)

/-- The decimal digits of `n`, padded with zeros on the left to `width` digits. -/
def padDigits (n width : Nat) : List Char :=
  List.replicate (width - (Nat.toDigits 10 n).length) '0' ++ Nat.toDigits 10 n

/-- The text of the verb `%e` for the positive number `a / b`: one digit, a point, six
digits rounded to nearest (ties to even), and an exponent of at least two digits. -/
def formatERatio (negative : Bool) (a b : Nat) : String :=
  let x := floorLog10Ratio a b
  let d : Nat :=
    if 0 ≤ x - 6 then divRoundHalfEven a (b * 10 ^ (x - 6).toNat)
    else divRoundHalfEven (a * 10 ^ (6 - x).toNat) b
  let adjusted : Nat × Int := if d = 10 ^ 7 then (10 ^ 6, x + 1) else (d, x)
  String.mk ((if negative then ['-'] else []) ++ (padDigits adjusted.1 7).take 1 ++ ['.'] ++
    (padDigits adjusted.1 7).drop 1 ++ ['e'] ++ [if adjusted.2 < 0 then '-' else '+'] ++
    padDigits adjusted.2.natAbs 2)

/-- Model of `fmt.Sprintf("%e", f)`. -/
def decimalFormatE : Float64 → String
  | Float64.nan => "NaN"
  | Float64.inf true => "-Inf"
  | Float64.inf false => "+Inf"
  | Float64.negZero => "-0.000000e+00"
  | Float64.finite m e =>
    if m = 0 then "0.000000e+00"
    else if 0 ≤ e then formatERatio (decide (m < 0)) (m.natAbs * 2 ^ e.toNat) 1
    else formatERatio (decide (m < 0)) m.natAbs (2 ^ (-e).toNat)

/-! ## Sample inputs -/

/-- The conversion `[]byte(s)` of a Go string: its UTF-8 bytes. -/
def stringBytes (s : String) : Bytes := some s.toUTF8.data.toList

/-- A sample environment whose data are strings coerced with `[]byte(s)`, whose factory
creates client `7` at time `9`, and whose broker is unreachable: the connect token times
out. -/
def unreachableBrokerEnv : MqttEnv String :=
  { coerceType := fun s => .ok (stringBytes s),
    create := .ok 7,
    now := 9,
    connectWait := false,
    connectError := none,
    applyValues := fun topic => .ok topic,
    publishWait := true,
    publishError := none }

/-- A sample environment for `HTTPSend` whose data are strings coerced with `[]byte(s)`,
without secrets or templates, and whose server answers every request with status 404. -/
def notFoundEnv : HttpEnv String :=
  { coerceType := fun s => .ok (stringBytes s),
    getSecret := fun _ => .ok [],
    now := 9,
    systemCertPool := none,
    appendCertsFromPEM := fun _ => true,
    x509KeyPair := fun _ _ => none,
    newClient := 1,
    oauth2Client := 2,
    applyValues := fun url => .ok url,
    urlParse := fun url => .ok url,
    newRequest := fun _ _ => none,
    sha256Hex := fun _ => "",
    equalFold := fun a b => a == b,
    signHTTP := fun _ _ _ _ => .ok [],
    doRequest := fun _ =>
      .ok { StatusCode := 404, Status := "404 Not Found", Body := .ok (stringBytes "") } }

/-- A sample state for `HTTPSend`: a new sender for `POST http://localhost/base/bad` without
authentication, with the given `PersistOnError` and `ContinueOnSendError`, and a context
whose retry data is nil. -/
def httpSampleState (persistOnError continueOnSendError : Bool) : HttpState :=
  { sender := NewHTTPSender { HTTPSenderConfig.zero with
      URL := "http://localhost/base/bad", MimeType := "application/json",
      HTTPMethod := "POST", AuthMode := HTTPAuthModeNONE,
      PersistOnError := persistOnError, ContinueOnSendError := continueOnSendError,
      ReturnInputData := continueOnSendError },
    ctx :=
      { secretsLastUpdated := 0,
        retryData := none,
        sharedMQTTClient := { client := none, secretsLastRetrieved := 0, clientOptions := none },
        mqttConnectionWaitingCounter := NewCounter DefaultCounterMaximum 0 } }

/-- A sample state: a sender that does not use the shared client and holds client `3`
built with the secrets of time `1`, a context whose secrets were last updated at time `2`
and whose retry data is nil, and no connected client. -/
def staleSenderState (persistOnError : Bool) : MqttState :=
  { sender :=
      { config := { BaseMqttConfig.zero with
          BrokerAddress := "aaa://unreachable:1111", Topic := "topic" },
        client := some 3,
        persistOnError := persistOnError,
        secretsLastRetrieved := 1,
        usingSharedClient := false,
        mqttSizeMetrics := none },
    ctx :=
      { secretsLastUpdated := 2,
        retryData := none,
        sharedMQTTClient := { client := none, secretsLastRetrieved := 0, clientOptions := none },
        mqttConnectionWaitingCounter := NewCounter DefaultCounterMaximum 0 },
    world := { connected := [], calls := [] } }

/-- The sample state `staleSenderState true` with the given waiting counter in its context. -/
def waitingCounterState (counter : AtomicCounter) : MqttState :=
  { staleSenderState true with
    ctx := { (staleSenderState true).ctx with mqttConnectionWaitingCounter := counter } }

/-- A parameter map with every parameter the three loaders require (`authmode` is
`clientcert`, as `LoadAzureMQTTConfig` demands) and the given `qos`. -/
def mqttTestParameters (qos : String) : Params :=
  [("brokeraddress", "tcp://broker:1883"),
   ("topic", "mytopic"),
   ("clientid", "myclient"),
   ("secretpath", "mypath"),
   ("authmode", "clientcert"),
   ("qos", qos)]

/-- Sample values for the items of a batch: a Go string or a `[]byte`. -/
inductive Item where
  | text (s : String)
  | raw (b : List UInt8)
deriving DecidableEq, Repr

/-- Reads a JSON string without escapes: the characters between the two quotes. -/
def readPlainJsonString (cs : List Char) : Option String :=
  match cs with
  | '"' :: rest =>
    match rest.reverse with
    | '"' :: inner =>
      if inner.all (fun c => c != '"' && c != '\\') then some (String.mk inner.reverse) else none
    | _ => none
  | _ => none

/-- A JSON reader restricted to arrays of strings without escapes, commas or white space,
which is the shape `json.Marshal` gives a `[][]byte`; every other input is refused. -/
def readPlainJsonStringArray (d : Bytes) : Option (List String) :=
  match d with
  | none => none
  | some b =>
    if b.all (fun x => x < 128) then
      match b.map (fun x => Char.ofNat x.toNat) with
      | '[' :: rest =>
        match rest.reverse with
        | ']' :: inner => (inner.reverse.splitOn ',').mapM readPlainJsonString
        | _ => none
      | _ => none
    else none

/-- A sample codec for `Item`: batches are read with `readPlainJsonStringArray`, whose
elements `json.Unmarshal` delivers as strings; no input is read as an object; a string is
coerced with `[]byte(s)` and a `[]byte` is itself; a single value is marshalled as a JSON
string (texts are assumed free of characters that need escaping). -/
def itemCodec : AwsCodec Item :=
  { unmarshalArray := fun d => (readPlainJsonStringArray d).map (List.map Item.text),
    unmarshalObject := fun _ => none,
    coerceType := fun item =>
      match item with
      | Item.text s => .ok (stringBytes s)
      | Item.raw b => .ok (some b),
    marshal := fun item =>
      match item with
      | Item.text s => .ok (stringBytes (String.mk ('"' :: (s.data ++ ['"']))))
      | Item.raw b => .ok (some (String.mk (jsonMarshalBytes (some b))).toUTF8.data.toList),
    marshalByteSlices := fun slices => .ok (jsonMarshalByteSlices slices) }

/-- A sample environment for items: the factory answers `create` at time `9`, the connect
token succeeds exactly when `reachable`, and publishing succeeds. -/
def brokerEnv (reachable : Bool) (create : Except String ClientId) : MqttEnv Item :=
  { coerceType := itemCodec.coerceType,
    create := create,
    now := 9,
    connectWait := reachable,
    connectError := none,
    applyValues := fun topic => .ok topic,
    publishWait := true,
    publishError := none }

/-- A sample state: a sender with `persistOnError=true` that does not use the shared client
and has no client yet, a context whose retry data is nil, and no connected client. -/
def newSenderState : MqttState :=
  { staleSenderState true with
    sender := { (staleSenderState true).sender with client := none, secretsLastRetrieved := 0 } }

/-- A sample context: the secrets were last updated at time `2`, the retry data is nil. -/
def rotatedContext : AppContext := (staleSenderState true).ctx

/-- A sample state for `HTTPSend`: a sender in `header_secret` mode that holds client `1`
built with the secrets of time `1`, which contained the secret `token`; the secrets were
last updated at time `2`. -/
def connectedHttpState : HttpState :=
  { sender :=
      { config := { HTTPSenderConfig.zero with
          URL := "http://localhost/base/bad", MimeType := "application/json",
          HTTPMethod := "POST", AuthMode := HTTPAuthModeHeaderSecret,
          HTTPHeaderName := "X-Token", SecretPath := "http", SecretName := "token",
          PersistOnError := true },
        secretsLastRetrieved := 1,
        cacheSecrets := some [("token", "old")],
        client := some 1 },
    ctx := rotatedContext }

/-- The JSON encoding of the sample event `e1`, an object. -/
def eventJson : String := "\x7b\"id\":\"e1\"\x7d"

/-- The JSON encoding of the list that holds the sample event `e1`, an array. -/
def eventsJson : String := "[\x7b\"id\":\"e1\"\x7d]"

/-- The answers of `json.Unmarshal` into a `[]dtos.Event` on the sample encodings; an event
is named by its id. An object does not decode into a slice. -/
def sampleUnmarshalEvents (d : Bytes) : Except String (List String) :=
  if d = stringBytes eventsJson then .ok ["e1"]
  else .error "json: cannot unmarshal object into Go value of type []dtos.Event"

/-- The answers of `json.Unmarshal` into a `dtos.Event` on the sample encodings. An array
does not decode into a struct. -/
def sampleUnmarshalEvent (d : Bytes) : Except String String :=
  if d = stringBytes eventJson then .ok "e1"
  else .error "json: cannot unmarshal array into Go value of type dtos.Event"

/-- The answers of `json.Marshal` on the sample events. -/
def sampleMarshalEvents (events : List String) : Except String Bytes :=
  if events = ["e1"] then .ok (stringBytes eventsJson)
  else .error "not a sample event list"

/-- Sample collaborators of the InfluxDB writer: the secret provider holds a token, every
event yields one point, and every write succeeds. -/
def influxEnv : InfluxEnv String String :=
  { getSecret := fun _ => .ok [(InfluxDBSecretAuthToken, "secret-token")],
    now := 9,
    newClient := fun _ _ => 1,
    toPoints := fun _ events => .ok events,
    writePoint := fun _ _ => none,
    unmarshalEvents := sampleUnmarshalEvents,
    unmarshalEvent := sampleUnmarshalEvent,
    marshalEvents := sampleMarshalEvents }

/-- Sample collaborators of the Postgres writer: the secret provider answers with
`secrets`, the pool is created and set up without error, and every batch succeeds. -/
def postgresEnv (secrets : List (String × String)) : PostgresEnv String :=
  { getSecret := fun _ => .ok secrets,
    now := 9,
    newPool := fun _ => .ok 2,
    exec := fun _ _ => none,
    acquire := fun _ => none,
    execBatch := fun _ _ => none,
    unmarshalEvents := sampleUnmarshalEvents,
    marshalEvents := sampleMarshalEvents }

/-- A sample state: a new InfluxDB writer in `token` mode with `persistOnError=true`. -/
def newInfluxState : InfluxState String :=
  { writer := NewInfluxDBWriter
      { ServerURL := "http://localhost:8086", AuthMode := InfluxDBAuthModeToken,
        SecretPath := "influxdb", Org := "org", Bucket := "bucket", Measurement := "readings",
        ValueType := "float", Precision := 1, SkipCertVerify := false,
        StoreEventTags := false, StoreReadingTags := false, FieldKeyPattern := "value" } true,
    ctx := rotatedContext,
    written := [] }

/-- A sample configuration of the Postgres writer in `usernamepassword` mode. -/
def postgresConfig : PostgresWriterConfig :=
  { Host := "localhost", Port := "5432", DatabaseName := "edgex", TableName := "readings",
    StoreEventId := false, SecretPath := "postgres",
    AuthMode := PostgresAuthModeUsernamePassword, ChunkTimeInterval := "1 day",
    MaxConn := "4" }

/-- A sample state: a new Postgres writer with `persistOnError=true`. -/
def newPostgresState : PostgresState String :=
  { writer := NewPostgresWriter postgresConfig true, ctx := rotatedContext, batches := [] }

/-- A sample state: a Postgres writer that holds pool `1` built with the secrets of time
`1`; the secrets were last updated at time `2`. -/
def connectedPostgresState : PostgresState String :=
  { writer := { NewPostgresWriter postgresConfig true with
      conn := some 1, secretsLastRetrieved := 1 },
    ctx := rotatedContext,
    batches := [] }

/-- Sample atomic sections of a `Send` call that waits for the mutex in `connect`. -/
def sectionsBeforeConnect : List (SendStep Item) := [SendStep.counterAdd]

/-- Sample atomic sections of two further `Send` calls whose factory and broker answers
differ from those of the first: an `initializeMQTTClient`, a `connect` against an
unreachable broker, and a publish. -/
def sectionsAfterConnect : List (SendStep Item) :=
  [SendStep.initializeMQTTClient (brokerEnv true (.ok 9)), SendStep.counterAdd,
   SendStep.connectLocked (brokerEnv false (.ok 9)),
   SendStep.publishMessage (brokerEnv true (.ok 9)) (stringBytes "a") 7]

/-- A sample floating-point library: the decimal model of `strconv.ParseFloat` and `%e`, and
the out-of-range result of the amd64 conversion instruction, `-2 ^ 63`. -/
def sampleFloatLib : FloatLib :=
  { ParseFloat := decimalParseFloat,
    FormatE := decimalFormatE,
    int64OutOfRange := -(intBound : Int) }

/-- A sample reading of the given resource, value type and value. -/
def sampleReading (resourceName valueType value : String) : BaseReading :=
  { Id := "", Origin := 0, DeviceName := "", ResourceName := resourceName, ProfileName := "",
    ValueType := valueType, Value := value }

/-- A sample event of device `device1` with the given readings, the other fields as in the
tests. -/
def sampleEvent (readings : List BaseReading) : Event :=
  { Event.zero with DeviceName := "device1", Readings := readings }

/-- The device resources of `initProfileClient` for the signed integer types: each is named
after its value type and has minimum `-10` and maximum `50`. -/
def testResources : List DeviceResource :=
  [ValueTypeInt8, ValueTypeInt16, ValueTypeInt32, ValueTypeInt64].map
    (fun valueType =>
      { Name := valueType, Description := "",
        Properties := { ValueType := valueType, Maximum := some "50", Minimum := some "-10" } })

/-- Sample answers of core metadata: one profile with an empty name that holds
`testResources`, as in `initProfileClient`; any other resource does not exist. -/
def testMetadata : CacheEnv :=
  { XpertGetDeviceResource := fun _ _ => .error MetadataError.entityDoesNotExist,
    AllDeviceProfiles := .ok [{ Name := "", DeviceResources := testResources }] }

/-- A sample event with every field set: one `Int8` reading within its bounds. -/
def fullEvent : Event :=
  { Id := "7a1707f0-166f-4c4b-bc9d-1d54c74e0137", DeviceName := "device1",
    ProfileName := "profile1", SourceName := "source1", Origin := 1581420776817000000,
    Readings := [sampleReading ValueTypeInt8 ValueTypeInt8 "47"],
    Tags := some [("site", "plant-1")] }

/-- Sample answers of core metadata: the profile `ab` holds the resource `c`, and the
resource `z` of the profile `xy` can be retrieved while no other resource exists. -/
def collidingMetadata : CacheEnv :=
  { XpertGetDeviceResource := fun profileName resourceName =>
      if profileName = "xy" ∧ resourceName = "z" then
        .ok { Name := "z", Description := "resource z of profile xy",
              Properties := { ValueType := ValueTypeInt8, Maximum := none, Minimum := none } }
      else .error MetadataError.entityDoesNotExist,
    AllDeviceProfiles := .ok
      [{ Name := "ab",
         DeviceResources :=
           [{ Name := "c", Description := "resource c of profile ab",
              Properties :=
                { ValueType := ValueTypeInt8, Maximum := some "50", Minimum := none } }] }] }

/-- Sample collaborators of the Sparkplug converter: the empty input decodes to a payload
with no field set, as protobuf decoding does; other inputs are not in the sample. -/
def sparkplugEnv : SparkplugEnv :=
  { protoUnmarshal := fun bytes =>
      if bytes = [] then
        .ok { Timestamp := none, Metrics := [], Seq := none, Uuid := none, Body := [] }
      else .error "not a sample payload",
    jsonUnmarshalTags := fun _ => .ok [],
    AddSimpleReading := fun event name valueType _ =>
      .ok { event with Readings := event.Readings ++ [sampleReading name valueType ""] },
    newUuid := "7a1707f0-166f-4c4b-bc9d-1d54c74e0137" }

/-- Sample collaborators of the Sparkplug converter whose decoder answers every input with
the given payload. -/
def sparkplugEnvWith (payload : SparkplugPayload) : SparkplugEnv :=
  { sparkplugEnv with protoUnmarshal := fun _ => .ok payload }

/-- The parameters of `TestConfigurablePostgresWrite` once the mandatory ones are set, with
the given further parameters. -/
def postgresTestParameters (more : Params) : Params :=
  [("authmode", "usernamepassword"), ("secretpath", "postgres")] ++ more

end Xpert

/-! # Theorems -/

namespace Xpert

/-! ## `AtomicCounter` -/

theorem uintSize_eq : uintSize = 18446744073709551616 := by norm_num [uintSize]

theorem intBound_eq : intBound = 9223372036854775808 := by norm_num [intBound]

theorem AtomicCounter.Set_maximum (i : AtomicCounter) (v : Nat) :
    (i.Set v).1.maximum = i.maximum := by
  unfold AtomicCounter.Set
  split_ifs <;> rfl

theorem AtomicCounter.Add_maximum (i : AtomicCounter) (delta : Nat) :
    (i.Add delta).1.maximum = i.maximum := by
  unfold AtomicCounter.Add
  simp only
  split_ifs <;> rfl

theorem AtomicCounter.Subtract_maximum (i : AtomicCounter) (delta : Nat) :
    (i.Subtract delta).maximum = i.maximum := rfl

theorem AtomicCounter.Set_count_le (i : AtomicCounter) (v : Nat)
    (h : i.count ≤ i.maximum) : (i.Set v).1.count ≤ i.maximum := by
  unfold AtomicCounter.Set
  split_ifs with hv
  · exact h
  · exact Nat.le_of_not_gt hv

theorem AtomicCounter.Add_count_le (i : AtomicCounter) (delta : Nat)
    (h : i.count ≤ i.maximum) : (i.Add delta).1.count ≤ i.maximum := by
  unfold AtomicCounter.Add
  simp only
  split_ifs with hv
  · exact h
  · exact Nat.le_of_not_gt hv

/-- When the `int` conversion of `delta` does not turn negative past the counter
(`delta ≤ 2 ^ 63`), `Subtract` never increases the count. -/
theorem AtomicCounter.Subtract_count_le (i : AtomicCounter) (delta : Nat)
    (hc : IsUint i.count) (hd : delta ≤ intBound) : (i.Subtract delta).count ≤ i.count := by
  unfold IsUint at hc
  simp only [AtomicCounter.Subtract, uintToInt, wrapInt, intToUint, uintSize_eq,
    intBound_eq] at *
  push_cast
  split_ifs <;> omega

/-- Without wrap-around in either conversion, `Subtract` is truncated subtraction. -/
theorem AtomicCounter.Subtract_count_of_lt_intBound (i : AtomicCounter) (delta : Nat)
    (hc : i.count < intBound) (hd : delta < intBound) :
    (i.Subtract delta).count = i.count - delta := by
  simp only [AtomicCounter.Subtract, uintToInt, wrapInt, intToUint, uintSize_eq,
    intBound_eq] at *
  push_cast
  split_ifs <;> omega

/-- Without wrap-around of the `uint` addition, `Add` fails exactly when the sum exceeds
the maximum and otherwise stores the sum. -/
theorem AtomicCounter.Add_of_no_wrap (i : AtomicCounter) (delta : Nat)
    (h : IsUint (i.count + delta)) :
    i.Add delta =
      if i.count + delta > i.maximum then (i, some (CounterError.addExceedsMaximum i.maximum))
      else ({ i with count := i.count + delta }, none) := by
  unfold IsUint at h
  simp only [AtomicCounter.Add, Nat.mod_eq_of_lt h]

theorem AtomicCounter.call_maximum (i : AtomicCounter) (c : CounterCall) :
    (i.call c).maximum = i.maximum := by
  cases c
  · exact i.Set_maximum _
  · exact i.Add_maximum _
  · exact i.Subtract_maximum _

theorem AtomicCounter.call_count_le (i : AtomicCounter) (c : CounterCall)
    (hmax : IsUint i.maximum) (h : i.count ≤ i.maximum) (hc : c.subtractFitsInt) :
    (i.call c).count ≤ i.maximum := by
  cases c with
  | set v => exact i.Set_count_le v h
  | add d => exact i.Add_count_le d h
  | subtract d =>
    have hcount : IsUint i.count := Nat.lt_of_le_of_lt h hmax
    exact Nat.le_trans (i.Subtract_count_le d hcount hc) h

theorem AtomicCounter.history_bound (calls : List CounterCall) :
    ∀ i : AtomicCounter, IsUint i.maximum → i.count ≤ i.maximum →
      (∀ c ∈ calls, c.subtractFitsInt) →
      ∀ s ∈ i.history calls, s.maximum = i.maximum ∧ s.count ≤ i.maximum := by
  induction calls with
  | nil =>
    intro i _ h _ s hs
    simp only [AtomicCounter.history, List.mem_singleton] at hs
    subst hs
    exact ⟨rfl, h⟩
  | cons c cs ih =>
    intro i hmax h hsub s hs
    simp only [AtomicCounter.history, List.mem_cons] at hs
    rcases hs with hs | hs
    · subst hs
      exact ⟨rfl, h⟩
    · have hc := hsub c (List.mem_cons_self c cs)
      have hrest : ∀ c' ∈ cs, c'.subtractFitsInt :=
        fun c' hc' => hsub c' (List.mem_cons_of_mem c hc')
      have hm := i.call_maximum c
      have := ih (i.call c) (by rw [hm]; exact hmax)
        (by rw [hm]; exact i.call_count_le c hmax h hc) hrest s hs
      rw [hm] at this
      exact this

/-- C1 (as stated) fails twice over. `NewCounter` stores an initial count above the maximum
unchanged, and `Subtract` with an argument above `2 ^ 63` on a counter at zero leaves a
count above the maximum. -/
theorem counter_bound_counterexample :
    (IsUint 5 ∧ IsUint 10 ∧
      ∃ s ∈ (NewCounter 5 10).history [], ¬ (0 ≤ s.Value ∧ s.Value ≤ 5)) ∧
    (IsUint 10 ∧ IsUint 0 ∧ IsUint (2 ^ 63 + 1) ∧
      ∃ s ∈ (NewCounter 10 0).history [CounterCall.subtract (2 ^ 63 + 1)],
        ¬ (0 ≤ s.Value ∧ s.Value ≤ 10)) := by
  refine ⟨⟨by decide, by decide, NewCounter 5 10, by decide, by decide⟩,
    ⟨by decide, by decide, by decide, (NewCounter 10 0).Subtract (2 ^ 63 + 1), ?_, by decide⟩⟩
  simp [AtomicCounter.history, AtomicCounter.call]

/-- C1 (amended): for a counter built by `NewCounter(maximum, initCount)` with
`initCount ≤ maximum`, and every finite sequence of `Set`, `Add` and `Subtract` calls in
which every `Subtract` argument is at most `2 ^ 63`, `0 ≤ Value() ≤ maximum` holds after
construction and after every call. -/
theorem counter_bound_of_valid_start (maximum initCount : Nat) (calls : List CounterCall)
    (hmax : IsUint maximum) (hinit : initCount ≤ maximum)
    (hsub : ∀ c ∈ calls, c.subtractFitsInt) :
    ∀ s ∈ (NewCounter maximum initCount).history calls, 0 ≤ s.Value ∧ s.Value ≤ maximum := by
  intro s hs
  exact ⟨Nat.zero_le _,
    (AtomicCounter.history_bound calls (NewCounter maximum initCount) hmax hinit hsub s hs).2⟩

/-- The bound after `Add(5)` and `Add(6)` on `NewCounter(10, 0)`, within a longer call sequence. -/
theorem counter_bound_of_valid_start_witness :
    0 ≤ (((NewCounter 10 0).call (CounterCall.add 5)).call (CounterCall.add 6)).Value ∧
    (((NewCounter 10 0).call (CounterCall.add 5)).call (CounterCall.add 6)).Value ≤ 10 :=
  counter_bound_of_valid_start 10 0
    [CounterCall.add 5, CounterCall.add 6, CounterCall.subtract 7, CounterCall.set 11]
    (by decide) (by decide) (by decide) _ (by simp [AtomicCounter.history])

/-- C2: `Add` misses the overflow of `count + delta`. On `NewCounter(10, 5)` the call
`Add(2 ^ 64 - 1)` has `count + delta > maximum`, yet it returns no error and stores the
wrapped sum `4`; Scenario A (`Add(5)` then `Add(6)` on `NewCounter(10, 0)`) behaves as
specified. -/
theorem counter_add_wraps :
    IsUint (2 ^ 64 - 1) ∧ 5 + (2 ^ 64 - 1) > 10 ∧
    (NewCounter 10 5).Add (2 ^ 64 - 1) = ({ maximum := 10, count := 4 }, none) ∧
    (NewCounter 10 0).Add 5 = ({ maximum := 10, count := 5 }, none) ∧
    ((NewCounter 10 0).Add 5).1.Add 6 =
      ({ maximum := 10, count := 5 }, some (CounterError.addExceedsMaximum 10)) := by
  decide

/-- C3: `Subtract` misses the overflow of `int(delta)`. On `NewCounter(10, 0)` the call
`Subtract(2 ^ 63 + 1)` has `delta > count`, yet the count becomes `2 ^ 63 - 1` instead of
zero; and on a count of `2 ^ 63 + 5` the call `Subtract(1)` has `delta ≤ count`, yet the
count becomes zero instead of `2 ^ 63 + 4`. -/
theorem counter_subtract_wraps :
    IsUint (2 ^ 63 + 1) ∧ 2 ^ 63 + 1 > 0 ∧
    ((NewCounter 10 0).Subtract (2 ^ 63 + 1)).Value = 2 ^ 63 - 1 ∧
    IsUint (2 ^ 64 - 1) ∧ IsUint (2 ^ 63 + 5) ∧
    ((NewCounter (2 ^ 64 - 1) (2 ^ 63 + 5)).Subtract 1).Value = 0 := by
  decide


/-! ## `SharedMQTTClient` -/

theorem SharedMQTTClient.Set_eq (c : SharedMQTTClient) (w : MqttWorld)
    (client : Option ClientId) (t : Time) :
    c.Set w client t =
      SharedMQTTClient.Set.assignSecretsLastRetrieved t
        (SharedMQTTClient.Set.assignClient client
          (SharedMQTTClient.Set.disconnectHeld (c, w))) := rfl

theorem SharedMQTTClient.SetTrace_eq (c : SharedMQTTClient) (w : MqttWorld)
    (client : Option ClientId) (t : Time) :
    c.SetTrace w client t =
      [(c, w),
       SharedMQTTClient.Set.disconnectHeld (c, w),
       SharedMQTTClient.Set.assignClient client (SharedMQTTClient.Set.disconnectHeld (c, w)),
       c.Set w client t] := rfl

theorem SharedMQTTClient.Set.disconnectHeld_fst (s : SharedMQTTClient × MqttWorld) :
    (SharedMQTTClient.Set.disconnectHeld s).1 = s.1 := by
  unfold SharedMQTTClient.Set.disconnectHeld
  split
  · split_ifs <;> rfl
  · rfl

theorem SharedMQTTClient.Set_fst (c : SharedMQTTClient) (w : MqttWorld)
    (client : Option ClientId) (t : Time) :
    (c.Set w client t).1 = { c with client := client, secretsLastRetrieved := t } := by
  rw [SharedMQTTClient.Set_eq]
  simp only [SharedMQTTClient.Set.assignSecretsLastRetrieved, SharedMQTTClient.Set.assignClient,
    SharedMQTTClient.Set.disconnectHeld_fst]

theorem SharedMQTTClient.Set_snd (c : SharedMQTTClient) (w : MqttWorld)
    (client : Option ClientId) (t : Time) :
    (c.Set w client t).2 = (SharedMQTTClient.Set.disconnectHeld (c, w)).2 := rfl

theorem MqttWorld.disconnectCount_Disconnect (w : MqttWorld) (client : ClientId) (q : Nat) :
    (w.Disconnect client q).disconnectCount client = w.disconnectCount client + 1 := by
  simp [MqttWorld.Disconnect, MqttWorld.disconnectCount, List.filter_append]

/-- C4: `Set(newClient, t)` on a holder whose client is non-nil and connected makes exactly
one `Disconnect(0)` call on that client and no other call, every state of `Set` in which the
holder's client field already differs from the previous client comes after that call, and
afterwards `Get()` returns `(newClient, t)`. On a holder whose client is nil or not
connected, `Set` makes no call at all and `Get()` returns `(newClient, t)`. -/
theorem shared_client_set_disconnects_previous (c : SharedMQTTClient) (w : MqttWorld)
    (newClient : Option ClientId) (t : Time) :
    (∀ held, c.client = some held → w.IsConnected held = true →
      (c.Set w newClient t).2.calls = w.calls ++ [MqttCall.disconnect held 0] ∧
      (c.Set w newClient t).2.disconnectCount held = w.disconnectCount held + 1 ∧
      (c.SetTrace w newClient t).getLast? = some (c.Set w newClient t) ∧
      (∀ st ∈ c.SetTrace w newClient t, st.1.client ≠ c.client →
        st.2.calls = w.calls ++ [MqttCall.disconnect held 0]) ∧
      (c.Set w newClient t).1.Get = (newClient, t)) ∧
    ((c.client = none ∨ ∃ held, c.client = some held ∧ w.IsConnected held = false) →
      (c.Set w newClient t).2 = w ∧ (c.Set w newClient t).1.Get = (newClient, t)) := by
  constructor
  · intro held hheld hconn
    have hd : SharedMQTTClient.Set.disconnectHeld (c, w) = (c, w.Disconnect held 0) := by
      simp [SharedMQTTClient.Set.disconnectHeld, hheld, hconn]
    refine ⟨?_, ?_, ?_, ?_, ?_⟩
    · rw [SharedMQTTClient.Set_snd, hd]; rfl
    · rw [SharedMQTTClient.Set_snd, hd]; exact w.disconnectCount_Disconnect held 0
    · rw [SharedMQTTClient.SetTrace_eq]; rfl
    · intro st hst hne
      rw [SharedMQTTClient.SetTrace_eq] at hst
      simp only [List.mem_cons, List.mem_singleton, List.not_mem_nil, or_false] at hst
      rcases hst with h | h | h | h
      · subst h; exact absurd rfl hne
      · rw [h, hd] at hne; exact absurd rfl hne
      · rw [h, hd]; rfl
      · rw [h, SharedMQTTClient.Set_snd, hd]; rfl
    · rw [SharedMQTTClient.Set_fst]; rfl
  · intro h
    have hd : SharedMQTTClient.Set.disconnectHeld (c, w) = (c, w) := by
      rcases h with h | ⟨held, hheld, hconn⟩
      · simp [SharedMQTTClient.Set.disconnectHeld, h]
      · simp [SharedMQTTClient.Set.disconnectHeld, hheld, hconn]
    refine ⟨?_, ?_⟩
    · rw [SharedMQTTClient.Set_snd, hd]
    · rw [SharedMQTTClient.Set_fst]; rfl

/-- A holder of the connected client `1` receives client `2`: client `1` is disconnected once and `Get()` returns the new pair; a holder without a client makes no call. -/
theorem shared_client_set_disconnects_previous_witness :
    ((SharedMQTTClient.mk (some 1) 5 none).Set ⟨[1], []⟩ (some 2) 9).2.calls
        = [] ++ [MqttCall.disconnect 1 0] ∧
    ((SharedMQTTClient.mk (some 1) 5 none).Set ⟨[1], []⟩ (some 2) 9).1.Get = (some 2, 9) ∧
    ((SharedMQTTClient.mk none 0 none).Set ⟨[1], []⟩ (some 2) 9).2 = ⟨[1], []⟩ :=
  have h := shared_client_set_disconnects_previous ⟨some 1, 5, none⟩ ⟨[1], []⟩ (some 2) 9
  have h1 := h.1 1 rfl rfl
  ⟨h1.1, h1.2.2.2.2,
    ((shared_client_set_disconnects_previous ⟨none, 0, none⟩ ⟨[1], []⟩ (some 2) 9).2
      (Or.inl rfl)).1⟩


/-! ## `BaseMqttSender` -/

theorem BaseMqttSender.connectLocked_frame {δ : Type} (env : MqttEnv δ) (s : MqttState) :
    (BaseMqttSender.connectLocked env s).1.sender = s.sender ∧
    (BaseMqttSender.connectLocked env s).1.ctx = s.ctx ∧
    ∃ rest, (BaseMqttSender.connectLocked env s).1.world.calls = s.world.calls ++ rest ∧
      MqttCall.create ∉ rest := by
  unfold BaseMqttSender.connectLocked
  split
  · exact ⟨rfl, rfl, [], by simp, by simp⟩
  · rename_i client _
    split_ifs
    · exact ⟨rfl, rfl, [], by simp, by simp⟩
    · exact ⟨rfl, rfl, [MqttCall.connect client], rfl, by simp⟩
    · split <;> exact ⟨rfl, rfl, [MqttCall.connect client], rfl, by simp⟩

theorem BaseMqttSender.connect_frame {δ : Type} (env : MqttEnv δ) (s : MqttState) :
    (BaseMqttSender.connect env s).1.sender = s.sender ∧
    (BaseMqttSender.connect env s).1.ctx.retryData = s.ctx.retryData ∧
    (BaseMqttSender.connect env s).1.ctx.secretsLastUpdated = s.ctx.secretsLastUpdated ∧
    ∃ rest, (BaseMqttSender.connect env s).1.world.calls = s.world.calls ++ rest ∧
      MqttCall.create ∉ rest := by
  unfold BaseMqttSender.connect
  simp only
  split
  · exact ⟨rfl, rfl, rfl, [], by simp, by simp⟩
  · obtain ⟨h1, h2, rest, h3, h4⟩ := BaseMqttSender.connectLocked_frame env
      { s with ctx := { s.ctx with
        mqttConnectionWaitingCounter := (s.ctx.mqttConnectionWaitingCounter.Add 1).1 } }
    refine ⟨h1, ?_, ?_, rest, h3, h4⟩
    · simp only [h2]
    · simp only [h2]

theorem BaseMqttSender.setRetryData_frame (s : MqttState) (b : Bytes) :
    (BaseMqttSender.setRetryData s b).sender = s.sender ∧
    (BaseMqttSender.setRetryData s b).world = s.world ∧
    (BaseMqttSender.setRetryData s b).ctx.secretsLastUpdated = s.ctx.secretsLastUpdated := by
  unfold BaseMqttSender.setRetryData
  split_ifs <;> exact ⟨rfl, rfl, rfl⟩

theorem BaseMqttSender.setRetryData_retryData (s : MqttState) (b : Bytes) :
    (BaseMqttSender.setRetryData s b).ctx.RetryData =
      if s.sender.persistOnError then b else s.ctx.RetryData := by
  unfold BaseMqttSender.setRetryData
  split_ifs <;> rfl


theorem BaseMqttSender.publishConnect_of_connected {δ : Type} (env : MqttEnv δ)
    (s : MqttState) (b : Bytes) (client : ClientId) (h : s.world.IsConnected client = true) :
    BaseMqttSender.publishConnect env s b client = (s, none) := by
  simp [BaseMqttSender.publishConnect, h]

theorem BaseMqttSender.publishConnect_of_connect_error {δ : Type} (env : MqttEnv δ)
    (s : MqttState) (b : Bytes) (client : ClientId) (e : SendError)
    (h : s.world.IsConnected client = false) (he : (BaseMqttSender.connect env s).2 = some e) :
    BaseMqttSender.publishConnect env s b client =
      (BaseMqttSender.setRetryData (BaseMqttSender.connect env s).1 b, some e) := by
  simp [BaseMqttSender.publishConnect, h, he]

theorem BaseMqttSender.publishConnect_of_connect_ok {δ : Type} (env : MqttEnv δ)
    (s : MqttState) (b : Bytes) (client : ClientId)
    (h : s.world.IsConnected client = false) (he : (BaseMqttSender.connect env s).2 = none) :
    BaseMqttSender.publishConnect env s b client = ((BaseMqttSender.connect env s).1, none) := by
  simp [BaseMqttSender.publishConnect, h, he]

theorem BaseMqttSender.publishConnect_spec {δ : Type} (env : MqttEnv δ) (s : MqttState)
    (b : Bytes) (client : ClientId) :
    (BaseMqttSender.publishConnect env s b client).1.sender = s.sender ∧
    (BaseMqttSender.publishConnect env s b client).1.ctx.secretsLastUpdated
      = s.ctx.secretsLastUpdated ∧
    (∃ rest, (BaseMqttSender.publishConnect env s b client).1.world.calls
      = s.world.calls ++ rest ∧ MqttCall.create ∉ rest) ∧
    (BaseMqttSender.publishConnect env s b client).1.ctx.RetryData =
      (if (BaseMqttSender.publishConnect env s b client).2.isSome && s.sender.persistOnError
        then b else s.ctx.RetryData) := by
  obtain ⟨hs, hr, hu, hc⟩ := BaseMqttSender.connect_frame env s
  cases hconn : s.world.IsConnected client with
  | true =>
    rw [BaseMqttSender.publishConnect_of_connected env s b client hconn]
    exact ⟨rfl, rfl, ⟨[], by simp, by simp⟩, by simp⟩
  | false =>
    cases he : (BaseMqttSender.connect env s).2 with
    | some e =>
      rw [BaseMqttSender.publishConnect_of_connect_error env s b client e hconn he]
      obtain ⟨h1, h2, h3⟩ :=
        BaseMqttSender.setRetryData_frame (BaseMqttSender.connect env s).1 b
      refine ⟨h1.trans hs, h3.trans hu, ?_, ?_⟩
      · simpa only [h2] using hc
      · simp only [BaseMqttSender.setRetryData_retryData, hs, Option.isSome_some,
          Bool.true_and]
        split_ifs
        · rfl
        · exact hr
    | none =>
      rw [BaseMqttSender.publishConnect_of_connect_ok env s b client hconn he]
      exact ⟨hs, hu, hc, by simpa using hr⟩

theorem BaseMqttSender.publishMessage_spec {δ : Type} (env : MqttEnv δ) (s : MqttState)
    (b : Bytes) (client : ClientId) :
    (BaseMqttSender.publishMessage env s b client).1.sender.client = s.sender.client ∧
    (BaseMqttSender.publishMessage env s b client).1.ctx.secretsLastUpdated
      = s.ctx.secretsLastUpdated ∧
    (∃ rest, (BaseMqttSender.publishMessage env s b client).1.world.calls
      = s.world.calls ++ rest ∧ MqttCall.create ∉ rest) ∧
    (∀ e, (BaseMqttSender.publishMessage env s b client).2 = some e →
      e.isTransportFailure = true →
      (BaseMqttSender.publishMessage env s b client).1.ctx.RetryData =
        if s.sender.persistOnError then b else s.ctx.RetryData) := by
  cases ha : env.applyValues s.sender.config.Topic with
  | error cause =>
    simp [BaseMqttSender.publishMessage, ha, SendError.isTransportFailure]
  | ok topic =>
    cases hw : env.publishWait with
    | false =>
      simp only [BaseMqttSender.publishMessage, ha, hw, BaseMqttSender.setRetryData,
        MqttWorld.record, AppContext.RetryData, AppContext.SetRetryData]
      cases hp : s.sender.persistOnError <;>
        simp
    | true =>
      cases hp : env.publishError with
      | some cause =>
        simp only [BaseMqttSender.publishMessage, ha, hw, hp, BaseMqttSender.setRetryData,
          MqttWorld.record, AppContext.RetryData, AppContext.SetRetryData]
        cases hpe : s.sender.persistOnError <;>
          simp
      | none =>
        simp [BaseMqttSender.publishMessage, ha, hw, hp, MqttWorld.record]


theorem BaseMqttSender.publish_of_client {δ : Type} (env : MqttEnv δ) (s : MqttState)
    (b : Bytes) (client : ClientId) (h : s.sender.client = some client) :
    BaseMqttSender.publish env s b =
      match (BaseMqttSender.publishConnect env s b client).2 with
      | some e => ((BaseMqttSender.publishConnect env s b client).1, some e)
      | none =>
        BaseMqttSender.publishMessage env (BaseMqttSender.publishConnect env s b client).1 b
          client := by
  simp only [BaseMqttSender.publish, h]

theorem BaseMqttSender.publish_frame {δ : Type} (env : MqttEnv δ) (s : MqttState) (b : Bytes) :
    (BaseMqttSender.publish env s b).1.sender.client = s.sender.client ∧
    (BaseMqttSender.publish env s b).1.ctx.secretsLastUpdated = s.ctx.secretsLastUpdated ∧
    ∃ rest, (BaseMqttSender.publish env s b).1.world.calls = s.world.calls ++ rest ∧
      MqttCall.create ∉ rest := by
  cases hcl : s.sender.client with
  | none =>
    simp [BaseMqttSender.publish, hcl]
  | some client =>
    rw [BaseMqttSender.publish_of_client env s b client hcl]
    obtain ⟨h1, h2, ⟨r1, h3, h4⟩, _⟩ := BaseMqttSender.publishConnect_spec env s b client
    cases hpc : (BaseMqttSender.publishConnect env s b client).2 with
    | some e =>
      simp only
      exact ⟨by rw [h1, hcl], h2, r1, h3, h4⟩
    | none =>
      simp only
      obtain ⟨g1, g2, ⟨r2, g3, g4⟩, _⟩ := BaseMqttSender.publishMessage_spec env
        (BaseMqttSender.publishConnect env s b client).1 b client
      refine ⟨by rw [g1, h1, hcl], g2.trans h2, r1 ++ r2, ?_, ?_⟩
      · rw [g3, h3, List.append_assoc]
      · simp [h4, g4]

/-- C6: when `publish(ctx, b)` returns the error of a failed `connect` (waiting counter
full, connect timeout, connect error) or of a failed publish token (wait timeout, token
error), `ctx.RetryData()` afterwards is `b` if `persistOnError` is true and is what it was
before if `persistOnError` is false; and `setRetryData(ctx, b)` alone has the same effect. -/
theorem publish_failure_stages_retry_data {δ : Type} (env : MqttEnv δ) (s : MqttState)
    (b : Bytes) (e : SendError)
    (hfail : (BaseMqttSender.publish env s b).2 = some e)
    (htransport : e.isTransportFailure = true) :
    (BaseMqttSender.publish env s b).1.ctx.RetryData =
      (if s.sender.persistOnError then b else s.ctx.RetryData) ∧
    (BaseMqttSender.setRetryData s b).ctx.RetryData =
      (if s.sender.persistOnError then b else s.ctx.RetryData) := by
  refine ⟨?_, BaseMqttSender.setRetryData_retryData s b⟩
  cases hcl : s.sender.client with
  | none =>
    simp only [BaseMqttSender.publish, hcl] at hfail
    cases hfail
    simp [SendError.isTransportFailure] at htransport
  | some client =>
    rw [BaseMqttSender.publish_of_client env s b client hcl] at hfail ⊢
    obtain ⟨h1, _, _, h4⟩ := BaseMqttSender.publishConnect_spec env s b client
    cases hpc : (BaseMqttSender.publishConnect env s b client).2 with
    | some e' =>
      simp only [hpc] at hfail ⊢
      rw [h4, hpc]
      simp
    | none =>
      simp only [hpc] at hfail ⊢
      obtain ⟨_, _, _, g4⟩ := BaseMqttSender.publishMessage_spec env
        (BaseMqttSender.publishConnect env s b client).1 b client
      rw [g4 e hfail htransport, h1, h4, hpc]
      simp


theorem BaseMqttSender.initializeMQTTClient_of_stale {δ : Type} (env : MqttEnv δ)
    (s : MqttState) (hshared : s.sender.usingSharedClient = false)
    (hstale : s.sender.secretsLastRetrieved < s.ctx.SecretsLastUpdated) :
    (BaseMqttSender.initializeMQTTClient env s).1.world.calls
      = s.world.calls ++ [MqttCall.create] ∧
    (BaseMqttSender.initializeMQTTClient env s).1.ctx = s.ctx ∧
    (∀ cause, env.create = .error cause →
      (BaseMqttSender.initializeMQTTClient env s).2 = some (SendError.factory cause) ∧
      (BaseMqttSender.initializeMQTTClient env s).1.sender = s.sender) ∧
    (∀ client, env.create = .ok client →
      (BaseMqttSender.initializeMQTTClient env s).2 = none ∧
      (BaseMqttSender.initializeMQTTClient env s).1.sender =
        { s.sender with client := some client, secretsLastRetrieved := env.now }) := by
  have hnot : ¬ s.ctx.SecretsLastUpdated ≤ s.sender.secretsLastRetrieved :=
    Nat.not_le_of_lt hstale
  simp only [BaseMqttSender.initializeMQTTClient, hshared]
  cases env.create <;> simp [hshared, MqttWorld.record, hnot]

theorem RegularMQTTSender.Send_of_stale {δ : Type} (env : MqttEnv δ) (s : MqttState) (d : δ)
    (b : Bytes) (hstale : s.sender.secretsLastRetrieved < s.ctx.SecretsLastUpdated)
    (hcoerce : env.coerceType d = .ok b) :
    RegularMQTTSender.Send env s (some d) =
      match (BaseMqttSender.initializeMQTTClient env s).2 with
      | some e => ((BaseMqttSender.initializeMQTTClient env s).1, false, Result.error e)
      | none =>
        match (BaseMqttSender.publish env (BaseMqttSender.initializeMQTTClient env s).1 b).2 with
        | some e =>
          ((BaseMqttSender.publish env (BaseMqttSender.initializeMQTTClient env s).1 b).1,
            false, Result.error e)
        | none =>
          ((BaseMqttSender.publish env (BaseMqttSender.initializeMQTTClient env s).1 b).1,
            true, Result.nil) := by
  simp only [RegularMQTTSender.Send, hcoerce, hstale, decide_True, Bool.or_true, if_true]

/-- For a regular sender that does not use the shared client, holds a client and whose
`secretsLastRetrieved` is before `ctx.SecretsLastUpdated()`, a `Send` with non-nil coercible
data calls `mqttClientFactory.Create` exactly once, before every other call of that send on
the MQTT library (so before any connect or publish), and when `Create` succeeds the sender's
client afterwards is the newly created one. -/
theorem RegularMQTTSender.Send_recreates_stale_client {δ : Type} (env : MqttEnv δ) (s : MqttState)
    (d : δ) (b : Bytes) (held : ClientId)
    (hshared : s.sender.usingSharedClient = false)
    (hclient : s.sender.client = some held)
    (hstale : s.sender.secretsLastRetrieved < s.ctx.SecretsLastUpdated)
    (hcoerce : env.coerceType d = .ok b) :
    (∃ rest, (RegularMQTTSender.Send env s (some d)).1.world.calls =
        s.world.calls ++ MqttCall.create :: rest ∧ MqttCall.create ∉ rest) ∧
    (RegularMQTTSender.Send env s (some d)).1.world.createCount = s.world.createCount + 1 ∧
    (∀ client, env.create = .ok client →
      (RegularMQTTSender.Send env s (some d)).1.sender.client = some client) ∧
    (∀ cause, env.create = .error cause →
      (RegularMQTTSender.Send env s (some d)).1.sender.client = some held) := by
  obtain ⟨i1, i2, i3, i4⟩ := BaseMqttSender.initializeMQTTClient_of_stale env s hshared hstale
  obtain ⟨p1, _, prest, p3, p4⟩ := BaseMqttSender.publish_frame env
    (BaseMqttSender.initializeMQTTClient env s).1 b
  have hcalls : ∃ rest, (RegularMQTTSender.Send env s (some d)).1.world.calls =
        s.world.calls ++ MqttCall.create :: rest ∧ MqttCall.create ∉ rest := by
    rw [RegularMQTTSender.Send_of_stale env s d b hstale hcoerce]
    cases hi : (BaseMqttSender.initializeMQTTClient env s).2 with
    | some e => exact ⟨[], by simp [i1], by simp⟩
    | none =>
      refine ⟨prest, ?_, p4⟩
      cases (BaseMqttSender.publish env (BaseMqttSender.initializeMQTTClient env s).1 b).2 <;>
        simp [p3, i1]
  refine ⟨hcalls, ?_, ?_, ?_⟩
  · obtain ⟨rest, h1, h2⟩ := hcalls
    have hrest : rest.filter (fun call => call == MqttCall.create) = [] := by
      rw [List.filter_eq_nil_iff]
      intro a ha hcontra
      have : a = MqttCall.create := by simpa using hcontra
      exact h2 (this ▸ ha)
    simp [MqttWorld.createCount, h1, List.filter_append, List.filter_cons, hrest]
  · intro client hcreate
    obtain ⟨j1, j2⟩ := i4 client hcreate
    rw [RegularMQTTSender.Send_of_stale env s d b hstale hcoerce, j1]
    cases (BaseMqttSender.publish env (BaseMqttSender.initializeMQTTClient env s).1 b).2 <;>
      simp [p1, j2]
  · intro cause hcreate
    obtain ⟨j1, j2⟩ := i3 cause hcreate
    rw [RegularMQTTSender.Send_of_stale env s d b hstale hcoerce, j1]
    simp [j2, hclient]

/-- The broker is unreachable and the connect token times out: with `persistOnError=true` the retry data is the payload, and `setRetryData` with `[]byte("data")` stores it only when `persistOnError` is true. -/
theorem publish_failure_stages_retry_data_witness :
    ((BaseMqttSender.publish unreachableBrokerEnv (staleSenderState true)
        (stringBytes "data")).1.ctx.RetryData =
      (if (staleSenderState true).sender.persistOnError then stringBytes "data"
        else (staleSenderState true).ctx.RetryData) ∧
    (BaseMqttSender.setRetryData (staleSenderState true) (stringBytes "data")).ctx.RetryData =
      (if (staleSenderState true).sender.persistOnError then stringBytes "data"
        else (staleSenderState true).ctx.RetryData)) ∧
    (BaseMqttSender.setRetryData (staleSenderState true) (stringBytes "data")).ctx.RetryData
      = some [100, 97, 116, 97] ∧
    (BaseMqttSender.setRetryData (staleSenderState false) (stringBytes "data")).ctx.RetryData
      = none :=
  ⟨publish_failure_stages_retry_data unreachableBrokerEnv (staleSenderState true)
      (stringBytes "data") (SendError.connectTimeout "aaa://unreachable:1111") (by decide)
      (by decide),
    by decide, by decide⟩


/-! ## Configuration loaders -/

theorem parseOptionalBool_ok_iff (parameters : Params) (name : String) (b : Bool) :
    parseOptionalBool parameters name = .ok b ↔ parameters.flag name = some b := by
  unfold parseOptionalBool Params.flag
  cases parameters.get name with
  | none => simp
  | some value => cases hv : ParseBool value <;> simp [hv]

theorem processXpertHttpExportParameters.flags_ok (k : ParamNames) (parameters : Params)
    (r r' : HTTPSenderConfig)
    (h : processXpertHttpExportParameters.flags k parameters r = .ok r') :
    parameters.flag k.PersistOnError = some r'.PersistOnError ∧
    parameters.flag k.ContinueOnSendError = some r'.ContinueOnSendError ∧
    parameters.flag k.ReturnInputData = some r'.ReturnInputData ∧
    (r'.PersistOnError && r'.ContinueOnSendError) = false ∧
    (r'.ContinueOnSendError && !r'.ReturnInputData) = false := by
  unfold processXpertHttpExportParameters.flags at h
  simp only at h
  cases hp : parseOptionalBool parameters k.PersistOnError with
  | error e => simp [hp] at h
  | ok p =>
    cases hc : parseOptionalBool parameters k.ContinueOnSendError with
    | error e => simp [hp, hc] at h
    | ok c =>
      cases hr : parseOptionalBool parameters k.ReturnInputData with
      | error e => simp [hp, hc, hr] at h
      | ok ret =>
        simp only [hp, hc, hr] at h
        rw [parseOptionalBool_ok_iff] at hp hc hr
        split_ifs at h with h1 h2
        simp only [Except.ok.injEq] at h
        subst h
        simp only [Bool.not_eq_true] at h1 h2
        exact ⟨hp, hc, hr, h1, h2⟩


theorem processXpertHttpExportParameters.clientCert_ok (k : ParamNames) (parameters : Params)
    (r r' : HTTPSenderConfig)
    (h : processXpertHttpExportParameters.clientCert k parameters r = .ok r') :
    r'.PersistOnError = r.PersistOnError ∧ r'.ContinueOnSendError = r.ContinueOnSendError ∧
    r'.ReturnInputData = r.ReturnInputData := by
  unfold processXpertHttpExportParameters.clientCert at h
  split_ifs at h
  simp only at h
  split at h
  · cases h; exact ⟨rfl, rfl, rfl⟩
  · split at h
    · cases h
    · split_ifs at h
      cases h; exact ⟨rfl, rfl, rfl⟩

theorem processXpertHttpExportParameters.awsSignature_ok (lib : StdLib) (k : ParamNames)
    (parameters : Params) (r r' : HTTPSenderConfig)
    (h : processXpertHttpExportParameters.awsSignature lib k parameters r = .ok r') :
    r'.PersistOnError = r.PersistOnError ∧ r'.ContinueOnSendError = r.ContinueOnSendError ∧
    r'.ReturnInputData = r.ReturnInputData := by
  unfold processXpertHttpExportParameters.awsSignature at h
  split_ifs at h
  split at h
  · cases h
  · split_ifs at h
    split at h
    · cases h
    · simp only at h
      split at h
      · cases h
      · cases h; exact ⟨rfl, rfl, rfl⟩

theorem processXpertHttpExportParameters.auth_ok (lib : StdLib) (k : ParamNames)
    (parameters : Params) (r r' : HTTPSenderConfig)
    (h : processXpertHttpExportParameters.auth lib k parameters r = .ok r') :
    r'.PersistOnError = r.PersistOnError ∧ r'.ContinueOnSendError = r.ContinueOnSendError ∧
    r'.ReturnInputData = r.ReturnInputData := by
  unfold processXpertHttpExportParameters.auth at h
  simp only at h
  split at h
  · cases h
  · split_ifs at h
    · cases h
      cases parameters.get k.AuthMode <;> cases parameters.get k.SecretPath <;>
        exact ⟨rfl, rfl, rfl⟩
    · cases h
      cases parameters.get k.AuthMode <;> cases parameters.get k.SecretPath <;>
        exact ⟨rfl, rfl, rfl⟩
    · cases h
      cases parameters.get k.AuthMode <;> cases parameters.get k.SecretPath <;>
        exact ⟨rfl, rfl, rfl⟩
    · have := processXpertHttpExportParameters.clientCert_ok k parameters _ r' h
      revert this
      cases parameters.get k.AuthMode <;> cases parameters.get k.SecretPath <;>
        exact id
    · have := processXpertHttpExportParameters.awsSignature_ok lib k parameters _ r' h
      revert this
      cases parameters.get k.AuthMode <;> cases parameters.get k.SecretPath <;>
        exact id

theorem processXpertHttpExportParameters.headers_ok (lib : StdLib) (parameters : Params)
    (r r' : HTTPSenderConfig)
    (h : processXpertHttpExportParameters.headers lib parameters r = .ok r') :
    r'.PersistOnError = r.PersistOnError ∧ r'.ContinueOnSendError = r.ContinueOnSendError ∧
    r'.ReturnInputData = r.ReturnInputData := by
  unfold processXpertHttpExportParameters.headers at h
  split at h
  · cases h; exact ⟨rfl, rfl, rfl⟩
  · split_ifs at h
    · split at h
      · cases h
      · cases h; exact ⟨rfl, rfl, rfl⟩
    · cases h; exact ⟨rfl, rfl, rfl⟩

theorem processXpertHttpExportParameters_ok (lib : StdLib) (k : ParamNames)
    (parameters : Params) (config : HTTPSenderConfig)
    (h : processXpertHttpExportParameters lib k parameters = .ok config) :
    parameters.flag k.PersistOnError = some config.PersistOnError ∧
    parameters.flag k.ContinueOnSendError = some config.ContinueOnSendError ∧
    parameters.flag k.ReturnInputData = some config.ReturnInputData ∧
    (config.PersistOnError && config.ContinueOnSendError) = false ∧
    (config.ContinueOnSendError && !config.ReturnInputData) = false := by
  unfold processXpertHttpExportParameters at h
  cases h1 : processXpertHttpExportParameters.mandatory lib k parameters HTTPSenderConfig.zero with
  | error e => rw [h1] at h; cases h
  | ok r1 =>
    rw [h1] at h
    cases h2 : processXpertHttpExportParameters.flags k parameters r1 with
    | error e => simp [bind, Except.bind, h2] at h
    | ok r2 =>
      cases h3 : processXpertHttpExportParameters.auth lib k parameters r2 with
      | error e => simp [bind, Except.bind, h2, h3] at h
      | ok r3 =>
        simp only [bind, Except.bind, h2, h3] at h
        obtain ⟨f1, f2, f3, f4, f5⟩ :=
          processXpertHttpExportParameters.flags_ok k parameters r1 r2 h2
        obtain ⟨a1, a2, a3⟩ := processXpertHttpExportParameters.auth_ok lib k parameters r2 r3 h3
        obtain ⟨b1, b2, b3⟩ :=
          processXpertHttpExportParameters.headers_ok lib parameters r3 config h
        rw [b1, b2, b3, a1, a2, a3]
        exact ⟨f1, f2, f3, f4, f5⟩

/-- C7: whenever `processXpertHttpExportParameters` returns no error, the configuration has
`ReturnInputData` set if `ContinueOnSendError` is set, and does not have both `PersistOnError`
and `ContinueOnSendError` set; and every parameter map whose flags parse to
`continueOnSendError=true` with `returnInputData=false`, or to `persistOnError=true` with
`continueOnSendError=true`, is rejected with an error, so that `XpertHTTPExport` returns
nil. -/
theorem http_export_rejects_conflicting_flags (lib : StdLib) (k : ParamNames)
    (parameters : Params) :
    (∀ config, processXpertHttpExportParameters lib k parameters = .ok config →
      (config.ContinueOnSendError = true → config.ReturnInputData = true) ∧
      ¬ (config.PersistOnError = true ∧ config.ContinueOnSendError = true)) ∧
    (((parameters.flag k.ContinueOnSendError = some true ∧
        parameters.flag k.ReturnInputData = some false) ∨
      (parameters.flag k.PersistOnError = some true ∧
        parameters.flag k.ContinueOnSendError = some true)) →
      (∃ e, processXpertHttpExportParameters lib k parameters = .error e) ∧
      Configurable.XpertHTTPExport lib k parameters = none) := by
  constructor
  · intro config h
    obtain ⟨_, _, _, h4, h5⟩ := processXpertHttpExportParameters_ok lib k parameters config h
    constructor
    · intro hc
      simpa [hc] using h5
    · rintro ⟨hp, hc⟩
      simp [hp, hc] at h4
  · intro hflags
    cases h : processXpertHttpExportParameters lib k parameters with
    | error e => exact ⟨⟨e, rfl⟩, by simp [Configurable.XpertHTTPExport, h]⟩
    | ok config =>
      exfalso
      obtain ⟨h1, h2, h3, h4, h5⟩ :=
        processXpertHttpExportParameters_ok lib k parameters config h
      rcases hflags with ⟨hc, hr⟩ | ⟨hp, hc⟩
      · rw [h2] at hc
        rw [h3] at hr
        simp only [Option.some.injEq] at hc hr
        simp [hc, hr] at h5
      · rw [h1] at hp
        rw [h2] at hc
        simp only [Option.some.injEq] at hc hp
        simp [hc, hp] at h4

/-- The two conflicting flag combinations are rejected on a map with the mandatory parameters, and the accepted combination `continueOnSendError=true`, `returnInputData=true` satisfies both constraints. -/
theorem http_export_rejects_conflicting_flags_witness :
    ((∃ e, processXpertHttpExportParameters sampleStdLib sampleParamNames
        (httpTestParameters "false" "true" "false") = .error e) ∧
      Configurable.XpertHTTPExport sampleStdLib sampleParamNames
        (httpTestParameters "false" "true" "false") = none) ∧
    ((∃ e, processXpertHttpExportParameters sampleStdLib sampleParamNames
        (httpTestParameters "true" "true" "true") = .error e) ∧
      Configurable.XpertHTTPExport sampleStdLib sampleParamNames
        (httpTestParameters "true" "true" "true") = none) ∧
    (∃ config, processXpertHttpExportParameters sampleStdLib sampleParamNames
        (httpTestParameters "false" "true" "true") = .ok config ∧
      (config.ContinueOnSendError = true → config.ReturnInputData = true) ∧
      ¬ (config.PersistOnError = true ∧ config.ContinueOnSendError = true)) :=
  ⟨(http_export_rejects_conflicting_flags sampleStdLib sampleParamNames
      (httpTestParameters "false" "true" "false")).2 (Or.inl ⟨by decide, by decide⟩),
    (http_export_rejects_conflicting_flags sampleStdLib sampleParamNames
      (httpTestParameters "true" "true" "true")).2 (Or.inr ⟨by decide, by decide⟩),
    ⟨{ HTTPSenderConfig.zero with
        URL := "http://url", MimeType := "application/json", HTTPMethod := "POST",
        AuthMode := "none", ContinueOnSendError := true, ReturnInputData := true },
      rfl,
      (http_export_rejects_conflicting_flags sampleStdLib sampleParamNames
        (httpTestParameters "false" "true" "true")).1 _ rfl⟩⟩


theorem LoadAWSMQTTConfig_retain (k : ParamNames) (parameters : Params) :
    (LoadAWSMQTTConfig k parameters).1.Retain = false := by
  unfold LoadAWSMQTTConfig
  simp only
  repeat' split
  all_goals rfl

theorem LoadAWSMQTTConfig.qos_le_one (k : ParamNames) (parameters : Params) (q : Int)
    (h : LoadAWSMQTTConfig.qos k parameters = .ok q) : q ≤ 1 := by
  unfold LoadAWSMQTTConfig.qos at h
  split at h
  · cases h; decide
  · split at h
    · cases h
    · split_ifs at h with hq
      cases h
      exact Int.not_lt.mp hq

/-- An accepted AWS parameter map has a `qos` that is absent or parses to an integer `q ≤ 1`,
and the configuration carries `byte(q)`. -/
theorem LoadAWSMQTTConfig_accepted_qos (k : ParamNames) (parameters : Params)
    (h : (LoadAWSMQTTConfig k parameters).2.2 = none) :
    ∃ q, LoadAWSMQTTConfig.qos k parameters = .ok q ∧ q ≤ 1 ∧
      (LoadAWSMQTTConfig k parameters).1.QoS = intToByte q := by
  cases hq : LoadAWSMQTTConfig.qos k parameters with
  | error e =>
    exfalso
    unfold LoadAWSMQTTConfig at h
    simp only [hq] at h
    repeat' split at h
    all_goals simp at h
  | ok q =>
    refine ⟨q, rfl, LoadAWSMQTTConfig.qos_le_one k parameters q hq, ?_⟩
    unfold LoadAWSMQTTConfig at h ⊢
    simp only [hq] at h ⊢
    repeat' split at h
    all_goals first
      | (simp at h; done)
      | simp [*]


/-- C8: `LoadAWSMQTTConfig` rejects only a `qos` above `1`. The parameter map of
`TestXpertMQTTExportAWS` with `qos = "-1"` parses to the integer `-1`, is accepted without
error, and yields `QoS = byte(-1) = 255`, which is neither `0` nor `1`; `qos = "2"` is
rejected as specified. -/
theorem aws_config_accepts_negative_qos :
    Atoi "-1" = some (-1) ∧
    (LoadAWSMQTTConfig sampleParamNames (awsTestParameters "-1" "false")).2.2 = none ∧
    (LoadAWSMQTTConfig sampleParamNames (awsTestParameters "-1" "false")).1.QoS = 255 ∧
    (LoadAWSMQTTConfig sampleParamNames (awsTestParameters "2" "false")).2.2 =
      some (ConfigError.unsupportedQoS 2) := by
  decide

/-- C9 (as stated) fails for `newAWSIoTCoreMQTTConfig`: an `ExternalMqttConfig` with
`Retain=true` yields a configuration with `Retain == true`. -/
theorem aws_trigger_config_retain_counterexample :
    ¬ ((newAWSIoTCoreMQTTConfig
        { Url := "tls://a1hmdzcnpgcx08-ats.iot.us-east-1.amazonaws.com:8883",
          ClientId := "VirtualDevice", AutoReconnect := false, QoS := 0, Retain := true,
          SkipCertVerify := false, SecretPath := "aws", AuthMode := "clientcert" }).Retain
        = false) := by
  decide

/-- C9 (amended): every configuration `LoadAWSMQTTConfig` returns, on every parameter map and
whatever `retain` value it requests, has `Retain == false` (the test's map with
`retain = "true"` is accepted); `newAWSIoTCoreMQTTConfig` copies `Retain` from the
`ExternalMqttConfig` unchanged. -/
theorem aws_config_retain (k : ParamNames) (parameters : Params) (config : ExternalMqttConfig) :
    (LoadAWSMQTTConfig k parameters).1.Retain = false ∧
    (LoadAWSMQTTConfig sampleParamNames (awsTestParameters "0" "true")).2.2 = none ∧
    (newAWSIoTCoreMQTTConfig config).Retain = config.Retain :=
  ⟨LoadAWSMQTTConfig_retain k parameters, by decide, rfl⟩


/-! ## `HTTPSender` -/

theorem HTTPSender.httpSetRetryData_retryData (s : HttpState) (b : Bytes) :
    (HTTPSender.setRetryData s b).ctx.RetryData =
      if s.sender.config.PersistOnError then b else s.ctx.RetryData := by
  unfold HTTPSender.setRetryData
  split_ifs <;> rfl

theorem HTTPSender.initialize_config {δ : Type} (env : HttpEnv δ) (ctx : AppContext)
    (sender : HTTPSender) :
    ( HTTPSender.initialize env ctx sender).1.config = sender.config := by
  unfold HTTPSender.initialize
  split_ifs
  all_goals try simp only
  all_goals repeat' split
  all_goals rfl

theorem HTTPSender.ensureInitialized_frame {δ : Type} (env : HttpEnv δ) (s : HttpState) :
    (HTTPSender.ensureInitialized env s).1.ctx = s.ctx ∧
    (HTTPSender.ensureInitialized env s).1.sender.config = s.sender.config := by
  unfold HTTPSender.ensureInitialized
  split_ifs
  · exact ⟨rfl, HTTPSender.initialize_config env s.ctx s.sender⟩
  · exact ⟨rfl, rfl⟩

/-- C10: for a sender with `ContinueOnSendError=false`, a send that reaches the transport
call (non-nil coercible data, initialization and request preparation without error) and in
which the transport call returns an error or a response whose status code is outside
`200..299` returns `(false, error)`, and afterwards `ctx.RetryData()` is the coerced bytes of
the input if `PersistOnError` is true and is what it was before if `PersistOnError` is
false. -/
theorem http_send_failure_stages_retry_data {δ : Type} (env : HttpEnv δ) (s : HttpState)
    (d : δ) (b : Bytes) (req : HttpRequest)
    (hcontinue : s.sender.config.ContinueOnSendError = false)
    (hcoerce : env.coerceType d = .ok b)
    (hinit : (HTTPSender.ensureInitialized env s).2 = none)
    (hreq : HTTPSender.prepareHTTPRequest env (HTTPSender.ensureInitialized env s).1.sender b
      = .ok req)
    (hfail : (∃ cause, env.doRequest req = .error cause) ∨
      (∃ response, env.doRequest req = .ok response ∧
        (response.StatusCode < 200 ∨ response.StatusCode ≥ 300))) :
    (∃ e, e.isSendFailure = true ∧
      (HTTPSender.HTTPSend env s (some d)).2 = (false, Result.error e)) ∧
    (HTTPSender.HTTPSend env s (some d)).1.ctx.RetryData =
      (if s.sender.config.PersistOnError then b else s.ctx.RetryData) := by
  obtain ⟨hctx, hcfg⟩ := HTTPSender.ensureInitialized_frame env s
  have hsend : ∀ e, HTTPSender.sendFailed (HTTPSender.ensureInitialized env s).1 d b e =
      (HTTPSender.setRetryData (HTTPSender.ensureInitialized env s).1 b, false,
        Result.error e) := by
    intro e
    simp [HTTPSender.sendFailed, hcfg, hcontinue]
  have hretry : (HTTPSender.setRetryData (HTTPSender.ensureInitialized env s).1 b).ctx.RetryData
      = (if s.sender.config.PersistOnError then b else s.ctx.RetryData) := by
    rw [HTTPSender.httpSetRetryData_retryData, hcfg, hctx]
  have hunfold : HTTPSender.HTTPSend env s (some d) =
      HTTPSender.handleResponse (HTTPSender.ensureInitialized env s).1 d b
        (env.doRequest req) := by
    simp only [HTTPSender.HTTPSend, hcoerce, hinit, hreq]
  rw [hunfold]
  rcases hfail with ⟨cause, hdo⟩ | ⟨response, hdo, hstatus⟩
  · simp only [hdo, HTTPSender.handleResponse, hsend]
    exact ⟨⟨HttpError.transport cause, rfl, rfl⟩, hretry⟩
  · simp only [hdo, HTTPSender.handleResponse, hstatus, if_true, hsend]
    exact ⟨⟨HttpError.statusCode response.StatusCode, rfl, rfl⟩, hretry⟩

/-- Scenario C: a 404 answer with `persistOnError=true` and `continueOnSendError=false` returns `(false, error)` and leaves the bytes of `"test message"` as retry data. -/
theorem http_send_failure_stages_retry_data_witness :
    (∃ e, e.isSendFailure = true ∧
      (HTTPSender.HTTPSend notFoundEnv (httpSampleState true false) (some "test message")).2
        = (false, Result.error e)) ∧
    (HTTPSender.HTTPSend notFoundEnv (httpSampleState true false)
        (some "test message")).1.ctx.RetryData =
      (if (httpSampleState true false).sender.config.PersistOnError
        then stringBytes "test message" else (httpSampleState true false).ctx.RetryData) ∧
    (HTTPSender.HTTPSend notFoundEnv (httpSampleState true false)
        (some "test message")).1.ctx.RetryData =
      some [116, 101, 115, 116, 32, 109, 101, 115, 115, 97, 103, 101] :=
  have h := http_send_failure_stages_retry_data notFoundEnv (httpSampleState true false) "test message"
    (stringBytes "test message")
    { Method := "POST", URL := "http://localhost/base/bad", Body := stringBytes "test message",
      Header := [("Content-Type", "application/json")], Close := true }
    rfl rfl rfl rfl
    (Or.inr ⟨{ StatusCode := 404, Status := "404 Not Found", Body := .ok (stringBytes "") },
      rfl, Or.inr (by decide)⟩)
  ⟨h.1, h.2, by decide⟩

end Xpert
namespace Xpert

/-- C11: for a sender with `ContinueOnSendError=true`, a send that reaches the transport call
and in which the transport call returns an error or a response whose status code is outside
`200..299` returns `(true, data)` with the input value itself, and `ctx.RetryData()` is what
it was before the send, whatever `PersistOnError` is. -/
theorem http_send_failure_continues {δ : Type} (env : HttpEnv δ) (s : HttpState)
    (d : δ) (b : Bytes) (req : HttpRequest)
    (hcontinue : s.sender.config.ContinueOnSendError = true)
    (hcoerce : env.coerceType d = .ok b)
    (hinit : (HTTPSender.ensureInitialized env s).2 = none)
    (hreq : HTTPSender.prepareHTTPRequest env (HTTPSender.ensureInitialized env s).1.sender b
      = .ok req)
    (hfail : (∃ cause, env.doRequest req = .error cause) ∨
      (∃ response, env.doRequest req = .ok response ∧
        (response.StatusCode < 200 ∨ response.StatusCode ≥ 300))) :
    (HTTPSender.HTTPSend env s (some d)).2 = (true, Result.value d) ∧
    (HTTPSender.HTTPSend env s (some d)).1.ctx.RetryData = s.ctx.RetryData := by
  obtain ⟨hctx, hcfg⟩ := HTTPSender.ensureInitialized_frame env s
  have hsend : ∀ e, HTTPSender.sendFailed (HTTPSender.ensureInitialized env s).1 d b e =
      ((HTTPSender.ensureInitialized env s).1, true, Result.value d) := by
    intro e
    simp [HTTPSender.sendFailed, hcfg, hcontinue]
  have hunfold : HTTPSender.HTTPSend env s (some d) =
      HTTPSender.handleResponse (HTTPSender.ensureInitialized env s).1 d b
        (env.doRequest req) := by
    simp only [HTTPSender.HTTPSend, hcoerce, hinit, hreq]
  rw [hunfold]
  rcases hfail with ⟨cause, hdo⟩ | ⟨response, hdo, hstatus⟩
  · simp only [hdo, HTTPSender.handleResponse, hsend, hctx, and_self]
  · simp only [hdo, HTTPSender.handleResponse, hstatus, if_true, hsend, hctx, and_self]

/-- Scenario D with `persistOnError=true` added: a 404 answer with
`continueOnSendError=true` returns `(true, "test message")` and leaves the retry data nil. -/
theorem http_send_failure_continues_witness :
    (HTTPSender.HTTPSend notFoundEnv (httpSampleState true true) (some "test message")).2
      = (true, Result.value "test message") ∧
    (HTTPSender.HTTPSend notFoundEnv (httpSampleState true true)
      (some "test message")).1.ctx.RetryData = (httpSampleState true true).ctx.RetryData :=
  http_send_failure_continues notFoundEnv (httpSampleState true true) "test message"
    (stringBytes "test message")
    { Method := "POST", URL := "http://localhost/base/bad", Body := stringBytes "test message",
      Header := [("Content-Type", "application/json")], Close := true }
    rfl rfl rfl rfl
    (Or.inr ⟨{ StatusCode := 404, Status := "404 Not Found", Body := .ok (stringBytes "") },
      rfl, Or.inr (by decide)⟩)

/-! ## `BaseMqttSender.connect` and the waiting counter -/

theorem BaseMqttSender.connect_of_add_error {δ : Type} (env : MqttEnv δ) (s : MqttState)
    (e : CounterError) (h : (s.ctx.mqttConnectionWaitingCounter.Add 1).2 = some e) :
    BaseMqttSender.connect env s = (s, some (SendError.counter e)) := by
  have hcount : (s.ctx.mqttConnectionWaitingCounter.Add 1).1 = s.ctx.mqttConnectionWaitingCounter := by
    revert h
    unfold AtomicCounter.Add
    simp only
    split_ifs <;> simp
  unfold BaseMqttSender.connect
  simp only [h, hcount]

/-- On every path of `connect` that passed the increment, the counter afterwards is the
incremented counter decremented by one. -/
theorem BaseMqttSender.connect_counter {δ : Type} (env : MqttEnv δ) (s : MqttState)
    (h : (s.ctx.mqttConnectionWaitingCounter.Add 1).2 = none) :
    (BaseMqttSender.connect env s).1.ctx.mqttConnectionWaitingCounter =
      ((s.ctx.mqttConnectionWaitingCounter.Add 1).1).Subtract 1 := by
  obtain ⟨_, h2, _⟩ := BaseMqttSender.connectLocked_frame env
    { s with ctx := { s.ctx with
      mqttConnectionWaitingCounter := (s.ctx.mqttConnectionWaitingCounter.Add 1).1 } }
  unfold BaseMqttSender.connect
  simp only [h, h2]

/-- For a counter whose count is below `2 ^ 63 - 1`, `Add(1)` followed by `Subtract(1)`
restores the counter, and `Add(1)` fails exactly at or above the maximum. -/
theorem AtomicCounter.add_one_subtract_one (i : AtomicCounter) (h : i.count + 1 < intBound) :
    (i.count + 1 > i.maximum → i.Add 1 = (i, some (CounterError.addExceedsMaximum i.maximum))) ∧
    (i.count + 1 ≤ i.maximum → (i.Add 1).2 = none ∧ ((i.Add 1).1).Subtract 1 = i) := by
  have hu : IsUint (i.count + 1) := by
    unfold IsUint
    rw [uintSize_eq]
    rw [intBound_eq] at h
    omega
  rw [AtomicCounter.Add_of_no_wrap i 1 hu]
  constructor
  · intro hgt
    simp [hgt]
  · intro hle
    have hng : ¬ i.count + 1 > i.maximum := Nat.not_lt.mpr hle
    simp only [hng, if_false, true_and]
    have := AtomicCounter.Subtract_count_of_lt_intBound
      { i with count := i.count + 1 } 1 h (by rw [intBound_eq]; omega)
    cases i
    simp only [AtomicCounter.Subtract] at this ⊢
    simp only [AtomicCounter.mk.injEq, true_and]
    simpa using this

/-- For a waiting counter whose count is below `2 ^ 63 - 1`: a full counter makes `connect`
return the counter's error with nothing changed and no call made, and otherwise the counter
after `connect` is the counter before it. -/
theorem BaseMqttSender.connect_restores_small_counter {δ : Type} (env : MqttEnv δ)
    (s : MqttState) (h : s.ctx.mqttConnectionWaitingCounter.count + 1 < intBound) :
    (s.ctx.mqttConnectionWaitingCounter.count + 1 > s.ctx.mqttConnectionWaitingCounter.maximum →
      BaseMqttSender.connect env s = (s, some (SendError.counter
        (CounterError.addExceedsMaximum s.ctx.mqttConnectionWaitingCounter.maximum)))) ∧
    (s.ctx.mqttConnectionWaitingCounter.count + 1 ≤ s.ctx.mqttConnectionWaitingCounter.maximum →
      (BaseMqttSender.connect env s).1.ctx.mqttConnectionWaitingCounter =
        s.ctx.mqttConnectionWaitingCounter) := by
  obtain ⟨h1, h2⟩ := AtomicCounter.add_one_subtract_one s.ctx.mqttConnectionWaitingCounter h
  constructor
  · intro hgt
    exact BaseMqttSender.connect_of_add_error env s _ (by rw [h1 hgt])
  · intro hle
    rw [BaseMqttSender.connect_counter env s (h2 hle).1, (h2 hle).2]

end Xpert
namespace Xpert

/-- The error of `connect` on a path that passed the increment is the error of its locked
part, which is never the counter's error. -/
theorem BaseMqttSender.connect_error_of_add_ok {δ : Type} (env : MqttEnv δ) (s : MqttState)
    (h : (s.ctx.mqttConnectionWaitingCounter.Add 1).2 = none) :
    (BaseMqttSender.connect env s).2 =
      (BaseMqttSender.connectLocked env { s with ctx := { s.ctx with
        mqttConnectionWaitingCounter := (s.ctx.mqttConnectionWaitingCounter.Add 1).1 } }).2 ∧
    ∀ e, (BaseMqttSender.connect env s).2 ≠ some (SendError.counter e) := by
  have h1 : (BaseMqttSender.connect env s).2 =
      (BaseMqttSender.connectLocked env { s with ctx := { s.ctx with
        mqttConnectionWaitingCounter := (s.ctx.mqttConnectionWaitingCounter.Add 1).1 } }).2 := by
    unfold BaseMqttSender.connect
    simp only [h]
  refine ⟨h1, ?_⟩
  intro e
  rw [h1]
  unfold BaseMqttSender.connectLocked
  split
  · simp
  · simp only
    split_ifs
    · simp
    · simp
    · split <;> simp

/-- C17: the waiting counter of a `connect` call is a counter with `count ≤ maximum` whose
maximum is below `2 ^ 63 - 1` (the runtime's counter has the maximum
`DefaultCounterMaximum`, and `connect` changes it by `Add(1)` and `Subtract(1)` only). If
it is at its maximum, `connect` returns the counter's error and leaves the whole state as it
was: no `client.Connect` call, the counter unchanged. Otherwise the counter after `connect`
is the counter before the call, whatever the outcome of the locked part (client nil, already
connected, connect timeout, connect error, success), whose error `connect` returns. -/
theorem connect_keeps_waiting_counter {δ : Type} (env : MqttEnv δ) (s : MqttState)
    (hmax : s.ctx.mqttConnectionWaitingCounter.maximum + 1 < intBound)
    (hcount : s.ctx.mqttConnectionWaitingCounter.count
      ≤ s.ctx.mqttConnectionWaitingCounter.maximum) :
    (s.ctx.mqttConnectionWaitingCounter.count = s.ctx.mqttConnectionWaitingCounter.maximum →
      BaseMqttSender.connect env s = (s, some (SendError.counter
        (CounterError.addExceedsMaximum s.ctx.mqttConnectionWaitingCounter.maximum)))) ∧
    (s.ctx.mqttConnectionWaitingCounter.count < s.ctx.mqttConnectionWaitingCounter.maximum →
      (BaseMqttSender.connect env s).1.ctx.mqttConnectionWaitingCounter =
        s.ctx.mqttConnectionWaitingCounter ∧
      (BaseMqttSender.connect env s).2 =
        (BaseMqttSender.connectLocked env { s with ctx := { s.ctx with
          mqttConnectionWaitingCounter :=
            { s.ctx.mqttConnectionWaitingCounter with
              count := s.ctx.mqttConnectionWaitingCounter.count + 1 } } }).2 ∧
      ∀ e, (BaseMqttSender.connect env s).2 ≠ some (SendError.counter e)) := by
  have hsmall : s.ctx.mqttConnectionWaitingCounter.count + 1 < intBound := by omega
  obtain ⟨h1, h2⟩ := BaseMqttSender.connect_restores_small_counter env s hsmall
  obtain ⟨a1, a2⟩ := AtomicCounter.add_one_subtract_one s.ctx.mqttConnectionWaitingCounter hsmall
  refine ⟨fun heq => h1 (by omega), fun hlt => ?_⟩
  have hu : IsUint (s.ctx.mqttConnectionWaitingCounter.count + 1) := by
    unfold IsUint
    rw [uintSize_eq]
    rw [intBound_eq] at hsmall
    omega
  have hadd : (s.ctx.mqttConnectionWaitingCounter.Add 1).1 =
      { s.ctx.mqttConnectionWaitingCounter with
        count := s.ctx.mqttConnectionWaitingCounter.count + 1 } := by
    rw [AtomicCounter.Add_of_no_wrap _ 1 hu]
    have hng : ¬ s.ctx.mqttConnectionWaitingCounter.count + 1
        > s.ctx.mqttConnectionWaitingCounter.maximum := by omega
    simp only [hng, if_false]
  obtain ⟨b1, b2⟩ := BaseMqttSender.connect_error_of_add_ok env s (a2 (by omega)).1
  rw [hadd] at b1
  exact ⟨h2 (by omega), b1, b2⟩

/-- With the runtime's maximum `DefaultCounterMaximum`: a counter at `100` makes `connect`
return the counter's error with the state unchanged, and a counter at `99` is `99` again
after a `connect` whose token timed out. -/
theorem connect_keeps_waiting_counter_witness :
    (DefaultCounterMaximum + 1 < intBound ∧ (99 : Nat) < DefaultCounterMaximum) ∧
    BaseMqttSender.connect unreachableBrokerEnv
        (waitingCounterState (NewCounter DefaultCounterMaximum DefaultCounterMaximum)) =
      (waitingCounterState (NewCounter DefaultCounterMaximum DefaultCounterMaximum),
        some (SendError.counter (CounterError.addExceedsMaximum DefaultCounterMaximum))) ∧
    (BaseMqttSender.connect unreachableBrokerEnv
        (waitingCounterState (NewCounter DefaultCounterMaximum 99))).1.ctx.mqttConnectionWaitingCounter
      = NewCounter DefaultCounterMaximum 99 ∧
    (BaseMqttSender.connect unreachableBrokerEnv
        (waitingCounterState (NewCounter DefaultCounterMaximum 99))).2
      = some (SendError.connectTimeout "aaa://unreachable:1111") :=
  ⟨by decide,
    (connect_keeps_waiting_counter unreachableBrokerEnv
      (waitingCounterState (NewCounter DefaultCounterMaximum DefaultCounterMaximum))
      (by decide) (by decide)).1 rfl,
    ((connect_keeps_waiting_counter unreachableBrokerEnv
      (waitingCounterState (NewCounter DefaultCounterMaximum 99))
      (by decide) (by decide)).2 (by decide)).1,
    by decide⟩

/-- Outside that range the arithmetic of `Add` and `Subtract` wraps. With a waiting counter at
`2 ^ 63` of maximum `2 ^ 64 - 1` the increment succeeds, the connect token times out, and the
counter after `connect` is `0` instead of `2 ^ 63`; with a counter at its maximum
`2 ^ 64 - 1` the increment wraps to `0` without error, so `connect` calls `client.Connect`
and leaves the counter at `0`. With the default maximum a full counter is refused. -/
theorem connect_counter_wraps :
    ((BaseMqttSender.connect unreachableBrokerEnv
        (waitingCounterState (NewCounter (2 ^ 64 - 1) (2 ^ 63)))).2 =
      some (SendError.connectTimeout "aaa://unreachable:1111") ∧
     (BaseMqttSender.connect unreachableBrokerEnv
        (waitingCounterState (NewCounter (2 ^ 64 - 1) (2 ^ 63)))).1.ctx.mqttConnectionWaitingCounter
          = NewCounter (2 ^ 64 - 1) 0) ∧
    ((BaseMqttSender.connect unreachableBrokerEnv
        (waitingCounterState (NewCounter (2 ^ 64 - 1) (2 ^ 64 - 1)))).2 =
      some (SendError.connectTimeout "aaa://unreachable:1111") ∧
     (BaseMqttSender.connect unreachableBrokerEnv
        (waitingCounterState (NewCounter (2 ^ 64 - 1) (2 ^ 64 - 1)))).1.world.calls =
      [MqttCall.connect 3] ∧
     (BaseMqttSender.connect unreachableBrokerEnv
        (waitingCounterState (NewCounter (2 ^ 64 - 1) (2 ^ 64 - 1)))).1.ctx.mqttConnectionWaitingCounter
          = NewCounter (2 ^ 64 - 1) 0) ∧
    BaseMqttSender.connect unreachableBrokerEnv
        (waitingCounterState (NewCounter DefaultCounterMaximum DefaultCounterMaximum)) =
      (waitingCounterState (NewCounter DefaultCounterMaximum DefaultCounterMaximum),
        some (SendError.counter (CounterError.addExceedsMaximum DefaultCounterMaximum))) := by
  decide

/-! ## The other configuration loaders -/

theorem LoadRegularMQTTConfig.qos_range (k : ParamNames) (parameters : Params) (q : Int)
    (h : LoadRegularMQTTConfig.qos k parameters = .ok q) : 0 ≤ q ∧ q ≤ 2 := by
  unfold LoadRegularMQTTConfig.qos at h
  split at h
  · cases h; decide
  · split at h
    · cases h
    · split_ifs at h with hq
      cases h
      omega

/-- The claim of C18 for `LoadRegularMQTTConfig`: an accepted parameter map yields a `QoS`
of `0`, `1` or `2`. -/
theorem LoadRegularMQTTConfig_accepted_qos (k : ParamNames) (parameters : Params)
    (h : (LoadRegularMQTTConfig k parameters).2.2 = none) :
    (LoadRegularMQTTConfig k parameters).1.QoS ∈ [0, 1, 2] := by
  cases hq : LoadRegularMQTTConfig.qos k parameters with
  | error e =>
    exfalso
    unfold LoadRegularMQTTConfig at h
    simp only [hq] at h
    repeat' split at h
    all_goals simp at h
  | ok q =>
    obtain ⟨h0, h2⟩ := LoadRegularMQTTConfig.qos_range k parameters q hq
    have hbyte : intToByte q ∈ [0, 1, 2] := by
      have : q = 0 ∨ q = 1 ∨ q = 2 := by omega
      rcases this with rfl | rfl | rfl <;> decide
    unfold LoadRegularMQTTConfig at h ⊢
    simp only [hq] at h ⊢
    repeat' split at h
    all_goals first
      | (simp at h; done)
      | simp only [*]

/-- C18: `LoadAzureMQTTConfig` and `LoadIBMMQTTConfig` do not check the range of `qos`. With
every mandatory parameter present, `LoadAzureMQTTConfig` accepts `qos = "3"` with `QoS = 3`
and `qos = "256"` with `QoS = byte(256) = 0`, and `LoadIBMMQTTConfig` accepts `qos = "-1"`
with `QoS = byte(-1) = 255`; `LoadRegularMQTTConfig` rejects `"3"`, `"-1"` and `"256"`. -/
theorem azure_ibm_config_accept_any_qos :
    (Atoi "3" = some 3 ∧
     (LoadAzureMQTTConfig sampleStdLib sampleParamNames (mqttTestParameters "3")).2.2 = none ∧
     (LoadAzureMQTTConfig sampleStdLib sampleParamNames (mqttTestParameters "3")).1.QoS = 3) ∧
    (Atoi "256" = some 256 ∧
     (LoadAzureMQTTConfig sampleStdLib sampleParamNames (mqttTestParameters "256")).2.2 = none ∧
     (LoadAzureMQTTConfig sampleStdLib sampleParamNames (mqttTestParameters "256")).1.QoS = 0) ∧
    (Atoi "-1" = some (-1) ∧
     (LoadIBMMQTTConfig sampleParamNames (mqttTestParameters "-1")).2.2 = none ∧
     (LoadIBMMQTTConfig sampleParamNames (mqttTestParameters "-1")).1.QoS = 255) ∧
    ((LoadRegularMQTTConfig sampleParamNames (mqttTestParameters "3")).2.2 =
        some (ConfigError.unsupportedQoS 3) ∧
     (LoadRegularMQTTConfig sampleParamNames (mqttTestParameters "-1")).2.2 =
        some (ConfigError.unsupportedQoS (-1)) ∧
     (LoadRegularMQTTConfig sampleParamNames (mqttTestParameters "256")).2.2 =
        some (ConfigError.unsupportedQoS 256)) := by
  decide

end Xpert
namespace Xpert

/-! ## `RegularMqttClientFactory` -/

/-- C20: `configureMQTTClientForAuth` sets the username on the shared options object only
when the current secrets have one, so an earlier username stays. A factory for
client-certificate authentication whose first `Create` received the username `alice` has the
same configuration as a new factory, yet with the rotated secrets (new key pair, no
username) its `Create` builds a client with `Username = "alice"`, while the new factory
builds one with an empty username. -/
theorem regular_factory_carries_username_over :
    ((RegularMqttClientFactory.Create (secretStore secretsBeforeRotation)
        (NewRegularMqttClientFactory clientCertConfig)).1.authMode =
        (NewRegularMqttClientFactory clientCertConfig).authMode ∧
     (RegularMqttClientFactory.Create (secretStore secretsBeforeRotation)
        (NewRegularMqttClientFactory clientCertConfig)).1.secretPath =
        (NewRegularMqttClientFactory clientCertConfig).secretPath ∧
     (RegularMqttClientFactory.Create (secretStore secretsBeforeRotation)
        (NewRegularMqttClientFactory clientCertConfig)).1.skipCertVerify =
        (NewRegularMqttClientFactory clientCertConfig).skipCertVerify) ∧
    (RegularMqttClientFactory.Create (secretStore secretsAfterRotation)
        (NewRegularMqttClientFactory clientCertConfig)).2 =
      .ok (optionsAfterRotation "") ∧
    (RegularMqttClientFactory.Create (secretStore secretsAfterRotation)
        (RegularMqttClientFactory.Create (secretStore secretsBeforeRotation)
          (NewRegularMqttClientFactory clientCertConfig)).1).2 =
      .ok (optionsAfterRotation "alice") :=
  ⟨⟨rfl, rfl, rfl⟩, rfl, rfl⟩

end Xpert
namespace Xpert

/-! ## Failures that are not retried -/

/-- The fields that `initializeMQTTClient` leaves as they are. -/
theorem BaseMqttSender.initializeMQTTClient_retryData {δ : Type} (env : MqttEnv δ)
    (s : MqttState) :
    (BaseMqttSender.initializeMQTTClient env s).1.ctx.retryData = s.ctx.retryData ∧
    (BaseMqttSender.initializeMQTTClient env s).1.ctx.secretsLastUpdated
      = s.ctx.secretsLastUpdated ∧
    (BaseMqttSender.initializeMQTTClient env s).1.ctx.mqttConnectionWaitingCounter
      = s.ctx.mqttConnectionWaitingCounter ∧
    (BaseMqttSender.initializeMQTTClient env s).1.sender.persistOnError
      = s.sender.persistOnError ∧
    (BaseMqttSender.initializeMQTTClient env s).1.sender.usingSharedClient
      = s.sender.usingSharedClient := by
  unfold BaseMqttSender.initializeMQTTClient
  simp only
  split_ifs <;> first
    | exact ⟨rfl, rfl, rfl, rfl, rfl⟩
    | (split <;> exact ⟨rfl, rfl, rfl, rfl, rfl⟩)

theorem BaseMqttSender.connectLocked_error {δ : Type} (env : MqttEnv δ) (s : MqttState)
    (e : SendError) (h : (BaseMqttSender.connectLocked env s).2 = some e) :
    e = SendError.clientNotInitialized ∨ e.isTransportFailure = true := by
  unfold BaseMqttSender.connectLocked at h
  split at h
  · simp at h; exact Or.inl h.symm
  · split_ifs at h
    all_goals first
      | (simp at h; done)
      | (simp at h; subst h; exact Or.inr rfl)
      | (split at h <;> first
          | (simp at h; done)
          | (simp at h; subst h; exact Or.inr rfl))

theorem BaseMqttSender.connect_error {δ : Type} (env : MqttEnv δ) (s : MqttState)
    (e : SendError) (h : (BaseMqttSender.connect env s).2 = some e) :
    e = SendError.clientNotInitialized ∨ e.isTransportFailure = true := by
  unfold BaseMqttSender.connect at h
  simp only at h
  split at h
  · simp at h; subst h; exact Or.inr rfl
  · exact BaseMqttSender.connectLocked_error env _ e h

theorem BaseMqttSender.connect_error_of_client {δ : Type} (env : MqttEnv δ) (s : MqttState)
    (client : ClientId) (e : SendError) (hcl : s.sender.client = some client)
    (h : (BaseMqttSender.connect env s).2 = some e) : e.isTransportFailure = true := by
  unfold BaseMqttSender.connect at h
  simp only at h
  split at h
  · simp at h; subst h; rfl
  · rcases BaseMqttSender.connectLocked_error env _ e h with h1 | h1
    · exfalso
      subst h1
      revert h
      unfold BaseMqttSender.connectLocked
      simp only [hcl]
      split_ifs
      · simp
      · simp
      · split <;> simp
    · exact h1

theorem BaseMqttSender.publishMessage_nontransport {δ : Type} (env : MqttEnv δ)
    (s : MqttState) (b : Bytes) (client : ClientId) (e : SendError)
    (h : (BaseMqttSender.publishMessage env s b client).2 = some e)
    (hk : e.isTransportFailure = false) :
    (BaseMqttSender.publishMessage env s b client).1 = s := by
  revert h
  unfold BaseMqttSender.publishMessage
  split
  · intro _; rfl
  · simp only
    split_ifs
    · intro h
      simp only [Option.some.injEq] at h
      subst h
      simp [SendError.isTransportFailure] at hk
    · split
      · intro h
        simp only [Option.some.injEq] at h
        subst h
        simp [SendError.isTransportFailure] at hk
      · intro h
        simp at h

/-- When `publish` returns an error other than that of a failed `connect` or of a failed
publish token (that is, the client is nil or the topic substitution failed), the retry data
is what it was before. -/
theorem BaseMqttSender.publish_nontransport {δ : Type} (env : MqttEnv δ) (s : MqttState)
    (b : Bytes) (e : SendError)
    (h : (BaseMqttSender.publish env s b).2 = some e)
    (hk : e.isTransportFailure = false) :
    (BaseMqttSender.publish env s b).1.ctx.RetryData = s.ctx.RetryData := by
  cases hcl : s.sender.client with
  | none => simp [BaseMqttSender.publish, hcl]
  | some client =>
    rw [BaseMqttSender.publish_of_client env s b client hcl] at h ⊢
    obtain ⟨_, _, _, h4⟩ := BaseMqttSender.publishConnect_spec env s b client
    cases hpc : (BaseMqttSender.publishConnect env s b client).2 with
    | some e' =>
      exfalso
      simp only [hpc, Option.some.injEq] at h
      subst h
      cases hconn : s.world.IsConnected client with
      | true =>
        rw [BaseMqttSender.publishConnect_of_connected env s b client hconn] at hpc
        simp at hpc
      | false =>
        cases hc : (BaseMqttSender.connect env s).2 with
        | none =>
          rw [BaseMqttSender.publishConnect_of_connect_ok env s b client hconn hc] at hpc
          simp at hpc
        | some e =>
          rw [BaseMqttSender.publishConnect_of_connect_error env s b client e hconn hc] at hpc
          simp only [Option.some.injEq] at hpc
          subst hpc
          rw [BaseMqttSender.connect_error_of_client env s client _ hcl hc] at hk
          simp at hk
    | none =>
      simp only [hpc] at h ⊢
      rw [hpc] at h4
      rw [BaseMqttSender.publishMessage_nontransport env _ b client e h hk, h4]
      simp

/-- The Regular, Azure and Watson senders: a `Send` that returns an
error other than that of a failed `connect` or of a failed publish token (so the error of a
failed client creation or of a failed topic substitution among others) returns `false` and
leaves the retry data as it was. -/
theorem RegularMQTTSender.Send_nontransport {δ : Type} (env : MqttEnv δ) (s : MqttState)
    (d : δ) (e : SendError)
    (h : (RegularMQTTSender.Send env s (some d)).2.2 = Result.error e)
    (hk : e.isTransportFailure = false) :
    (RegularMQTTSender.Send env s (some d)).2.1 = false ∧
    (RegularMQTTSender.Send env s (some d)).1.ctx.RetryData = s.ctx.RetryData ∧
    (AzureIoTHubMQTTSender.Send env s (some d)) = RegularMQTTSender.Send env s (some d) ∧
    (IBMWatsonMQTTSender.Send env s (some d)) = RegularMQTTSender.Send env s (some d) := by
  refine ⟨?_, ?_, rfl, rfl⟩
  · revert h
    unfold RegularMQTTSender.Send
    simp only
    split
    · intro _; rfl
    · split
      · intro _; rfl
      · split
        · intro _; rfl
        · intro h; simp at h
  · revert h
    unfold RegularMQTTSender.Send
    simp only
    split
    · intro _; rfl
    · rename_i b _
      have hinit : (if s.sender.client.isNone ||
            decide (s.sender.secretsLastRetrieved < s.ctx.SecretsLastUpdated) then
          BaseMqttSender.initializeMQTTClient env s
        else (s, none)).1.ctx.RetryData = s.ctx.RetryData := by
        split_ifs
        · exact (BaseMqttSender.initializeMQTTClient_retryData env s).1
        · rfl
      split
      · intro _; exact hinit
      · split
        · rename_i e' he'
          intro h
          simp only [Result.error.injEq] at h
          subst h
          rw [BaseMqttSender.publish_nontransport env _ b _ he' hk, hinit]
        · intro h; simp at h

end Xpert

namespace Xpert

/-! ## C12: the AWS sender stages retry data for every failed publish -/

/-- C12 (code deviates from the claim and from its sibling senders): `AWSIoTCoreMQTTSender.Send`
stages retry data for failures that are not retried elsewhere. The sender has
`persistOnError=true`, no client yet and nil retry data. When the client factory fails
(secret retrieval or validation), `mqttPublish` returns that error without any `Connect` or
`Publish` call, and `Send` still stages the marshalled data, for a single item and for a
batch alike; the same holds when `ApplyValues` on the topic fails. The Regular sender on the
same input and collaborators stages nothing. -/
theorem aws_send_stages_retry_data_on_secret_failure :
    newSenderState.ctx.RetryData = none ∧
    newSenderState.sender.persistOnError = true ∧
    (AWSIoTCoreMQTTSender.mqttPublish (brokerEnv true (.error "secret")) newSenderState
        (stringBytes "\"data\"")).2 = some (SendError.factory "secret") ∧
    (AWSIoTCoreMQTTSender.mqttPublish (brokerEnv true (.error "secret")) newSenderState
        (stringBytes "\"data\"")).1.world.calls = [MqttCall.create] ∧
    (AWSIoTCoreMQTTSender.Send itemCodec (fun _ => brokerEnv true (.error "secret"))
        newSenderState (some (AwsData.single (Item.text "data")))).2.1 = false ∧
    (AWSIoTCoreMQTTSender.Send itemCodec (fun _ => brokerEnv true (.error "secret"))
        newSenderState (some (AwsData.single (Item.text "data")))).1.ctx.RetryData
      = stringBytes "\"data\"" ∧
    (AWSIoTCoreMQTTSender.Send itemCodec (fun _ => brokerEnv true (.error "secret"))
        newSenderState (some (AwsData.batch [Item.raw [97], Item.raw [98]]))).1.ctx.RetryData
      = stringBytes "[\"YQ==\",\"Yg==\"]" ∧
    (AWSIoTCoreMQTTSender.mqttPublish
        { brokerEnv true (.ok 7) with applyValues := fun _ => .error "no value" }
        newSenderState (stringBytes "\"data\"")).2 = some (SendError.applyValues "no value") ∧
    (AWSIoTCoreMQTTSender.Send itemCodec
        (fun _ => { brokerEnv true (.ok 7) with applyValues := fun _ => .error "no value" })
        newSenderState (some (AwsData.single (Item.text "data")))).1.ctx.RetryData
      = stringBytes "\"data\"" ∧
    (RegularMQTTSender.Send (brokerEnv true (.error "secret")) newSenderState
        (some (Item.text "data"))).2.1 = false ∧
    (RegularMQTTSender.Send (brokerEnv true (.error "secret")) newSenderState
        (some (Item.text "data"))).1.ctx.RetryData = none := by
  decide

/-! ## C14: what a resend of the staged batch publishes -/

/-- C14 (code deviates from the claim): the retry data staged for a failed batch does not
carry the failed payloads themselves. Of the batch `[a, b, c]` (one byte each) the first
item is published and the publish tokens of the other two time out; the staged retry data is
the JSON array `["Yg==","Yw=="]` of the base64 texts of `b` and `c`. Sending the staged bytes
again on the same sender publishes the four-byte texts `Yg==` and `Yw==`, not the payloads
`b` and `c`, and returns `true`. -/
theorem aws_batch_retry_data_resends_base64_text :
    publishedPayloads
        (AWSIoTCoreMQTTSender.Send itemCodec
          (fun i => { brokerEnv true (.ok 7) with publishWait := decide (i = 0) })
          newSenderState
          (some (AwsData.batch [Item.raw [97], Item.raw [98], Item.raw [99]]))).1.world.calls
      = [some [97], some [98], some [99]] ∧
    (AWSIoTCoreMQTTSender.Send itemCodec
        (fun i => { brokerEnv true (.ok 7) with publishWait := decide (i = 0) })
        newSenderState
        (some (AwsData.batch [Item.raw [97], Item.raw [98], Item.raw [99]]))).1.ctx.RetryData
      = stringBytes "[\"Yg==\",\"Yw==\"]" ∧
    publishedPayloads
        (AWSIoTCoreMQTTSender.Send itemCodec (fun _ => brokerEnv true (.ok 7))
          (AWSIoTCoreMQTTSender.Send itemCodec
            (fun i => { brokerEnv true (.ok 7) with publishWait := decide (i = 0) })
            newSenderState
            (some (AwsData.batch [Item.raw [97], Item.raw [98], Item.raw [99]]))).1
          (some (AwsData.bytes (stringBytes "[\"Yg==\",\"Yw==\"]")))).1.world.calls
      = [some [97], some [98], some [99], stringBytes "Yg==", stringBytes "Yw=="] ∧
    [stringBytes "Yg==", stringBytes "Yw=="] ≠ [some [98], some [99]] ∧
    (AWSIoTCoreMQTTSender.Send itemCodec (fun _ => brokerEnv true (.ok 7))
        (AWSIoTCoreMQTTSender.Send itemCodec
          (fun i => { brokerEnv true (.ok 7) with publishWait := decide (i = 0) })
          newSenderState
          (some (AwsData.batch [Item.raw [97], Item.raw [98], Item.raw [99]]))).1
        (some (AwsData.bytes (stringBytes "[\"Yg==\",\"Yw==\"]")))).2.1 = true := by
  decide

/-! ## The HTTP sender: failures before the request is sent -/

/-- The HTTP sender: when `initialize` fails, `HTTPSend` returns `false` with that error and
the context (so the retry data) is what it was before. -/
theorem HTTPSender.HTTPSend_of_initialize_error {δ : Type} (env : HttpEnv δ) (s : HttpState)
    (d : δ) (exportData : Bytes) (e : HttpError)
    (hco : env.coerceType d = .ok exportData)
    (hi : (HTTPSender.ensureInitialized env s).2 = some e) :
    (HTTPSender.HTTPSend env s (some d)).2 = (false, Result.error e) ∧
    (HTTPSender.HTTPSend env s (some d)).1.ctx = s.ctx := by
  simp only [HTTPSender.HTTPSend, hco, hi, true_and]
  exact (HTTPSender.ensureInitialized_frame env s).1

/-- The HTTP sender: when the request cannot be prepared (`ApplyValues` fails on the URL or
a header, among others), `HTTPSend` returns `false` with that error and the context (so the
retry data) is what it was before. -/
theorem HTTPSender.HTTPSend_of_prepare_error {δ : Type} (env : HttpEnv δ) (s : HttpState)
    (d : δ) (exportData : Bytes) (e : HttpError)
    (hco : env.coerceType d = .ok exportData)
    (hi : (HTTPSender.ensureInitialized env s).2 = none)
    (hp : HTTPSender.prepareHTTPRequest env (HTTPSender.ensureInitialized env s).1.sender
        exportData = .error e) :
    (HTTPSender.HTTPSend env s (some d)).2 = (false, Result.error e) ∧
    (HTTPSender.HTTPSend env s (some d)).1.ctx = s.ctx := by
  simp only [HTTPSender.HTTPSend, hco, hi, hp, true_and]
  exact (HTTPSender.ensureInitialized_frame env s).1

end Xpert

namespace Xpert

/-! ## C13: the initialization condition after a failed initialization -/

/-- When `initializeMQTTClient` returns an error, the sender afterwards still satisfies the
initialization condition: its client is nil or its secrets were retrieved before the last
update. -/
theorem BaseMqttSender.initializeMQTTClient_error_condition {δ : Type} (env : MqttEnv δ)
    (s : MqttState) (e : SendError)
    (h : (BaseMqttSender.initializeMQTTClient env s).2 = some e) :
    ((BaseMqttSender.initializeMQTTClient env s).1.sender.client.isNone ||
      decide ((BaseMqttSender.initializeMQTTClient env s).1.sender.secretsLastRetrieved <
        (BaseMqttSender.initializeMQTTClient env s).1.ctx.SecretsLastUpdated)) = true := by
  revert h
  unfold BaseMqttSender.initializeMQTTClient
  simp only
  split_ifs with h1 h2 h3
  · simp
  · split
    · intro _
      revert h2
      cases s.ctx.sharedMQTTClient.Get.1 <;> simp [AppContext.SecretsLastUpdated]
    · simp [h1]
  · simp
  · split
    · intro _
      revert h3
      cases s.sender.client <;> simp [AppContext.SecretsLastUpdated]
    · simp [h1]

/-- When `initializeInfluxDBClient` returns an error, the writer is as it was before and
satisfies the initialization condition. -/
theorem influxDBWriter.initializeInfluxDBClient_error_condition {ε π : Type}
    (env : InfluxEnv ε π) (ctx : AppContext) (writer : influxDBWriter) (e : WriteError)
    (h : (influxDBWriter.initializeInfluxDBClient env ctx writer).2 = some e) :
    (influxDBWriter.initializeInfluxDBClient env ctx writer).1 = writer ∧
    (writer.client.isNone ||
      decide (writer.secretsLastRetrieved < ctx.SecretsLastUpdated)) = true := by
  revert h
  unfold influxDBWriter.initializeInfluxDBClient
  split_ifs with h1
  · simp
  all_goals
    intro h
    refine ⟨?_, by revert h1; cases writer.client <;> simp⟩
    revert h
    simp only
    first
      | (intro h; exact h.elim)
      | (split
         · intro _; rfl
         · simp)

/-- C13 (code deviates from the claim and from the MQTT and InfluxDB initializations): a
failed rebuild of an existing client leaves the HTTP sender and the Postgres writer outside
the initialization condition. Both hold a client built at time `1`, the secrets were updated
at time `2`, and the rotated secrets lack a required secret. The first `HTTPSend` and the
first `PostgresWrite` return `false` with the secret error, yet afterwards the old client is
still set and `secretsLastRetrieved` is the time `9` of the failed attempt, not before the
last update. The next call does not attempt the initialization again: `HTTPSend` sends the
request (answered `404` here) and `PostgresWrite` writes through the old pool `1`. -/
theorem failed_rebuild_leaves_initialization_condition :
    ((HTTPSender.HTTPSend notFoundEnv connectedHttpState (some "data")).2.1 = false ∧
      (HTTPSender.HTTPSend notFoundEnv connectedHttpState (some "data")).2.2.err
        = some (HttpError.secretNotFound "token" HTTPAuthModeHeaderSecret) ∧
      (HTTPSender.HTTPSend notFoundEnv connectedHttpState (some "data")).1.sender.client
        = some 1 ∧
      (HTTPSender.HTTPSend notFoundEnv connectedHttpState
        (some "data")).1.sender.secretsLastRetrieved = 9 ∧
      (HTTPSender.HTTPSend notFoundEnv connectedHttpState
        (some "data")).1.ctx.SecretsLastUpdated = 2 ∧
      (HTTPSender.HTTPSend notFoundEnv
        (HTTPSender.HTTPSend notFoundEnv connectedHttpState (some "data")).1
        (some "data")).2.2.err = some (HttpError.statusCode 404)) ∧
    ((postgresWriter.PostgresWrite (postgresEnv [("username", "u")]) connectedPostgresState
        (some (WriterInput.event "e1"))).2.1 = false ∧
      (postgresWriter.PostgresWrite (postgresEnv [("username", "u")]) connectedPostgresState
        (some (WriterInput.event "e1"))).2.2.err
        = some (WriteError.secretNotFound SecretPasswordKey) ∧
      (postgresWriter.PostgresWrite (postgresEnv [("username", "u")]) connectedPostgresState
        (some (WriterInput.event "e1"))).1.writer.conn = some 1 ∧
      (postgresWriter.PostgresWrite (postgresEnv [("username", "u")]) connectedPostgresState
        (some (WriterInput.event "e1"))).1.writer.secretsLastRetrieved = 9 ∧
      (postgresWriter.PostgresWrite (postgresEnv [("username", "u")]) connectedPostgresState
        (some (WriterInput.event "e1"))).1.ctx.SecretsLastUpdated = 2 ∧
      (postgresWriter.PostgresWrite (postgresEnv [("username", "u")])
        (postgresWriter.PostgresWrite (postgresEnv [("username", "u")]) connectedPostgresState
          (some (WriterInput.event "e1"))).1
        (some (WriterInput.event "e1"))).2.1 = true ∧
      (postgresWriter.PostgresWrite (postgresEnv [("username", "u")])
        (postgresWriter.PostgresWrite (postgresEnv [("username", "u")]) connectedPostgresState
          (some (WriterInput.event "e1"))).1
        (some (WriterInput.event "e1"))).1.batches = [(1, ["e1"])]) := by
  decide

end Xpert

namespace Xpert

/-! ## C15, C16: the type detection of the database writers -/

theorem batchedEvents_events {ε : Type} (acc events : List ε) :
    batchedEvents acc (events.map BatchItem.event) = .ok (acc ++ events) := by
  induction events generalizing acc with
  | nil => simp [batchedEvents]
  | cons e rest ih => simp [batchedEvents, ih]

theorem batchedEvents_other {ε : Type} (acc events : List ε) (typeName : String)
    (rest : List (BatchItem ε)) :
    batchedEvents acc (events.map BatchItem.event ++ BatchItem.other typeName :: rest)
      = .error typeName := by
  induction events generalizing acc with
  | nil => simp [batchedEvents]
  | cons e more ih => simp [batchedEvents, ih]

/-- A `[]byte` that decodes into a `[]dtos.Event` is written by `InfluxDBSyncWrite` like
these events. -/
theorem influxDBWriter.InfluxDBSyncWrite_bytes_of_events {ε π : Type} (env : InfluxEnv ε π)
    (s : InfluxState π) (d : Bytes) (events : List ε)
    (h : env.unmarshalEvents d = .ok events) :
    influxDBWriter.InfluxDBSyncWrite env s (some (WriterInput.bytes d))
      = influxDBWriter.InfluxDBSyncWrite env s (some (WriterInput.events events)) := by
  simp [influxDBWriter.InfluxDBSyncWrite, h]

/-- A `[]byte` that does not decode into a `[]dtos.Event` but decodes into a `dtos.Event` is
written by `InfluxDBSyncWrite` like this event. -/
theorem influxDBWriter.InfluxDBSyncWrite_bytes_of_event {ε π : Type} (env : InfluxEnv ε π)
    (s : InfluxState π) (d : Bytes) (cause : String) (event : ε)
    (h : env.unmarshalEvents d = .error cause) (h1 : env.unmarshalEvent d = .ok event) :
    influxDBWriter.InfluxDBSyncWrite env s (some (WriterInput.bytes d))
      = influxDBWriter.InfluxDBSyncWrite env s (some (WriterInput.event event)) := by
  simp [influxDBWriter.InfluxDBSyncWrite, h, h1]

/-- A `[]byte` that decodes neither way is refused by `InfluxDBSyncWrite`. -/
theorem influxDBWriter.InfluxDBSyncWrite_bytes_of_neither {ε π : Type} (env : InfluxEnv ε π)
    (s : InfluxState π) (d : Bytes) (cause cause1 : String)
    (h : env.unmarshalEvents d = .error cause) (h1 : env.unmarshalEvent d = .error cause1) :
    influxDBWriter.InfluxDBSyncWrite env s (some (WriterInput.bytes d))
      = (s, false, Result.error WriteError.notAnEventOrEvents) := by
  simp [influxDBWriter.InfluxDBSyncWrite, h, h1]

/-- A `[]byte` that decodes into a `[]dtos.Event` is written by `PostgresWrite` like these
events. -/
theorem postgresWriter.PostgresWrite_bytes_of_events {ε : Type} (env : PostgresEnv ε)
    (s : PostgresState ε) (d : Bytes) (events : List ε)
    (h : env.unmarshalEvents d = .ok events) :
    postgresWriter.PostgresWrite env s (some (WriterInput.bytes d))
      = postgresWriter.PostgresWrite env s (some (WriterInput.events events)) := by
  simp [postgresWriter.PostgresWrite, h]

/-- A `[]byte` that does not decode into a `[]dtos.Event` is refused by `PostgresWrite` with
the decoder's error, whatever else it may decode into. -/
theorem postgresWriter.PostgresWrite_bytes_of_unmarshal_error {ε : Type} (env : PostgresEnv ε)
    (s : PostgresState ε) (d : Bytes) (cause : String)
    (h : env.unmarshalEvents d = .error cause) :
    postgresWriter.PostgresWrite env s (some (WriterInput.bytes d))
      = (s, false, Result.error (WriteError.unmarshal cause)) := by
  simp [postgresWriter.PostgresWrite, h]

/-- C15 (code deviates from the claim and from `InfluxDBSyncWrite`): `PostgresWrite` refuses
the JSON encoding of a single event. The bytes of the object that encodes the event `e1` do
not decode into a `[]dtos.Event` and decode into a `dtos.Event`. `InfluxDBSyncWrite` writes
the point of `e1` and returns `true`; `PostgresWrite` returns `false` with the decoder's
error and sends no batch, although it writes the same event given as a `dtos.Event`. -/
theorem postgres_write_refuses_single_event_json :
    (sampleUnmarshalEvents (stringBytes eventJson)).toOption = none ∧
    (sampleUnmarshalEvent (stringBytes eventJson)).toOption = some "e1" ∧
    (influxDBWriter.InfluxDBSyncWrite influxEnv newInfluxState
      (some (WriterInput.bytes (stringBytes eventJson)))).2.1 = true ∧
    (influxDBWriter.InfluxDBSyncWrite influxEnv newInfluxState
      (some (WriterInput.bytes (stringBytes eventJson)))).1.written = [(1, ["e1"])] ∧
    (postgresWriter.PostgresWrite (postgresEnv [("username", "u"), ("password", "p")])
      newPostgresState (some (WriterInput.bytes (stringBytes eventJson)))).2.1 = false ∧
    (postgresWriter.PostgresWrite (postgresEnv [("username", "u"), ("password", "p")])
      newPostgresState (some (WriterInput.bytes (stringBytes eventJson)))).2.2.err
      = some (WriteError.unmarshal
          "json: cannot unmarshal object into Go value of type []dtos.Event") ∧
    (postgresWriter.PostgresWrite (postgresEnv [("username", "u"), ("password", "p")])
      newPostgresState (some (WriterInput.bytes (stringBytes eventJson)))).1.batches = [] ∧
    (postgresWriter.PostgresWrite (postgresEnv [("username", "u"), ("password", "p")])
      newPostgresState (some (WriterInput.event "e1"))).2.1 = true ∧
    (postgresWriter.PostgresWrite (postgresEnv [("username", "u"), ("password", "p")])
      newPostgresState (some (WriterInput.event "e1"))).1.batches = [(2, ["e1"])] := by
  decide

/-- C16: `InfluxDBSyncWrite` given a `[]interface{}` whose items are the events `events`
ends in the same state (the same `WritePoint` calls, the same retry data, the same writer)
and returns the same flag and the same error as when given `events` as a `[]dtos.Event`;
and given a `[]interface{}` that holds an item of another type, after any events and before
any items, it returns `false` with the unsupported type error and leaves the state as it
was. -/
theorem influx_batch_of_events_writes_like_events {ε π : Type} (env : InfluxEnv ε π)
    (s : InfluxState π) (events : List ε) (typeName : String) (rest : List (BatchItem ε)) :
    (influxDBWriter.InfluxDBSyncWrite env s
        (some (WriterInput.batch (events.map BatchItem.event)))).1
      = (influxDBWriter.InfluxDBSyncWrite env s (some (WriterInput.events events))).1 ∧
    (influxDBWriter.InfluxDBSyncWrite env s
        (some (WriterInput.batch (events.map BatchItem.event)))).2.1
      = (influxDBWriter.InfluxDBSyncWrite env s (some (WriterInput.events events))).2.1 ∧
    (influxDBWriter.InfluxDBSyncWrite env s
        (some (WriterInput.batch (events.map BatchItem.event)))).2.2.err
      = (influxDBWriter.InfluxDBSyncWrite env s (some (WriterInput.events events))).2.2.err ∧
    influxDBWriter.InfluxDBSyncWrite env s
        (some (WriterInput.batch
          (events.map BatchItem.event ++ BatchItem.other typeName :: rest)))
      = (s, false, Result.error (WriteError.unsupportedDataType typeName)) := by
  have hb := batchedEvents_events ([] : List ε) events
  have ho := batchedEvents_other ([] : List ε) events typeName rest
  simp only [List.nil_append] at hb
  refine ⟨?_, ?_, ?_, ?_⟩
  · simp only [influxDBWriter.InfluxDBSyncWrite, hb, influxDBWriter.finish]
    cases (influxDBWriter.writeEventsToInfluxDB env s events).2 <;> rfl
  · simp only [influxDBWriter.InfluxDBSyncWrite, hb, influxDBWriter.finish]
    cases (influxDBWriter.writeEventsToInfluxDB env s events).2 <;> rfl
  · simp only [influxDBWriter.InfluxDBSyncWrite, hb, influxDBWriter.finish]
    cases (influxDBWriter.writeEventsToInfluxDB env s events).2 <;> rfl
  · simp only [influxDBWriter.InfluxDBSyncWrite, ho]

end Xpert

namespace Xpert

/-! ## C19: `Create` and `Connect` calls of concurrent `Send` calls -/

theorem MqttWorld.createCount_record (w : MqttWorld) (call : MqttCall)
    (h : call ≠ MqttCall.create) : (w.record call).createCount = w.createCount := by
  simp [MqttWorld.createCount, MqttWorld.record, List.filter_append, h]

theorem MqttState.keepsClient_refl (s : MqttState) : s.keepsClient s :=
  ⟨rfl, rfl, rfl, rfl, rfl, rfl⟩

theorem MqttState.keepsClient_trans {s s1 s2 : MqttState} (h : s.keepsClient s1)
    (h1 : s1.keepsClient s2) : s.keepsClient s2 := by
  obtain ⟨a1, a2, a3, a4, a5, a6⟩ := h
  obtain ⟨b1, b2, b3, b4, b5, b6⟩ := h1
  exact ⟨b1.trans a1, b2.trans a2, b3.trans a3, b4.trans a4, b5.trans a5, b6.trans a6⟩

theorem MqttState.ready_of_keepsClient {s s1 : MqttState} (h : s.keepsClient s1)
    (hr : s.ready) : s1.ready := by
  obtain ⟨a1, a2, a3, a4, a5, _⟩ := h
  obtain ⟨r1, r2, r3⟩ := hr
  refine ⟨by rw [a1]; exact r1, ?_, ?_⟩
  · simpa only [AppContext.SecretsLastUpdated, a2, a4] using r2
  · intro hu
    rw [a5, a1, a2]
    exact r3 (a3 ▸ hu)

/-- A successful `initializeMQTTClient` leaves the sender ready, provided the clock is not
behind the last update of the secrets. -/
theorem BaseMqttSender.initializeMQTTClient_ready {δ : Type} (env : MqttEnv δ) (s : MqttState)
    (hnow : s.ctx.SecretsLastUpdated ≤ env.now)
    (h : (BaseMqttSender.initializeMQTTClient env s).2 = none) :
    (BaseMqttSender.initializeMQTTClient env s).1.ready := by
  obtain ⟨⟨config, client, poe, slr, usc, msm⟩, ctx, world⟩ := s
  simp only [AppContext.SecretsLastUpdated] at hnow
  revert h
  unfold BaseMqttSender.initializeMQTTClient MqttState.ready
  cases usc
  · simp only [Bool.false_eq_true, if_false]
    split_ifs with h2
    · intro _
      simp only [Bool.and_eq_true, Bool.not_eq_true', decide_eq_false_iff_not] at h2
      exact ⟨h2.1, h2.2, fun hu => by simp at hu⟩
    · split
      · intro h; simp at h
      · intro _
        refine ⟨rfl, ?_, fun hu => by simp at hu⟩
        simp only [AppContext.SecretsLastUpdated]
        exact Nat.not_lt.mpr hnow
  · simp only [if_true]
    split_ifs with h2
    · intro _
      simp only [Bool.and_eq_true, Bool.not_eq_true', decide_eq_false_iff_not] at h2
      exact ⟨h2.1, h2.2, fun _ => rfl⟩
    · split
      · intro h; simp at h
      · intro _
        refine ⟨rfl, ?_, fun _ => ?_⟩
        · simp only [AppContext.SecretsLastUpdated]
          exact Nat.not_lt.mpr hnow
        · simp only [SharedMQTTClient.Set_fst, SharedMQTTClient.Get]

/-- On a ready sender `initializeMQTTClient` returns at its check, without a call to the
factory. -/
theorem BaseMqttSender.initializeMQTTClient_of_ready {δ : Type} (env : MqttEnv δ)
    (s : MqttState) (hr : s.ready) :
    BaseMqttSender.initializeMQTTClient env s = (s, none) := by
  obtain ⟨⟨config, client, poe, slr, usc, msm⟩, ctx, world⟩ := s
  obtain ⟨r1, r2, r3⟩ := hr
  simp only at r1 r2 r3
  unfold BaseMqttSender.initializeMQTTClient
  cases usc
  · simp only [Bool.false_eq_true, if_false, r1, r2, decide_False, Bool.not_false,
      Bool.and_self, if_true]
  · have hg := r3 rfl
    simp only [SharedMQTTClient.Get, Prod.mk.injEq] at hg
    simp only [if_true, SharedMQTTClient.Get, hg.1, hg.2, r1, r2, decide_False, Bool.not_false,
      Bool.and_self]

theorem MqttWorld.connectCount_record (w : MqttWorld) (call : MqttCall)
    (h : ∀ client, call ≠ MqttCall.connect client) :
    (w.record call).connectCount = w.connectCount := by
  cases call with
  | connect client => exact absurd rfl (h client)
  | _ => simp [MqttWorld.connectCount, MqttWorld.record, List.filter_append]

theorem MqttWorld.createCount_of_calls (w w1 : MqttWorld) (rest : List MqttCall)
    (h : w1.calls = w.calls ++ rest) (hr : MqttCall.create ∉ rest) :
    w1.createCount = w.createCount := by
  have : rest.filter (fun call => call == MqttCall.create) = [] := by
    rw [List.filter_eq_nil_iff]
    intro call hc hcall
    simp only [beq_iff_eq] at hcall
    exact hr (hcall ▸ hc)
  simp [MqttWorld.createCount, h, List.filter_append, this]

/-- The locked part of `connect` on a sender whose client reports connected returns without
a `Connect` call. -/
theorem BaseMqttSender.connectLocked_of_connected {δ : Type} (env : MqttEnv δ) (s : MqttState)
    (client : ClientId) (hc : s.sender.client = some client)
    (hconn : s.world.IsConnected client = true) :
    BaseMqttSender.connectLocked env s = (s, none) := by
  simp [BaseMqttSender.connectLocked, hc, hconn]

/-- After the locked part of `connect` has returned nil the sender's client reports
connected. -/
theorem BaseMqttSender.connectLocked_connected {δ : Type} (env : MqttEnv δ) (s : MqttState)
    (h : (BaseMqttSender.connectLocked env s).2 = none) :
    ∃ client, s.sender.client = some client ∧
      (BaseMqttSender.connectLocked env s).1.world.IsConnected client = true := by
  revert h
  unfold BaseMqttSender.connectLocked
  split
  · intro h; simp at h
  · rename_i client hcl
    split_ifs with h1 h2
    · intro _; exact ⟨client, hcl, h1⟩
    · intro h; simp at h
    · split
      · intro h; simp at h
      · intro _
        exact ⟨client, hcl, by simp [MqttWorld.IsConnected]⟩

theorem BaseMqttSender.setRetryData_keepsClient (s : MqttState) (b : Bytes) :
    s.keepsClient (BaseMqttSender.setRetryData s b) ∧
    (BaseMqttSender.setRetryData s b).world = s.world := by
  unfold BaseMqttSender.setRetryData
  split_ifs <;> exact ⟨⟨rfl, rfl, rfl, rfl, rfl, rfl⟩, rfl⟩

theorem BaseMqttSender.publishMessage_keepsClient {δ : Type} (env : MqttEnv δ) (s : MqttState)
    (b : Bytes) (client : ClientId) :
    s.keepsClient (BaseMqttSender.publishMessage env s b client).1 ∧
    (BaseMqttSender.publishMessage env s b client).1.world.connected = s.world.connected ∧
    (BaseMqttSender.publishMessage env s b client).1.world.connectCount
      = s.world.connectCount := by
  unfold BaseMqttSender.publishMessage
  split
  · exact ⟨⟨rfl, rfl, rfl, rfl, rfl, rfl⟩, rfl, rfl⟩
  · rename_i topic _
    have hcr := MqttWorld.createCount_record s.world
      (MqttCall.publish client topic s.sender.config.QoS s.sender.config.Retain b) (by simp)
    have hco := MqttWorld.connectCount_record s.world
      (MqttCall.publish client topic s.sender.config.QoS s.sender.config.Retain b) (by simp)
    simp only
    split_ifs
    · unfold BaseMqttSender.setRetryData
      split_ifs <;> exact ⟨⟨rfl, rfl, rfl, rfl, rfl, hcr⟩, rfl, hco⟩
    · split
      · unfold BaseMqttSender.setRetryData
        split_ifs <;> exact ⟨⟨rfl, rfl, rfl, rfl, rfl, hcr⟩, rfl, hco⟩
      · exact ⟨⟨rfl, rfl, rfl, rfl, rfl, hcr⟩, rfl, hco⟩

/-- Once the sender is ready, no atomic section changes its client or calls the factory. -/
theorem SendStep.apply_keepsClient {δ : Type} (step : SendStep δ) (s : MqttState)
    (hr : s.ready) : s.keepsClient (step.apply s) := by
  cases step with
  | initializeMQTTClient env =>
    simp only [SendStep.apply, BaseMqttSender.initializeMQTTClient_of_ready env s hr]
    exact s.keepsClient_refl
  | counterAdd => exact ⟨rfl, rfl, rfl, rfl, rfl, rfl⟩
  | connectLocked env =>
    obtain ⟨h1, h2, rest, h3, h4⟩ := BaseMqttSender.connectLocked_frame env s
    simp only [SendStep.apply]
    refine ⟨by rw [h1], by rw [h1], by rw [h1], by simp only [h2], by simp only [h2], ?_⟩
    exact MqttWorld.createCount_of_calls _ _ rest h3 h4
  | setRetryData b => exact (BaseMqttSender.setRetryData_keepsClient s b).1
  | publishMessage env b client =>
    exact (BaseMqttSender.publishMessage_keepsClient env s b client).1

theorem SendStep.apply_ready {δ : Type} (step : SendStep δ) (s : MqttState) (hr : s.ready) :
    (step.apply s).ready :=
  MqttState.ready_of_keepsClient (SendStep.apply_keepsClient step s hr) hr

/-- Once the sender is ready, no sequence of atomic sections calls the factory. -/
theorem runSteps_keepsClient {δ : Type} (steps : List (SendStep δ)) (s : MqttState)
    (hr : s.ready) : s.keepsClient (runSteps steps s) ∧ (runSteps steps s).ready := by
  induction steps generalizing s with
  | nil => exact ⟨s.keepsClient_refl, hr⟩
  | cons step rest ih =>
    have h1 := SendStep.apply_keepsClient step s hr
    have h2 := ih (step.apply s) (SendStep.apply_ready step s hr)
    exact ⟨MqttState.keepsClient_trans h1 h2.1, h2.2⟩

/-- Once the sender is ready and its client reports connected, no atomic section calls
`Connect`, and the client keeps reporting connected. -/
theorem SendStep.apply_readyAndConnected {δ : Type} (step : SendStep δ) (s : MqttState)
    (hr : s.readyAndConnected) :
    (step.apply s).readyAndConnected ∧
    (step.apply s).world.connectCount = s.world.connectCount := by
  obtain ⟨hready, client, hcl, hconn⟩ := hr
  have hk := SendStep.apply_keepsClient step s hready
  have hr1 := SendStep.apply_ready step s hready
  cases step with
  | initializeMQTTClient env =>
    simp only [SendStep.apply, BaseMqttSender.initializeMQTTClient_of_ready env s hready]
    exact ⟨⟨hready, client, hcl, hconn⟩, trivial⟩
  | counterAdd => exact ⟨⟨hr1, client, hcl, hconn⟩, rfl⟩
  | connectLocked env =>
    refine ⟨⟨hr1, client, ?_, ?_⟩, ?_⟩
    all_goals
      simp only [SendStep.apply,
        BaseMqttSender.connectLocked_of_connected env s client hcl hconn]
    · exact hcl
    · exact hconn
  | setRetryData b =>
    have hw := (BaseMqttSender.setRetryData_keepsClient s b).2
    refine ⟨⟨hr1, client, hk.1.trans hcl, ?_⟩, ?_⟩
    · simp only [SendStep.apply, hw]; exact hconn
    · simp only [SendStep.apply, hw]
  | publishMessage env b c =>
    obtain ⟨_, h2, h3⟩ := BaseMqttSender.publishMessage_keepsClient env s b c
    refine ⟨⟨hr1, client, hk.1.trans hcl, ?_⟩, h3⟩
    simp only [SendStep.apply, MqttWorld.IsConnected, h2]
    exact hconn

theorem runSteps_readyAndConnected {δ : Type} (steps : List (SendStep δ)) (s : MqttState)
    (hr : s.readyAndConnected) :
    (runSteps steps s).world.connectCount = s.world.connectCount := by
  induction steps generalizing s with
  | nil => rfl
  | cons step rest ih =>
    have h1 := SendStep.apply_readyAndConnected step s hr
    exact (ih (step.apply s) h1.1).trans h1.2

theorem runSteps_append {δ : Type} (steps rest : List (SendStep δ)) (s : MqttState) :
    runSteps (steps ++ rest) s = runSteps rest (runSteps steps s) := by
  simp [runSteps, List.foldl_append]

end Xpert

namespace Xpert

theorem BaseMqttSender.connect_steps {δ : Type} (env : MqttEnv δ) (s : MqttState) :
    BaseMqttSender.connect env s =
      if (s.ctx.mqttConnectionWaitingCounter.Add 1).2.isSome then
        (SendStep.apply (SendStep.counterAdd : SendStep δ) s,
          (s.ctx.mqttConnectionWaitingCounter.Add 1).2.map SendError.counter)
      else
        (runSteps [SendStep.counterAdd, SendStep.connectLocked env] s,
          (BaseMqttSender.connectLocked env
            (SendStep.apply (SendStep.counterAdd : SendStep δ) s)).2) := by
  cases h : (s.ctx.mqttConnectionWaitingCounter.Add 1).2 with
  | some e => simp [BaseMqttSender.connect, h, SendStep.apply]
  | none => simp [BaseMqttSender.connect, h, SendStep.apply, runSteps]

/-- The atomic sections of the `publish` part of a `Send` that runs alone, run in order,
give the state in which `publish` ends. -/
theorem BaseMqttSender.publish_steps {δ : Type} (env : MqttEnv δ) (s : MqttState)
    (b : Bytes) (client : ClientId) (hcl : s.sender.client = some client) :
    (BaseMqttSender.publish env s b).1 =
      if s.world.IsConnected client then
        runSteps [SendStep.publishMessage env b client] s
      else if (s.ctx.mqttConnectionWaitingCounter.Add 1).2.isSome then
        runSteps ([SendStep.counterAdd, SendStep.setRetryData b] : List (SendStep δ)) s
      else if (BaseMqttSender.connectLocked env
          (SendStep.apply (SendStep.counterAdd : SendStep δ) s)).2.isSome then
        runSteps [SendStep.counterAdd, SendStep.connectLocked env, SendStep.setRetryData b] s
      else
        runSteps [SendStep.counterAdd, SendStep.connectLocked env,
          SendStep.publishMessage env b client] s := by
  rw [BaseMqttSender.publish_of_client env s b client hcl]
  cases hconn : s.world.IsConnected client with
  | true =>
    rw [BaseMqttSender.publishConnect_of_connected env s b client hconn]
    simp [runSteps, SendStep.apply]
  | false =>
    simp only [Bool.false_eq_true, if_false]
    have hc := BaseMqttSender.connect_steps env s
    cases hadd : (s.ctx.mqttConnectionWaitingCounter.Add 1).2 with
    | some e =>
      simp only [hadd, Option.isSome_some, if_true, Option.map_some'] at hc
      have he : (BaseMqttSender.connect env s).2 = some (SendError.counter e) := by rw [hc]
      rw [BaseMqttSender.publishConnect_of_connect_error env s b client _ hconn he, hc]
      simp [runSteps, SendStep.apply]
    | none =>
      simp only [hadd, Option.isSome_none, Bool.false_eq_true, if_false] at hc ⊢
      cases hcon : (BaseMqttSender.connectLocked env
          (SendStep.apply (SendStep.counterAdd : SendStep δ) s)).2 with
      | some e =>
        have he : (BaseMqttSender.connect env s).2 = some e := by rw [hc]; exact hcon
        rw [BaseMqttSender.publishConnect_of_connect_error env s b client _ hconn he, hc]
        simp [runSteps, SendStep.apply]
      | none =>
        have he : (BaseMqttSender.connect env s).2 = none := by rw [hc]; exact hcon
        rw [BaseMqttSender.publishConnect_of_connect_ok env s b client hconn he, hc]
        simp [runSteps, SendStep.apply]

theorem RegularMQTTSender.Send_state {δ : Type} (env : MqttEnv δ) (s : MqttState) (d : δ)
    (b : Bytes) (hco : env.coerceType d = .ok b) :
    (RegularMQTTSender.Send env s (some d)).1 =
      match (if s.sender.client.isNone ||
            decide (s.sender.secretsLastRetrieved < s.ctx.SecretsLastUpdated) then
          BaseMqttSender.initializeMQTTClient env s
        else (s, none)).2 with
      | some _ =>
        (if s.sender.client.isNone ||
            decide (s.sender.secretsLastRetrieved < s.ctx.SecretsLastUpdated) then
          BaseMqttSender.initializeMQTTClient env s
        else (s, none)).1
      | none =>
        (BaseMqttSender.publish env
          (if s.sender.client.isNone ||
              decide (s.sender.secretsLastRetrieved < s.ctx.SecretsLastUpdated) then
            BaseMqttSender.initializeMQTTClient env s
          else (s, none)).1 b).1 := by
  simp only [RegularMQTTSender.Send, hco]
  split
  · rfl
  · split <;> rfl

/-- The atomic sections of a `Send` that runs alone, run in order, give the state in which
`Send` ends: the sequential `Send` is one of the sequences of atomic sections. -/
theorem RegularMQTTSender.Send_steps {δ : Type} (env : MqttEnv δ) (s : MqttState) (d : δ) :
    runSteps (RegularMQTTSender.Send.steps env s d) s
      = (RegularMQTTSender.Send env s (some d)).1 := by
  cases hco : env.coerceType d with
  | error cause => simp [RegularMQTTSender.Send.steps, RegularMQTTSender.Send, hco, runSteps]
  | ok b =>
    rw [RegularMQTTSender.Send_state env s d b hco]
    simp only [RegularMQTTSender.Send.steps, hco]
    by_cases hneed : (s.sender.client.isNone ||
        decide (s.sender.secretsLastRetrieved < s.ctx.SecretsLastUpdated)) = true
    · simp only [hneed, if_true, Bool.true_and]
      have hs1 : runSteps [SendStep.initializeMQTTClient env] s
          = (BaseMqttSender.initializeMQTTClient env s).1 := rfl
      cases hi : (BaseMqttSender.initializeMQTTClient env s).2 with
      | some e => simp [hs1]
      | none =>
        simp only [Option.isSome_none, Bool.false_eq_true, if_false, hs1]
        cases hcl : (BaseMqttSender.initializeMQTTClient env s).1.sender.client with
        | none => simp [BaseMqttSender.publish, hcl, hs1]
        | some client =>
          rw [BaseMqttSender.publish_steps env _ b client hcl]
          simp only
          split_ifs <;> rw [runSteps_append, hs1]
    · simp only [hneed, if_false, Bool.false_and, Bool.false_eq_true]
      have hs1 : runSteps ([] : List (SendStep δ)) s = s := rfl
      simp only [hs1]
      cases hcl : s.sender.client with
      | none => simp [BaseMqttSender.publish, hcl, hs1]
      | some client =>
        rw [BaseMqttSender.publish_steps env _ b client hcl]
        simp only
        split_ifs <;> rw [List.nil_append]

end Xpert

namespace Xpert

/-- The HTTP sender: once its client is set and its secrets are not older than the last
update, `initialize` returns at its check and builds no client. -/
theorem HTTPSender.initialize_of_fresh {δ : Type} (env : HttpEnv δ) (ctx : AppContext)
    (sender : HTTPSender) (h1 : sender.client.isSome = true)
    (h2 : ¬ sender.secretsLastRetrieved < ctx.SecretsLastUpdated) :
    HTTPSender.initialize env ctx sender = (sender, none) := by
  simp [ HTTPSender.initialize, h1, h2]

/-- C19 (counterexample to the claim as stated): two `Send` calls on one sender in one
epoch, the second starting after the first has returned. With a failing factory each of
them calls `Create`; with a working factory and an unreachable broker the factory is called
once and each of them calls `Connect`. -/
theorem repeated_create_and_connect_counterexample :
    (RegularMQTTSender.Send (brokerEnv true (.error "secret"))
      (RegularMQTTSender.Send (brokerEnv true (.error "secret")) newSenderState
        (some (Item.text "a"))).1 (some (Item.text "b"))).1.world.calls
      = [MqttCall.create, MqttCall.create] ∧
    (RegularMQTTSender.Send (brokerEnv false (.ok 7))
      (RegularMQTTSender.Send (brokerEnv false (.ok 7)) newSenderState
        (some (Item.text "a"))).1 (some (Item.text "b"))).1.world.calls
      = [MqttCall.create, MqttCall.connect 7, MqttCall.connect 7] ∧
    (RegularMQTTSender.Send (brokerEnv false (.ok 7))
      (RegularMQTTSender.Send (brokerEnv false (.ok 7)) newSenderState
        (some (Item.text "a"))).1 (some (Item.text "b"))).1.ctx.SecretsLastUpdated
      = newSenderState.ctx.SecretsLastUpdated := by
  decide

/-- C19 (amended): within one staleness epoch, failed `Create` and `Connect` calls are
repeated by later `Send` calls, but nothing is repeated after a success. Take any state `s`
and an `initializeMQTTClient` that returns nil at a time not before the last update of the
secrets (it created the client, or found it set and not stale). Then under any interleaving
of the atomic sections of concurrent `Send` calls that follows, no `Create` call is made;
and once the locked part of a `connect` has returned nil, no `Connect` call is made by any
section after it. -/
theorem no_create_or_connect_after_success {δ : Type} (env env1 : MqttEnv δ) (s : MqttState)
    (pre post : List (SendStep δ))
    (hnow : s.ctx.SecretsLastUpdated ≤ env.now)
    (hinit : (BaseMqttSender.initializeMQTTClient env s).2 = none)
    (hconn : (BaseMqttSender.connectLocked env1
        (runSteps pre (BaseMqttSender.initializeMQTTClient env s).1)).2 = none) :
    (runSteps (pre ++ SendStep.connectLocked env1 :: post)
        (BaseMqttSender.initializeMQTTClient env s).1).world.createCount
      = (BaseMqttSender.initializeMQTTClient env s).1.world.createCount ∧
    (runSteps (pre ++ SendStep.connectLocked env1 :: post)
        (BaseMqttSender.initializeMQTTClient env s).1).world.connectCount
      = (runSteps (pre ++ [SendStep.connectLocked env1])
        (BaseMqttSender.initializeMQTTClient env s).1).world.connectCount := by
  have hready := BaseMqttSender.initializeMQTTClient_ready env s hnow hinit
  refine ⟨(runSteps_keepsClient _ _ hready).1.2.2.2.2.2, ?_⟩
  have hpre := (runSteps_keepsClient pre _ hready).2
  obtain ⟨client, hcl, hconnected⟩ := BaseMqttSender.connectLocked_connected env1 _ hconn
  obtain ⟨hsender, _, _⟩ := BaseMqttSender.connectLocked_frame env1
    (runSteps pre (BaseMqttSender.initializeMQTTClient env s).1)
  have hstep : (runSteps (pre ++ [SendStep.connectLocked env1])
      (BaseMqttSender.initializeMQTTClient env s).1).readyAndConnected := by
    rw [runSteps_append]
    refine ⟨SendStep.apply_ready (SendStep.connectLocked env1) _ hpre, client, ?_, ?_⟩
    · show (BaseMqttSender.connectLocked env1 _).1.sender.client = some client
      rw [hsender]
      exact hcl
    · exact hconnected
  have hsplit : pre ++ SendStep.connectLocked env1 :: post
      = (pre ++ [SendStep.connectLocked env1]) ++ post := by simp
  rw [hsplit, runSteps_append]
  exact runSteps_readyAndConnected post _ hstep

theorem no_create_or_connect_after_success_witness :
    newSenderState.ctx.SecretsLastUpdated ≤ (brokerEnv true (.ok 7)).now ∧
    (BaseMqttSender.initializeMQTTClient (brokerEnv true (.ok 7)) newSenderState).2 = none ∧
    (BaseMqttSender.connectLocked (brokerEnv true (.ok 8))
      (runSteps sectionsBeforeConnect
        (BaseMqttSender.initializeMQTTClient (brokerEnv true (.ok 7)) newSenderState).1)).2
      = none ∧
    (runSteps
        (sectionsBeforeConnect ++
          SendStep.connectLocked (brokerEnv true (.ok 8)) :: sectionsAfterConnect)
        (BaseMqttSender.initializeMQTTClient (brokerEnv true (.ok 7))
          newSenderState).1).world.createCount
      = (BaseMqttSender.initializeMQTTClient (brokerEnv true (.ok 7))
          newSenderState).1.world.createCount ∧
    (runSteps
        (sectionsBeforeConnect ++
          SendStep.connectLocked (brokerEnv true (.ok 8)) :: sectionsAfterConnect)
        (BaseMqttSender.initializeMQTTClient (brokerEnv true (.ok 7))
          newSenderState).1).world.connectCount
      = (runSteps (sectionsBeforeConnect ++ [SendStep.connectLocked (brokerEnv true (.ok 8))])
        (BaseMqttSender.initializeMQTTClient (brokerEnv true (.ok 7))
          newSenderState).1).world.connectCount :=
  ⟨by decide, by decide, by decide,
    no_create_or_connect_after_success (brokerEnv true (.ok 7)) (brokerEnv true (.ok 8))
      newSenderState sectionsBeforeConnect sectionsAfterConnect
      (by decide) (by decide) (by decide)⟩

end Xpert

namespace Xpert

/-! ## `FilterByValueMaxMin` and the device resource cache -/

/-- The readings that the loop of `FilterByValueMaxMin` accepts are readings of the input,
in their original order. -/
theorem Filter.filterReadings_sublist (lib : FloatLib) (env : CacheEnv)
    (drc : Option deviceResourceCache) (accepted readings : List BaseReading) :
    ∃ kept, (Filter.filterReadings lib env drc accepted readings).2 = accepted ++ kept ∧
      kept.Sublist readings := by
  induction readings generalizing drc accepted with
  | nil => exact ⟨[], by simp [Filter.filterReadings], List.Sublist.refl _⟩
  | cons reading rest ih =>
    unfold Filter.filterReadings
    simp only
    split
    · obtain ⟨kept, h1, h2⟩ := ih (some ((DeviceResources env drc).ForName env
        reading.ProfileName reading.ResourceName).1) accepted
      exact ⟨kept, h1, h2.cons _⟩
    · split
      · obtain ⟨kept, h1, h2⟩ := ih (some ((DeviceResources env drc).ForName env
          reading.ProfileName reading.ResourceName).1) accepted
        exact ⟨kept, h1, h2.cons _⟩
      · obtain ⟨kept, h1, h2⟩ := ih (some ((DeviceResources env drc).ForName env
          reading.ProfileName reading.ResourceName).1) accepted
        exact ⟨kept, h1, h2.cons _⟩
      · obtain ⟨kept, h1, h2⟩ := ih (some ((DeviceResources env drc).ForName env
          reading.ProfileName reading.ResourceName).1) (accepted ++ [reading])
        exact ⟨reading :: kept, by simp [h1], h2.cons₂ _⟩

/-- Whenever `FilterByValueMaxMin` returns `true`, the event it returns has the device name
and the origin of the input event, readings of the input in their original order, and the
zero value in every other field. -/
theorem Filter.FilterByValueMaxMin_fields (lib : FloatLib) (env : CacheEnv)
    (drc : Option deviceResourceCache) (existingEvent : Event)
    (h : (Filter.FilterByValueMaxMin lib env drc
      (some (PipelineData.event existingEvent))).2.1 = true) :
    ∃ kept, kept.Sublist existingEvent.Readings ∧
      (Filter.FilterByValueMaxMin lib env drc (some (PipelineData.event existingEvent))).2.2.val
        = some { Id := "", DeviceName := existingEvent.DeviceName, ProfileName := "",
                 SourceName := "", Origin := existingEvent.Origin, Readings := kept,
                 Tags := none } := by
  obtain ⟨kept, h1, h2⟩ := Filter.filterReadings_sublist lib env drc [] existingEvent.Readings
  refine ⟨kept, h2, ?_⟩
  revert h
  simp only [Filter.FilterByValueMaxMin, Event.zero, h1, List.nil_append]
  split_ifs
  · intro _; rfl
  · intro h; simp at h

/-- C21 (code deviates from the claim and from the function's comment): `FilterByValueMaxMin`
drops readings that are not outliers. With the device resources of the tests (minimum `-10`,
maximum `50`), the event holds an `Int8` reading `47`, a `String` reading of a resource
`Status` that core metadata does not know, an `Int8` reading with an empty value, an `Int8`
reading `4x`, an `Int8` reading `50` and an `Int8` reading `51`. Only `47` and `50` are
passed on: besides the outlier `51`, the reading without a device resource and the two
readings whose value does not parse are removed. -/
theorem filter_drops_readings_that_are_no_outliers :
    ((DeviceResources testMetadata none).ForName testMetadata "" "Status").2 = none ∧
    (Filter.isOutlier sampleFloatLib (sampleReading ValueTypeInt8 ValueTypeInt8 "")
        { Name := ValueTypeInt8, Description := "",
          Properties := { ValueType := ValueTypeInt8, Maximum := some "50",
                          Minimum := some "-10" } }).toOption = none ∧
    (Filter.FilterByValueMaxMin sampleFloatLib testMetadata none
      (some (PipelineData.event (sampleEvent
        [sampleReading ValueTypeInt8 ValueTypeInt8 "47",
         sampleReading "Status" ValueTypeString "ok",
         sampleReading ValueTypeInt8 ValueTypeInt8 "",
         sampleReading ValueTypeInt8 ValueTypeInt8 "4x",
         sampleReading ValueTypeInt8 ValueTypeInt8 "50",
         sampleReading ValueTypeInt8 ValueTypeInt8 "51"])))).2.1 = true ∧
    (Filter.FilterByValueMaxMin sampleFloatLib testMetadata none
      (some (PipelineData.event (sampleEvent
        [sampleReading ValueTypeInt8 ValueTypeInt8 "47",
         sampleReading "Status" ValueTypeString "ok",
         sampleReading ValueTypeInt8 ValueTypeInt8 "",
         sampleReading ValueTypeInt8 ValueTypeInt8 "4x",
         sampleReading ValueTypeInt8 ValueTypeInt8 "50",
         sampleReading ValueTypeInt8 ValueTypeInt8 "51"])))).2.2.val
      = some (sampleEvent
          [sampleReading ValueTypeInt8 ValueTypeInt8 "47",
           sampleReading ValueTypeInt8 ValueTypeInt8 "50"]) ∧
    (Filter.FilterByValueMaxMin sampleFloatLib testMetadata none
      (some (PipelineData.event (sampleEvent
        [sampleReading "Status" ValueTypeString "ok"])))).2.1 = false := by
  decide

/-- C29 (code deviates from the claim): `FilterByValueMaxMin` builds the event it returns
from `DeviceName` and `Origin` only. The input event has every field set and its one reading
passes the filter; the returned event has the same device name, origin and reading, but an
empty `Id`, `ProfileName` and `SourceName` and nil `Tags`. -/
theorem filter_returns_event_without_id_and_tags :
    (Filter.FilterByValueMaxMin sampleFloatLib testMetadata none
      (some (PipelineData.event fullEvent))).2.1 = true ∧
    (Filter.FilterByValueMaxMin sampleFloatLib testMetadata none
      (some (PipelineData.event fullEvent))).2.2.val
      = some { fullEvent with Id := "", ProfileName := "", SourceName := "", Tags := none } ∧
    fullEvent.Id ≠ "" ∧ fullEvent.ProfileName ≠ "" ∧ fullEvent.SourceName ≠ "" ∧
    fullEvent.Tags ≠ none := by
  decide

/-- C30 (code deviates from the claim): the cache is keyed by `profileName + resourceName`,
which is the same string for different pairs. The cache is filled with the resource `c` of
the profile `ab`; a lookup of the resource `bc` of the profile `a`, which core metadata does
not know, returns that resource. And after the lookup of `("x", "yz")` has recorded the key
`xyz` as absent, the lookup of the existing resource `z` of the profile `xy` is answered
`ok = false` without a query, although the same lookup on the new cache finds it. -/
theorem cache_key_collides_for_distinct_pairs :
    (collidingMetadata.XpertGetDeviceResource "a" "bc").toOption = none ∧
    (((DeviceResources collidingMetadata none).ForName collidingMetadata "a" "bc").2.map
      (fun dr => dr.Description)) = some "resource c of profile ab" ∧
    ((DeviceResources collidingMetadata none).ForName collidingMetadata "a" "bc").2
      = ((DeviceResources collidingMetadata none).ForName collidingMetadata "ab" "c").2 ∧
    ((DeviceResources collidingMetadata none).ForName collidingMetadata "x" "yz").2 = none ∧
    (((DeviceResources collidingMetadata none).ForName collidingMetadata "x" "yz").1.ForName
      collidingMetadata "xy" "z").2 = none ∧
    (((DeviceResources collidingMetadata none).ForName collidingMetadata "xy" "z").2.map
      (fun dr => dr.Description)) = some "resource z of profile xy" := by
  decide

end Xpert

namespace Xpert

/-! ## `ConvertIntToFloatReading` and `ConvertFloatToIntReading` -/

theorem Conversion.intToFloatReadings_map (lib : FloatLib) (readings : List BaseReading)
    (h : ∀ r ∈ readings, r.ValueType ∈ Conversion.intToFloatValueTypes →
      (lib.ParseFloat r.Value 64).toOption.isSome = true) :
    Conversion.intToFloatReadings lib readings =
      .ok (readings.map (fun r =>
        if r.ValueType ∈ Conversion.intToFloatValueTypes then
          match lib.ParseFloat r.Value 64 with
          | .ok f => { r with ValueType := ValueTypeFloat64, Value := lib.FormatE f }
          | .error _ => r
        else r)) := by
  induction readings with
  | nil => rfl
  | cons reading rest ih =>
    have hrest := ih (fun r hr => h r (List.mem_cons_of_mem _ hr))
    have hhead := h reading (List.mem_cons_self _ _)
    unfold Conversion.intToFloatReadings
    by_cases hm : reading.ValueType ∈ Conversion.intToFloatValueTypes
    · have hp := hhead hm
      cases hparse : lib.ParseFloat reading.Value 64 with
      | error cause => simp [hparse, Except.toOption] at hp
      | ok f => simp only [hm, if_true, hrest, List.map_cons, hparse]
    · simp only [hm, if_false, hrest, List.map_cons]

/-- C22 (counterexample to the claim as stated): a `Uint8` reading `123` is converted like
an `Int8` reading: its value type becomes `Float64` and its value `1.230000e+02`, as the
test `TestConvertIntToFloatReadingUint` expects. -/
theorem convert_int_to_float_converts_uint_counterexample :
    (Conversion.ConvertIntToFloatReading sampleFloatLib
      (some (PipelineData.event (sampleEvent
        [sampleReading "r" ValueTypeUint8 "123", sampleReading "r" ValueTypeInt8 "123"])))).1
      = true ∧
    (Conversion.ConvertIntToFloatReading sampleFloatLib
      (some (PipelineData.event (sampleEvent
        [sampleReading "r" ValueTypeUint8 "123", sampleReading "r" ValueTypeInt8 "123"])))).2.val
      = some (sampleEvent
          [sampleReading "r" ValueTypeFloat64 "1.230000e+02",
           sampleReading "r" ValueTypeFloat64 "1.230000e+02"]) := by
  decide

/-- C22 (amended): `ConvertIntToFloatReading` converts every reading whose value type is
`Int8`, `Int16`, `Int32`, `Int64`, `Uint8`, `Uint16`, `Uint32` or `Uint64` to the value type
`Float64` with the value parsed as a float and rewritten with the verb `%e`, and leaves the
readings of every other value type, and every other field of the event, unchanged. This is
the result, returned with `true`, whenever the value of each such reading parses. -/
theorem convert_int_to_float_converts_int_and_uint (lib : FloatLib) (event : Event)
    (h : ∀ r ∈ event.Readings,
      r.ValueType ∈ ["Int8", "Int16", "Int32", "Int64", "Uint8", "Uint16", "Uint32", "Uint64"] →
        (lib.ParseFloat r.Value 64).toOption.isSome = true) :
    (Conversion.ConvertIntToFloatReading lib (some (PipelineData.event event))).1 = true ∧
    (Conversion.ConvertIntToFloatReading lib (some (PipelineData.event event))).2.val
      = some { event with Readings := event.Readings.map (fun r =>
          if r.ValueType ∈
              ["Int8", "Int16", "Int32", "Int64", "Uint8", "Uint16", "Uint32", "Uint64"] then
            match lib.ParseFloat r.Value 64 with
            | .ok f => { r with ValueType := "Float64", Value := lib.FormatE f }
            | .error _ => r
          else r) } := by
  have hmap := Conversion.intToFloatReadings_map lib event.Readings h
  simp only [Conversion.ConvertIntToFloatReading, hmap]
  exact ⟨trivial, rfl⟩

theorem convert_int_to_float_converts_int_and_uint_witness :
    (Conversion.ConvertIntToFloatReading sampleFloatLib
      (some (PipelineData.event (sampleEvent
        [sampleReading "r" ValueTypeUint64 "18446744073709551615",
         sampleReading "r" ValueTypeInt16 "-5",
         sampleReading "r" ValueTypeFloat32 "3.999",
         sampleReading "r" ValueTypeString "abcd1234"])))).1 = true ∧
    (Conversion.ConvertIntToFloatReading sampleFloatLib
      (some (PipelineData.event (sampleEvent
        [sampleReading "r" ValueTypeUint64 "18446744073709551615",
         sampleReading "r" ValueTypeInt16 "-5",
         sampleReading "r" ValueTypeFloat32 "3.999",
         sampleReading "r" ValueTypeString "abcd1234"])))).2.val
      = some (sampleEvent
          [sampleReading "r" ValueTypeFloat64 "1.844674e+19",
           sampleReading "r" ValueTypeFloat64 "-5.000000e+00",
           sampleReading "r" ValueTypeFloat32 "3.999",
           sampleReading "r" ValueTypeString "abcd1234"]) :=
  ⟨(convert_int_to_float_converts_int_and_uint sampleFloatLib
      (sampleEvent
        [sampleReading "r" ValueTypeUint64 "18446744073709551615",
         sampleReading "r" ValueTypeInt16 "-5",
         sampleReading "r" ValueTypeFloat32 "3.999",
         sampleReading "r" ValueTypeString "abcd1234"]) (by decide)).1,
    (convert_int_to_float_converts_int_and_uint sampleFloatLib
      (sampleEvent
        [sampleReading "r" ValueTypeUint64 "18446744073709551615",
         sampleReading "r" ValueTypeInt16 "-5",
         sampleReading "r" ValueTypeFloat32 "3.999",
         sampleReading "r" ValueTypeString "abcd1234"]) (by decide)).2.trans (by decide)⟩

/-- C23 (code deviates from the claim): the upper bound of the range check is
`float64(math.MaxInt64)`, which is `2 ^ 63`, so a value of exactly `2 ^ 63` is not rejected.
The texts `9223372036854775808` and `9223372036854775807` both parse to `2 ^ 63`, which is
above `2 ^ 63 - 1`; the conversion returns `true` with the implementation-dependent result
of `int64(f)`, here `-9223372036854775808`. Values within the range are truncated toward
zero (`3.999` gives `3`, `-3.999` gives `-3`, `-9223372036854775808` gives itself), and the
value `9.223373e+18` of the test is rejected. -/
theorem convert_float_to_int_accepts_two_pow_63 :
    ((sampleFloatLib.ParseFloat "9223372036854775808" 64).toOption.bind Float64.truncate
      = some (2 ^ 63) ∧
     (sampleFloatLib.ParseFloat "9223372036854775807" 64).toOption.bind Float64.truncate
      = some (2 ^ 63)) ∧
    ((Conversion.ConvertFloatToIntReading sampleFloatLib
      (some (PipelineData.event (sampleEvent
        [sampleReading "r" ValueTypeFloat64 "9223372036854775808",
         sampleReading "r" ValueTypeFloat64 "9223372036854775807"])))).toOption.map
      (fun returned => (returned.1, returned.2.val))
      = some (true, some (sampleEvent
          [sampleReading "r" ValueTypeInt64 "-9223372036854775808",
           sampleReading "r" ValueTypeInt64 "-9223372036854775808"]))) ∧
    ((Conversion.ConvertFloatToIntReading sampleFloatLib
      (some (PipelineData.event (sampleEvent
        [sampleReading "r" ValueTypeFloat64 "3.999",
         sampleReading "r" ValueTypeFloat32 "-3.999",
         sampleReading "r" ValueTypeFloat64 "-9223372036854775808",
         sampleReading "r" ValueTypeInt8 "1"])))).toOption.map
      (fun returned => (returned.1, returned.2.val))
      = some (true, some (sampleEvent
          [sampleReading "r" ValueTypeInt64 "3",
           sampleReading "r" ValueTypeInt64 "-3",
           sampleReading "r" ValueTypeInt64 "-9223372036854775808",
           sampleReading "r" ValueTypeInt8 "1"]))) ∧
    ((Conversion.ConvertFloatToIntReading sampleFloatLib
      (some (PipelineData.event (sampleEvent
        [sampleReading "r" ValueTypeFloat64 "9.223373e+18"])))).toOption.map
      (fun returned => (returned.1, returned.2.err))
      = some (false, some (ConversionError.outsideInt64
          (Float64.finite 4503600097656250 11)))) := by
  decide

/-- C27 (code deviates from the claim): `big.NewFloat(f)` panics for a NaN, so a `Float64`
reading with the value `NaN` ends `ConvertFloatToIntReading` with a run-time panic. The
values `Inf` and `-Inf` are returned as `(false, error)`. -/
theorem convert_float_to_int_panics_on_nan :
    (sampleFloatLib.ParseFloat "NaN" 64).toOption = some Float64.nan ∧
    (match Conversion.ConvertFloatToIntReading sampleFloatLib
        (some (PipelineData.event (sampleEvent [sampleReading "r" ValueTypeFloat64 "NaN"]))) with
      | .error p => some p
      | .ok _ => none) = some Panic.bigFloatNaN ∧
    ((Conversion.ConvertFloatToIntReading sampleFloatLib
      (some (PipelineData.event (sampleEvent
        [sampleReading "r" ValueTypeFloat64 "Inf"])))).toOption.map
      (fun returned => (returned.1, returned.2.err))
      = some (false, some (ConversionError.outsideInt64 (Float64.inf false)))) ∧
    ((Conversion.ConvertFloatToIntReading sampleFloatLib
      (some (PipelineData.event (sampleEvent
        [sampleReading "r" ValueTypeFloat32 "-Inf"])))).toOption.map
      (fun returned => (returned.1, returned.2.err))
      = some (false, some (ConversionError.outsideInt64 (Float64.inf true)))) := by
  decide

/-- Whatever the library answers, a `Float32` or `Float64` reading whose value parses to a
NaN ends `ConvertFloatToIntReading` with a panic when no earlier reading has ended it. -/
theorem Conversion.floatToIntReadings_nan (lib : FloatLib) (reading : BaseReading)
    (rest : List BaseReading)
    (ht : reading.ValueType = ValueTypeFloat32 ∨ reading.ValueType = ValueTypeFloat64)
    (hp : lib.ParseFloat reading.Value 64 = .ok Float64.nan) :
    Conversion.floatToIntReadings lib (reading :: rest) = .error Panic.bigFloatNaN := by
  unfold Conversion.floatToIntReadings
  simp [ht, hp]

end Xpert

namespace Xpert

/-! ## `toNanosecondsTime` -/

theorem wrapInt_of_fits (z : Int) (h1 : -(intBound : Int) ≤ z) (h2 : z < (intBound : Int)) :
    wrapInt z = z := by
  unfold wrapInt
  rw [uintSize_eq]
  rw [intBound_eq] at h1 h2 ⊢
  push_cast at h1 h2 ⊢
  rw [Int.emod_eq_of_lt (by omega) (by omega)]
  omega

theorem Nat.toDigitsCore_length_le (b fuel n : Nat) (ds : List Char) :
    ds.length ≤ (Nat.toDigitsCore b fuel n ds).length := by
  induction fuel generalizing n ds with
  | zero => simp [Nat.toDigitsCore]
  | succ fuel ih =>
    unfold Nat.toDigitsCore
    simp only
    split_ifs
    · simp
    · exact Nat.le_trans (by simp) (ih _ _)

theorem Nat.toDigits_length_pos (b n : Nat) : 1 ≤ (Nat.toDigits b n).length := by
  unfold Nat.toDigits Nat.toDigitsCore
  simp only
  split_ifs
  · simp
  · exact Nat.le_trans (by simp) (Nat.toDigitsCore_length_le _ _ _ _)

theorem FormatInt_length_pos (z : Int) : 1 ≤ (FormatInt z).length := by
  unfold FormatInt
  split_ifs
  · simp [String.length]
  · simpa [String.length] using Nat.toDigits_length_pos 10 z.natAbs

/-- C24 (amended): for every positive timestamp `t` with `d` decimal digits, `d ≤ 19`, the
clock value having 19 digits, whose padded value `t * 10 ^ (19 - d)` is below `2 ^ 63`,
`toNanosecondsTime(t).UnixNano()` equals `t * 10 ^ (19 - d)`: `t` padded on the right with
zeros to nanosecond precision. -/
theorem toNanosecondsTime_of_fits (now outOfRange t : Int)
    (hnow : (FormatInt now).length = 19) (hd : (FormatInt t).length ≤ 19) (hpos : 0 < t)
    (hfit : t * 10 ^ (19 - (FormatInt t).length) < 2 ^ 63) :
    toNanosecondsTime now outOfRange t = t * 10 ^ (19 - (FormatInt t).length) := by
  have h1 := FormatInt_length_pos t
  unfold toNanosecondsTime
  simp only [hnow]
  have hoff : ((19 : Nat) : Int) - ((FormatInt t).length : Int)
      = ((19 - (FormatInt t).length : Nat) : Int) := by omega
  rw [hoff]
  by_cases h0 : 19 - (FormatInt t).length = 0
  · simp [h0]
  · have h0i : ¬ (((19 - (FormatInt t).length : Nat) : Int) = 0) := by omega
    have hneg : ¬ (((19 - (FormatInt t).length : Nat) : Int) < 0) := by omega
    have hle2 : (((19 - (FormatInt t).length : Nat) : Int) ≤ 18) := by omega
    simp only [h0i, if_false, pow10Int64, Int.toNat_ofNat, hneg, hle2, if_true]
    push_cast
    have hnn : (0 : Int) ≤ t * 10 ^ (19 - (FormatInt t).length) :=
      Int.mul_nonneg (le_of_lt hpos) (pow_nonneg (by norm_num) _)
    apply wrapInt_of_fits
    · rw [intBound_eq]
      push_cast
      omega
    · rw [intBound_eq]
      push_cast
      have h63 : (2 : Int) ^ 63 = 9223372036854775808 := by norm_num
      omega

/-- The timestamp `1581420776817` of the function's comment has 13 digits and its padded
value fits an `int64`: with a clock value of 19 digits `toNanosecondsTime` gives
`1581420776817000000`. -/
theorem toNanosecondsTime_of_fits_witness :
    ((FormatInt 1700000000000000000).length = 19 ∧ (FormatInt 1581420776817).length ≤ 19 ∧
      (0 : Int) < 1581420776817 ∧
      (1581420776817 : Int) * 10 ^ (19 - (FormatInt 1581420776817).length) < 2 ^ 63) ∧
    toNanosecondsTime 1700000000000000000 (-(intBound : Int)) 1581420776817
      = 1581420776817 * 10 ^ (19 - (FormatInt 1581420776817).length) ∧
    (1581420776817 : Int) * 10 ^ (19 - (FormatInt 1581420776817).length)
      = 1581420776817000000 :=
  ⟨by decide,
    toNanosecondsTime_of_fits 1700000000000000000 (-(intBound : Int)) 1581420776817
      (by decide) (by decide) (by decide) (by decide),
    by decide⟩

/-- C24 (counterexample to the claim as stated): the claimed value `t * 10 ^ (19 - d)` need
not fit an `int64`, and the product `timestamp * 10 ^ offset` is an `int64` multiplication.
With a clock value of 19 digits the four timestamps of `TestToNanoseconds` are padded as
claimed, but for the two-digit timestamp `93` the claimed value `93 * 10 ^ 17` is above
`2 ^ 63 - 1` and the function gives `-9146744073709551616`; so it does for the millisecond
timestamp `9300000000000`. -/
theorem to_nanoseconds_time_overflows :
    (FormatInt 1700000000000000000).length = 19 ∧
    toNanosecondsTime 1700000000000000000 (-(intBound : Int)) 1581420776817
      = 1581420776817000000 ∧
    toNanosecondsTime 1700000000000000000 (-(intBound : Int)) 123456789
      = 1234567890000000000 ∧
    toNanosecondsTime 1700000000000000000 (-(intBound : Int)) 12345678912345
      = 1234567891234500000 ∧
    toNanosecondsTime 1700000000000000000 (-(intBound : Int)) 1 = 1000000000000000000 ∧
    (FormatInt 93).length = 2 ∧
    toNanosecondsTime 1700000000000000000 (-(intBound : Int)) 93 = -9146744073709551616 ∧
    (93 : Int) * 10 ^ (19 - 2) = 9300000000000000000 ∧
    (9300000000000000000 : Int) > 2 ^ 63 - 1 ∧
    toNanosecondsTime 1700000000000000000 (-(intBound : Int)) 9300000000000
      = -9146744073709551616 := by
  decide

/-! ## The message handler of the MQTT trigger -/

/-- For a payload of at least one byte the handler builds the envelope: the content type is
JSON when the first byte is an opening brace or bracket, CBOR otherwise. -/
theorem Trigger.messageHandler_of_nonempty (correlationID topic : String) (first : UInt8)
    (rest : List UInt8) :
    Trigger.messageHandler correlationID (first :: rest) topic =
      .ok { CorrelationID := correlationID,
            ContentType :=
              if first.toNat = 123 ∨ first.toNat = 91 then ContentTypeJSON
              else ContentTypeCBOR,
            Payload := first :: rest,
            ReceivedTopic := topic } := by
  unfold Trigger.messageHandler
  have h1 : ('\x7b').toNat = 123 := by decide
  have h2 : ('[').toNat = 91 := by decide
  simp only [h1, h2]
  by_cases ha : first.toNat = 123
  · simp [ha]
  · by_cases hb : first.toNat = 91
    · simp [hb]
    · simp [ha, hb]

/-- C25 (code deviates from the claim): the handler reads `data[0]` without checking the
length, so a message with an empty payload ends it with an index-out-of-range panic before
any envelope is built; payloads of one byte or more are handled. -/
theorem message_handler_panics_on_empty_payload :
    (match Trigger.messageHandler "c0ffee" [] "edgex/events" with
      | .error p => some p
      | .ok _ => none) = some (Panic.indexOutOfRange 0 0) ∧
    (Trigger.messageHandler "c0ffee" [123, 125] "edgex/events").toOption
      = some { CorrelationID := "c0ffee", ContentType := ContentTypeJSON,
               Payload := [123, 125], ReceivedTopic := "edgex/events" } ∧
    (Trigger.messageHandler "c0ffee" [161] "edgex/events").toOption
      = some { CorrelationID := "c0ffee", ContentType := ContentTypeCBOR,
               Payload := [161], ReceivedTopic := "edgex/events" } := by
  decide

/-! ## `ConvertDDATAtoEvent` -/

/-- Whatever the decoders answer, a payload without a timestamp on a valid topic ends
`ConvertDDATAtoEvent` with a panic. -/
theorem SparkplugConverter.ConvertDDATAtoEvent_of_nil_timestamp (env : SparkplugEnv)
    (topic : String) (bytes : List UInt8) (payload : SparkplugPayload)
    (htopic : matchesDDATATopic topic = true) (hp : env.protoUnmarshal bytes = .ok payload)
    (ht : payload.Timestamp = none) :
    SparkplugConverter.ConvertDDATAtoEvent env (some topic) (some (PipelineData.bytes bytes))
      = .error (Panic.nilDereference "payload.Timestamp") := by
  simp [SparkplugConverter.ConvertDDATAtoEvent, htopic, hp, toEvent, ht]

/-- C26 (code deviates from the claim): `toEvent` dereferences `payload.Timestamp`, and
`toReadingValueTypeAndValue` and the metric loop dereference `metric.Datatype` and
`metric.Name`, without a nil check. On the valid topic `spBv1.0/group/DDATA/node/device` the
empty byte slice, which decodes to a payload with no field set, ends `ConvertDDATAtoEvent`
with a nil-dereference panic; so do a payload whose metric has no datatype and a payload
whose metric has no name. A payload with a timestamp and a complete metric is converted. -/
theorem convert_ddata_panics_on_missing_fields :
    matchesDDATATopic "spBv1.0/group/DDATA/node/device" = true ∧
    (match SparkplugConverter.ConvertDDATAtoEvent sparkplugEnv
        (some "spBv1.0/group/DDATA/node/device") (some (PipelineData.bytes [])) with
      | .error p => some p
      | .ok _ => none) = some (Panic.nilDereference "payload.Timestamp") ∧
    (match SparkplugConverter.ConvertDDATAtoEvent
        (sparkplugEnvWith
          { Timestamp := some 1581420776817,
            Metrics := [{ Name := some "temperature", Datatype := none,
                          Value := MetricValue.intValue 21 }],
            Seq := some 1, Uuid := none, Body := [] })
        (some "spBv1.0/group/DDATA/node/device") (some (PipelineData.bytes [8])) with
      | .error p => some p
      | .ok _ => none) = some (Panic.nilDereference "metric.Datatype") ∧
    (match SparkplugConverter.ConvertDDATAtoEvent
        (sparkplugEnvWith
          { Timestamp := some 1581420776817,
            Metrics := [{ Name := none, Datatype := some 3,
                          Value := MetricValue.intValue 21 }],
            Seq := some 1, Uuid := none, Body := [] })
        (some "spBv1.0/group/DDATA/node/device") (some (PipelineData.bytes [8])) with
      | .error p => some p
      | .ok _ => none) = some (Panic.nilDereference "metric.Name") ∧
    ((SparkplugConverter.ConvertDDATAtoEvent
        (sparkplugEnvWith
          { Timestamp := some 1581420776817,
            Metrics := [{ Name := some "temperature", Datatype := some 3,
                          Value := MetricValue.intValue 21 }],
            Seq := some 1, Uuid := none, Body := [] })
        (some "spBv1.0/group/DDATA/node/device") (some (PipelineData.bytes [8]))).toOption.map
      (fun returned => returned.1)) = some true := by
  decide

/-! ## `Configurable.PostgresWrite` -/

/-- Whatever else the parameters hold, a parameter map without `port` that is accepted gives
a writer whose `Host` is the default port `5432` and whose `Port` is empty. -/
theorem Configurable.PostgresWrite_without_port (lib : StdLib) (k : ParamNames) (numCPU : Nat)
    (parameters : Params) (writer : postgresWriter)
    (hport : parameters.get PostgresPort = none)
    (h : Configurable.PostgresWrite lib k numCPU parameters = some writer) :
    writer.config.Host = DefaultPostgresPort ∧ writer.config.Port = "" := by
  unfold Configurable.PostgresWrite at h
  simp only [Configurable.PostgresWrite.hostAndPort, hport] at h
  repeat' split at h
  all_goals first
    | (simp at h; done)
    | (simp only [Option.some.injEq] at h; subst h; exact ⟨rfl, rfl⟩)

/-- C28 (code deviates from the claim): when `port` is missing, `Configurable.PostgresWrite`
assigns the default port to `host`. With the mandatory parameters and `host = db` the
writer has `Host = "5432"` and `Port = ""`, not `Host = "db"` and `Port = "5432"`; with
`host` omitted as well `Host` is `5432`, not `timescaledb`. With both parameters given they
are stored as given. -/
theorem postgres_write_default_port_overwrites_host :
    ((Configurable.PostgresWrite sampleStdLib sampleParamNames 4
      (postgresTestParameters [("host", "db")])).map
        (fun writer => (writer.config.Host, writer.config.Port))) = some ("5432", "") ∧
    ((Configurable.PostgresWrite sampleStdLib sampleParamNames 4
      (postgresTestParameters [])).map
        (fun writer => (writer.config.Host, writer.config.Port))) = some ("5432", "") ∧
    ((Configurable.PostgresWrite sampleStdLib sampleParamNames 4
      (postgresTestParameters [("host", "db"), ("port", "6000")])).map
        (fun writer => (writer.config.Host, writer.config.Port))) = some ("db", "6000") ∧
    DefaultPostgresPort = "5432" ∧ DefaultPostgresHost = "timescaledb" := by
  decide

end Xpert

namespace Xpert

/-! ## Stale senders: `Create` calls of one `Send` -/

theorem MqttWorld.createCount_append_create (w w1 : MqttWorld) (rest : List MqttCall)
    (h : w1.calls = w.calls ++ MqttCall.create :: rest) (hr : MqttCall.create ∉ rest) :
    w1.createCount = w.createCount + 1 := by
  have hrest : rest.filter (fun call => call == MqttCall.create) = [] := by
    rw [List.filter_eq_nil_iff]
    intro a ha hcontra
    have : a = MqttCall.create := by simpa using hcontra
    exact hr (this ▸ ha)
  simp [MqttWorld.createCount, h, List.filter_append, List.filter_cons, hrest]

/-- Whatever the state, `initializeMQTTClient` only appends to the call log. -/
theorem BaseMqttSender.initializeMQTTClient_calls {δ : Type} (env : MqttEnv δ) (s : MqttState) :
    ∃ rest, (BaseMqttSender.initializeMQTTClient env s).1.world.calls
      = s.world.calls ++ rest := by
  unfold BaseMqttSender.initializeMQTTClient
  simp only
  split_ifs
  · exact ⟨[], by simp⟩
  · split
    · exact ⟨[MqttCall.create], rfl⟩
    · simp only [SharedMQTTClient.Set_snd, SharedMQTTClient.Set.disconnectHeld]
      split
      · split_ifs
        · rename_i held _ _
          exact ⟨[MqttCall.create, MqttCall.disconnect held 0],
            by simp [MqttWorld.Disconnect, MqttWorld.record]⟩
        · exact ⟨[MqttCall.create], rfl⟩
      · exact ⟨[MqttCall.create], rfl⟩
  · exact ⟨[], by simp⟩
  · split
    · exact ⟨[MqttCall.create], rfl⟩
    · exact ⟨[MqttCall.create], rfl⟩

/-- Whatever the state, `mqttPublish` only appends to the call log. -/
theorem AWSIoTCoreMQTTSender.mqttPublish_calls {δ : Type} (env : MqttEnv δ) (s : MqttState)
    (b : Bytes) :
    ∃ rest, (AWSIoTCoreMQTTSender.mqttPublish env s b).1.world.calls
      = s.world.calls ++ rest := by
  unfold AWSIoTCoreMQTTSender.mqttPublish
  simp only
  split_ifs
  · obtain ⟨r1, h1⟩ := BaseMqttSender.initializeMQTTClient_calls env s
    split
    · exact ⟨r1, h1⟩
    · obtain ⟨_, _, r2, h2, _⟩ := BaseMqttSender.publish_frame env
        (BaseMqttSender.initializeMQTTClient env s).1 b
      exact ⟨r1 ++ r2, by rw [h2, h1, List.append_assoc]⟩
  · obtain ⟨_, _, r2, h2, _⟩ := BaseMqttSender.publish_frame env s b
    exact ⟨r2, h2⟩

/-- Whatever the state, the loop over a batch only appends to the call log. -/
theorem AWSIoTCoreMQTTSender.publishBatch_calls {δ : Type} (codec : AwsCodec δ)
    (envAt : Nat → MqttEnv δ) (i : Nat) (items : List δ) (s : MqttState) (acc : List Bytes) :
    ∃ rest, (AWSIoTCoreMQTTSender.publishBatch codec envAt i items s acc).1.world.calls
      = s.world.calls ++ rest := by
  induction items generalizing i s acc with
  | nil => exact ⟨[], by simp [AWSIoTCoreMQTTSender.publishBatch]⟩
  | cons item more ih =>
    unfold AWSIoTCoreMQTTSender.publishBatch
    split
    · exact ⟨[], by simp⟩
    · rename_i byteData _
      obtain ⟨r1, h1⟩ := AWSIoTCoreMQTTSender.mqttPublish_calls (envAt i) s byteData
      obtain ⟨r2, h2⟩ := ih (i + 1) (AWSIoTCoreMQTTSender.mqttPublish (envAt i) s byteData).1
        (if (AWSIoTCoreMQTTSender.mqttPublish (envAt i) s byteData).2.isSome then
          acc ++ [byteData] else acc)
      exact ⟨r1 ++ r2, by rw [h2, h1, List.append_assoc]⟩

/-- On a ready sender `publish` neither changes the client nor calls the factory. -/
theorem BaseMqttSender.publish_of_ready {δ : Type} (env : MqttEnv δ) (s : MqttState)
    (b : Bytes) (hr : s.ready) :
    s.keepsClient (BaseMqttSender.publish env s b).1 ∧
    (BaseMqttSender.publish env s b).1.ready := by
  obtain ⟨client, hcl⟩ := Option.isSome_iff_exists.mp hr.1
  rw [BaseMqttSender.publish_steps env s b client hcl]
  split_ifs <;> exact runSteps_keepsClient _ s hr

/-- On a ready sender `mqttPublish` neither changes the client nor calls the factory. -/
theorem AWSIoTCoreMQTTSender.mqttPublish_of_ready {δ : Type} (env : MqttEnv δ) (s : MqttState)
    (b : Bytes) (hr : s.ready) :
    s.keepsClient (AWSIoTCoreMQTTSender.mqttPublish env s b).1 ∧
    (AWSIoTCoreMQTTSender.mqttPublish env s b).1.ready := by
  have hp := BaseMqttSender.publish_of_ready env s b hr
  obtain ⟨h1, h2, _⟩ := hr
  have hcond : (s.sender.client.isNone ||
      decide (s.sender.secretsLastRetrieved < s.ctx.SecretsLastUpdated)) = false := by
    cases hc : s.sender.client with
    | none => simp [hc] at h1
    | some client => simp [h2]
  unfold AWSIoTCoreMQTTSender.mqttPublish
  simp only [hcond, Bool.false_eq_true, if_false]
  exact hp

/-- On a ready sender the loop over a batch neither changes the client nor calls the
factory. -/
theorem AWSIoTCoreMQTTSender.publishBatch_of_ready {δ : Type} (codec : AwsCodec δ)
    (envAt : Nat → MqttEnv δ) (i : Nat) (items : List δ) (s : MqttState) (acc : List Bytes)
    (hr : s.ready) :
    s.keepsClient (AWSIoTCoreMQTTSender.publishBatch codec envAt i items s acc).1 := by
  induction items generalizing i s acc with
  | nil =>
    simp only [AWSIoTCoreMQTTSender.publishBatch]
    exact s.keepsClient_refl
  | cons item more ih =>
    unfold AWSIoTCoreMQTTSender.publishBatch
    split
    · exact s.keepsClient_refl
    · rename_i byteData _
      obtain ⟨k1, k2⟩ := AWSIoTCoreMQTTSender.mqttPublish_of_ready (envAt i) s byteData hr
      exact MqttState.keepsClient_trans k1 (ih (i + 1) _ _ k2)

/-- For a sender that does not use the shared client, holds a client and is stale,
`mqttPublish` calls `Create` exactly once, before every other call; when `Create` succeeds
the sender's client is the created one, and the sender is ready when the clock is not behind
the last update of the secrets; when `Create` fails only the call log has changed. -/
theorem AWSIoTCoreMQTTSender.mqttPublish_of_stale {δ : Type} (env : MqttEnv δ) (s : MqttState)
    (b : Bytes) (hshared : s.sender.usingSharedClient = false)
    (hstale : s.sender.secretsLastRetrieved < s.ctx.SecretsLastUpdated) :
    (∃ rest, (AWSIoTCoreMQTTSender.mqttPublish env s b).1.world.calls =
        s.world.calls ++ MqttCall.create :: rest ∧ MqttCall.create ∉ rest) ∧
    (∀ client, env.create = .ok client →
      (AWSIoTCoreMQTTSender.mqttPublish env s b).1.sender.client = some client ∧
      (s.ctx.SecretsLastUpdated ≤ env.now →
        (AWSIoTCoreMQTTSender.mqttPublish env s b).1.ready)) ∧
    (∀ cause, env.create = .error cause →
      AWSIoTCoreMQTTSender.mqttPublish env s b =
        ({ s with world := s.world.record MqttCall.create },
          some (SendError.factory cause))) := by
  obtain ⟨i1, i2, i3, i4⟩ := BaseMqttSender.initializeMQTTClient_of_stale env s hshared hstale
  obtain ⟨p1, _, prest, p3, p4⟩ := BaseMqttSender.publish_frame env
    (BaseMqttSender.initializeMQTTClient env s).1 b
  have heq : AWSIoTCoreMQTTSender.mqttPublish env s b =
      match (BaseMqttSender.initializeMQTTClient env s).2 with
      | some e => ((BaseMqttSender.initializeMQTTClient env s).1, some e)
      | none => BaseMqttSender.publish env (BaseMqttSender.initializeMQTTClient env s).1 b := by
    simp only [AWSIoTCoreMQTTSender.mqttPublish, hstale, decide_True, Bool.or_true, if_true]
  refine ⟨?_, ?_, ?_⟩
  · rw [heq]
    cases hi : (BaseMqttSender.initializeMQTTClient env s).2 with
    | some e => exact ⟨[], by simp [i1], by simp⟩
    | none => exact ⟨prest, by simp [p3, i1], p4⟩
  · intro client hcreate
    obtain ⟨j1, j2⟩ := i4 client hcreate
    rw [heq, j1]
    simp only
    refine ⟨by rw [p1, j2], fun hnow => ?_⟩
    exact (BaseMqttSender.publish_of_ready env _ b
      (BaseMqttSender.initializeMQTTClient_ready env s hnow j1)).2
  · intro cause hcreate
    obtain ⟨j1, j2⟩ := i3 cause hcreate
    rw [heq, j1]
    simp only
    have hs : (BaseMqttSender.initializeMQTTClient env s).1 =
        { s with world := s.world.record MqttCall.create } := by
      simp only [BaseMqttSender.initializeMQTTClient, hshared, hcreate]
      have hnot : ¬ s.ctx.SecretsLastUpdated ≤ s.sender.secretsLastRetrieved :=
        Nat.not_le_of_lt hstale
      simp [hnot]
    rw [hs]

/-- With a factory that keeps failing, the loop over a batch of coercible items on a stale
sender calls `Create` once per item and changes nothing but the call log. -/
theorem AWSIoTCoreMQTTSender.publishBatch_of_failing_factory {δ : Type} (codec : AwsCodec δ)
    (envAt : Nat → MqttEnv δ) (i : Nat) (items : List δ) (s : MqttState) (acc : List Bytes)
    (hshared : s.sender.usingSharedClient = false)
    (hstale : s.sender.secretsLastRetrieved < s.ctx.SecretsLastUpdated)
    (hfail : ∀ k, ∃ cause, (envAt k).create = .error cause)
    (hitems : ∀ item ∈ items, ∃ bytes, codec.coerceType item = .ok bytes) :
    (AWSIoTCoreMQTTSender.publishBatch codec envAt i items s acc).1 =
      { s with world := { s.world with
          calls := s.world.calls ++ List.replicate items.length MqttCall.create } } := by
  induction items generalizing i s acc with
  | nil => simp [AWSIoTCoreMQTTSender.publishBatch]
  | cons item more ih =>
    obtain ⟨bytes, hb⟩ := hitems item (List.mem_cons_self _ _)
    obtain ⟨cause, hc⟩ := hfail i
    have hp := (AWSIoTCoreMQTTSender.mqttPublish_of_stale (envAt i) s bytes hshared hstale).2.2
      cause hc
    unfold AWSIoTCoreMQTTSender.publishBatch
    simp only [hb, hp]
    rw [ih (i + 1) { s with world := s.world.record MqttCall.create } _ hshared hstale
      (fun x hx => hitems x (List.mem_cons_of_mem _ hx))]
    simp [MqttWorld.record, List.replicate_succ]

/-- The batch case of `Send` ends with the sender and the call log in which its loop
ended. -/
theorem AWSIoTCoreMQTTSender.sendBatch_state {δ : Type} (codec : AwsCodec δ)
    (envAt : Nat → MqttEnv δ) (s : MqttState) (items : List δ) :
    (AWSIoTCoreMQTTSender.sendBatch codec envAt s items).1.world =
      (AWSIoTCoreMQTTSender.publishBatch codec envAt 0 items s []).1.world ∧
    (AWSIoTCoreMQTTSender.sendBatch codec envAt s items).1.sender =
      (AWSIoTCoreMQTTSender.publishBatch codec envAt 0 items s []).1.sender := by
  unfold AWSIoTCoreMQTTSender.sendBatch
  generalize AWSIoTCoreMQTTSender.publishBatch codec envAt 0 items s [] = r
  obtain ⟨s1, x⟩ := r
  cases x with
  | error e => exact ⟨rfl, rfl⟩
  | ok dataToBeResent =>
    simp only
    split_ifs
    · split
      · exact ⟨rfl, rfl⟩
      · obtain ⟨hk, hw⟩ := BaseMqttSender.setRetryData_keepsClient s1 _
        refine ⟨hw, ?_⟩
        unfold BaseMqttSender.setRetryData
        split_ifs <;> rfl
    · exact ⟨rfl, rfl⟩

/-- The single-value case of `Send` ends with the sender and the call log in which
`mqttPublish` ended. -/
theorem AWSIoTCoreMQTTSender.sendSingle_state {δ : Type} (codec : AwsCodec δ)
    (envAt : Nat → MqttEnv δ) (s : MqttState) (d : δ) (b : Bytes)
    (hmarshal : codec.marshal d = .ok b) :
    (AWSIoTCoreMQTTSender.sendSingle codec envAt s d).1.world =
      (AWSIoTCoreMQTTSender.mqttPublish (envAt 0) s b).1.world ∧
    (AWSIoTCoreMQTTSender.sendSingle codec envAt s d).1.sender =
      (AWSIoTCoreMQTTSender.mqttPublish (envAt 0) s b).1.sender := by
  unfold AWSIoTCoreMQTTSender.sendSingle
  simp only [hmarshal]
  split
  · refine ⟨(BaseMqttSender.setRetryData_keepsClient _ _).2, ?_⟩
    unfold BaseMqttSender.setRetryData
    split_ifs <;> rfl
  · exact ⟨rfl, rfl⟩

/-- C5 (counterexample to the claim as stated): the AWS IoT Core sender runs the
initialization once per item of a batch. The sender does not use the shared client, holds
client `3` and is stale; the factory fails. A `Send` with a batch of two coercible items
calls `Create` twice, and a `Send` with the empty batch does not call it at all. -/
theorem aws_batch_send_repeats_create_counterexample :
    ((staleSenderState true).sender.usingSharedClient = false ∧
      (staleSenderState true).sender.client = some 3 ∧
      (staleSenderState true).sender.secretsLastRetrieved
        < (staleSenderState true).ctx.SecretsLastUpdated) ∧
    (AWSIoTCoreMQTTSender.Send itemCodec (fun _ => brokerEnv false (.error "no secret"))
      (staleSenderState true)
      (some (AwsData.batch [Item.text "a", Item.text "b"]))).1.world.calls
      = [MqttCall.create, MqttCall.create] ∧
    (AWSIoTCoreMQTTSender.Send itemCodec (fun _ => brokerEnv false (.error "no secret"))
      (staleSenderState true)
      (some (AwsData.batch [Item.text "a", Item.text "b"]))).1.world.createCount = 2 ∧
    (AWSIoTCoreMQTTSender.Send itemCodec (fun _ => brokerEnv false (.error "no secret"))
      (staleSenderState true) (some (AwsData.batch []))).1.world.calls = [] := by
  decide

/-- C5 (amended): the sender does not use the shared client, holds a client and its
`secretsLastRetrieved` is before `ctx.SecretsLastUpdated()`. A `Send` of the regular, the
Azure IoT Hub or the IBM Watson sender with non-nil coercible data, and a `Send` of the AWS
IoT Core sender with a single value that can be marshalled, calls `mqttClientFactory.Create`
exactly once, before every other call of that send on the MQTT library (so before any
connect or publish), and when `Create` succeeds the sender's client afterwards is the newly
created one. A `Send` of the AWS IoT Core sender with a non-empty batch of coercible items
calls `Create` before every other call as well, but runs the initialization for every item:
it calls `Create` exactly once when the first `Create` succeeds at a time not before
`ctx.SecretsLastUpdated()`, the client afterwards being the created one, and once per item
when the factory keeps failing. -/
theorem stale_sender_send_recreates_client {δ : Type} (codec : AwsCodec δ)
    (envAt : Nat → MqttEnv δ) (s : MqttState) (d : δ) (more : List δ) (b single : Bytes)
    (held : ClientId)
    (hshared : s.sender.usingSharedClient = false)
    (hclient : s.sender.client = some held)
    (hstale : s.sender.secretsLastRetrieved < s.ctx.SecretsLastUpdated)
    (hcoerce : (envAt 0).coerceType d = .ok b)
    (hmarshal : codec.marshal d = .ok single)
    (hitems : ∀ item ∈ d :: more, ∃ bytes, codec.coerceType item = .ok bytes) :
    (∀ after ∈ [(RegularMQTTSender.Send (envAt 0) s (some d)).1,
                (AzureIoTHubMQTTSender.Send (envAt 0) s (some d)).1,
                (IBMWatsonMQTTSender.Send (envAt 0) s (some d)).1,
                (AWSIoTCoreMQTTSender.Send codec envAt s (some (AwsData.single d))).1],
      (∃ rest, after.world.calls = s.world.calls ++ MqttCall.create :: rest ∧
        MqttCall.create ∉ rest) ∧
      after.world.createCount = s.world.createCount + 1 ∧
      (∀ client, (envAt 0).create = .ok client → after.sender.client = some client) ∧
      (∀ cause, (envAt 0).create = .error cause → after.sender.client = some held)) ∧
    (∃ rest,
      (AWSIoTCoreMQTTSender.Send codec envAt s (some (AwsData.batch (d :: more)))).1.world.calls
        = s.world.calls ++ MqttCall.create :: rest) ∧
    (∀ client, (envAt 0).create = .ok client → s.ctx.SecretsLastUpdated ≤ (envAt 0).now →
      (AWSIoTCoreMQTTSender.Send codec envAt s
        (some (AwsData.batch (d :: more)))).1.world.createCount = s.world.createCount + 1 ∧
      (AWSIoTCoreMQTTSender.Send codec envAt s
        (some (AwsData.batch (d :: more)))).1.sender.client = some client) ∧
    ((∀ k, ∃ cause, (envAt k).create = .error cause) →
      (AWSIoTCoreMQTTSender.Send codec envAt s
        (some (AwsData.batch (d :: more)))).1.world.calls
        = s.world.calls ++ List.replicate (more.length + 1) MqttCall.create ∧
      (AWSIoTCoreMQTTSender.Send codec envAt s
        (some (AwsData.batch (d :: more)))).1.sender.client = some held) := by
  have hreg := RegularMQTTSender.Send_recreates_stale_client (envAt 0) s d b held hshared
    hclient hstale hcoerce
  obtain ⟨m1, m2, m3⟩ := AWSIoTCoreMQTTSender.mqttPublish_of_stale (envAt 0) s single hshared
    hstale
  obtain ⟨w1, w2⟩ := AWSIoTCoreMQTTSender.sendSingle_state codec envAt s d single hmarshal
  obtain ⟨v1, v2⟩ := AWSIoTCoreMQTTSender.sendBatch_state codec envAt s (d :: more)
  obtain ⟨first, hfirst⟩ := hitems d (List.mem_cons_self _ _)
  obtain ⟨n1, n2, n3⟩ := AWSIoTCoreMQTTSender.mqttPublish_of_stale (envAt 0) s first hshared
    hstale
  have hstep : (AWSIoTCoreMQTTSender.publishBatch codec envAt 0 (d :: more) s []).1 =
      (AWSIoTCoreMQTTSender.publishBatch codec envAt 1 more
        (AWSIoTCoreMQTTSender.mqttPublish (envAt 0) s first).1
        (if (AWSIoTCoreMQTTSender.mqttPublish (envAt 0) s first).2.isSome then [] ++ [first]
          else [])).1 := by
    rw [AWSIoTCoreMQTTSender.publishBatch]
    simp only [hfirst]
  have hbatch : (AWSIoTCoreMQTTSender.Send codec envAt s
      (some (AwsData.batch (d :: more)))) =
      AWSIoTCoreMQTTSender.sendBatch codec envAt s (d :: more) := rfl
  refine ⟨?_, ?_, ?_, ?_⟩
  · intro after hafter
    simp only [List.mem_cons, List.mem_singleton, List.not_mem_nil, or_false] at hafter
    rcases hafter with h | h | h | h
    · rw [h]; exact hreg
    · rw [h]; exact hreg
    · rw [h]; exact hreg
    · have hsingle : (AWSIoTCoreMQTTSender.Send codec envAt s (some (AwsData.single d))) =
          AWSIoTCoreMQTTSender.sendSingle codec envAt s d := rfl
      rw [h, hsingle, w1, w2]
      obtain ⟨rest, hr1, hr2⟩ := m1
      refine ⟨⟨rest, hr1, hr2⟩, MqttWorld.createCount_append_create _ _ rest hr1 hr2, ?_, ?_⟩
      · intro client hcreate
        exact (m2 client hcreate).1
      · intro cause hcreate
        rw [m3 cause hcreate]
        exact hclient
  · obtain ⟨rest, hr1, _⟩ := n1
    obtain ⟨rest2, hr2⟩ := AWSIoTCoreMQTTSender.publishBatch_calls codec envAt 1 more
      (AWSIoTCoreMQTTSender.mqttPublish (envAt 0) s first).1
      (if (AWSIoTCoreMQTTSender.mqttPublish (envAt 0) s first).2.isSome then [] ++ [first]
        else [])
    refine ⟨rest ++ rest2, ?_⟩
    rw [hbatch, v1, hstep, hr2, hr1]
    simp
  · intro client hcreate hnow
    obtain ⟨c1, c2⟩ := n2 client hcreate
    obtain ⟨k1, _, _, _, _, k6⟩ := AWSIoTCoreMQTTSender.publishBatch_of_ready codec envAt 1 more
      (AWSIoTCoreMQTTSender.mqttPublish (envAt 0) s first).1
      (if (AWSIoTCoreMQTTSender.mqttPublish (envAt 0) s first).2.isSome then [] ++ [first]
        else []) (c2 hnow)
    obtain ⟨rest, hr1, hr2⟩ := n1
    refine ⟨?_, ?_⟩
    · rw [hbatch, v1, hstep, k6]
      exact MqttWorld.createCount_append_create _ _ rest hr1 hr2
    · rw [hbatch, v2, hstep, k1]
      exact c1
  · intro hfail
    have hall := AWSIoTCoreMQTTSender.publishBatch_of_failing_factory codec envAt 0 (d :: more) s
      [] hshared hstale hfail hitems
    refine ⟨?_, ?_⟩
    · rw [hbatch, v1, hall]
      simp
    · rw [hbatch, v2, hall]
      exact hclient

/-- A stale sender holding client `3` sends the item `a`, or the batch of `a` and `b`. With a
factory that creates client `7` at time `9`, the regular sender and the AWS IoT Core sender
given the batch call `Create` once and hold client `7`; with a failing factory the batch
makes two `Create` calls and the sender keeps client `3`. -/
theorem stale_sender_send_recreates_client_witness :
    ((RegularMQTTSender.Send (brokerEnv true (.ok 7)) (staleSenderState true)
        (some (Item.text "a"))).1.world.createCount
        = (staleSenderState true).world.createCount + 1 ∧
      (RegularMQTTSender.Send (brokerEnv true (.ok 7)) (staleSenderState true)
        (some (Item.text "a"))).1.sender.client = some 7) ∧
    ((AWSIoTCoreMQTTSender.Send itemCodec (fun _ => brokerEnv true (.ok 7))
        (staleSenderState true)
        (some (AwsData.batch [Item.text "a", Item.text "b"]))).1.world.createCount
        = (staleSenderState true).world.createCount + 1 ∧
      (AWSIoTCoreMQTTSender.Send itemCodec (fun _ => brokerEnv true (.ok 7))
        (staleSenderState true)
        (some (AwsData.batch [Item.text "a", Item.text "b"]))).1.sender.client = some 7) ∧
    ((AWSIoTCoreMQTTSender.Send itemCodec (fun _ => brokerEnv false (.error "no secret"))
        (staleSenderState true)
        (some (AwsData.batch [Item.text "a", Item.text "b"]))).1.world.calls
        = (staleSenderState true).world.calls ++ List.replicate 2 MqttCall.create ∧
      (AWSIoTCoreMQTTSender.Send itemCodec (fun _ => brokerEnv false (.error "no secret"))
        (staleSenderState true)
        (some (AwsData.batch [Item.text "a", Item.text "b"]))).1.sender.client = some 3) :=
  have hok := stale_sender_send_recreates_client itemCodec (fun _ => brokerEnv true (.ok 7))
    (staleSenderState true) (Item.text "a") [Item.text "b"] (stringBytes "a")
    (stringBytes "\"a\"") 3 rfl rfl (by decide) rfl rfl
    (fun item _ => by cases item <;> exact ⟨_, rfl⟩)
  have hfail := stale_sender_send_recreates_client itemCodec
    (fun _ => brokerEnv false (.error "no secret"))
    (staleSenderState true) (Item.text "a") [Item.text "b"] (stringBytes "a")
    (stringBytes "\"a\"") 3 rfl rfl (by decide) rfl rfl
    (fun item _ => by cases item <;> exact ⟨_, rfl⟩)
  ⟨⟨(hok.1 _ (List.mem_cons_self _ _)).2.1, (hok.1 _ (List.mem_cons_self _ _)).2.2.1 7 rfl⟩,
    hok.2.2.1 7 rfl (by decide),
    hfail.2.2.2 (fun _ => ⟨"no secret", rfl⟩)⟩

end Xpert
